import Mathlib

/-!
# Scalar turbulence diffusion kernel (nemo_turb_diffusion.cpp)

A shallow embedding of `CNEMOAvgGrad_Scalar::ComputeResidual` and of the three
`FinishResidualCalc` overrides (`CNEMOAvgGrad_TurbSA`, `CNEMOAvgGrad_TurbSA_Neg`,
`CNEMOAvgGrad_TurbSST`).

Modelling conventions.

* `su2double` is the field of rationals: every operation is exact, and the
  comparisons `== 0.0` and `> 0.0` are the rational ones.  This embedding settles which
  expression the code evaluates and what holds of it in exact arithmetic.  A second
  embedding of the same lines, in the namespace `IEEE`, reads `su2double` as IEEE 754
  binary64 and is used to evaluate the code where rounding, overflow or underflow matter.
* `a / b` is the division of `ℚ`.  Every `/` of the source additionally appends
  its divisor, tagged with the place it occurs, to the ghost field `divisions`,
  so that "this call divides by zero" is a statement about that field.
* A C array reached through a pointer is a function of its index; a store
  `a[i] = v` is `Function.update a i v`.
* `nDim`, `nVar` and the loop counters are `unsigned short` in the source.  A
  counter below its bound is at most 65534, so `i++` never wraps and the
  counters are modelled by `Nat`.
* The data the caller installs before a call (`SetCoord`, `SetNormal`,
  `SetTurbVar`, `SetTurbVarGradient`, `SetPrimitive`, `SetF1blending`) is the
  record `EdgeInput`; the members the kernel owns are `CNEMOAvgGrad_Scalar`.
* The `AD::` calls of lines 75-86 and 125-126 mark the pre-accumulation boundary for the
  tape and change no value; they have no counterpart in the state.  What they declare is
  listed separately by `preaccInputs` and `preaccOutputs`.
* The array accesses of a call are listed separately by `accesses`, for the buffers whose
  allocated length is known.
* The last part embeds the two members of `CDriverOutput` (CDriverOutput.cpp) that decide
  whether the screen header is written.
* The header `nemo_turb_diffusion.hpp` and `CNEMONumerics` are not part of the
  sources at hand: the constants `sigma`, `cn1` and the primitive indices
  `RHO_INDEX`, `LAM_VISC_INDEX`, `EDDY_VISC_INDEX` are parameters.
-/

namespace SU2

/-- A `for (i = 0; i < n; i++) body` loop: the body runs for `0, 1, ..., n-1` in this order. -/
def forLoop {σ : Type} (n : Nat) (body : Nat → σ → σ) (s : σ) : σ :=
  match n with
  | 0 => s
  | m + 1 => body m (forLoop m body s)

/-- The places of nemo_turb_diffusion.cpp at which a `/` is evaluated. -/
inductive DivSite
  /-- line 101, `proj_vector_ij/dist_ij_2` -/
  | proj_vector
  /-- lines 145 and 173, `Laminar_Viscosity_i/Density_i` -/
  | nu_i
  /-- lines 146 and 174, `Laminar_Viscosity_j/Density_j` -/
  | nu_j
  /-- line 185, `nu_tilde_ij/nu_ij` -/
  | Xi
  /-- line 186, `(cn1 + Xi*Xi*Xi)/(cn1 - Xi*Xi*Xi)` -/
  | fn
  /-- lines 149 and 190, `.../sigma` in the flux -/
  | flux
  /-- lines 154 and 195, `.../sigma` in `Jacobian_i` -/
  | jacobian_i
  /-- lines 155 and 196, `.../sigma` in `Jacobian_j` -/
  | jacobian_j
  /-- line 244, `proj_vector_ij/Density_i` -/
  | proj_on_rho_i
  /-- line 249, `proj_vector_ij/Density_j` -/
  | proj_on_rho_j
  deriving DecidableEq, Repr

/-- The per-edge data installed by the caller before `ComputeResidual`. -/
structure EdgeInput where
  Coord_i : Nat → ℚ
  Coord_j : Nat → ℚ
  Normal : Nat → ℚ
  TurbVar_i : Nat → ℚ
  TurbVar_j : Nat → ℚ
  TurbVar_Grad_i : Nat → Nat → ℚ
  TurbVar_Grad_j : Nat → Nat → ℚ
  V_i : Nat → ℚ
  V_j : Nat → ℚ
  F1_i : ℚ
  F1_j : ℚ

/-- The class that overrides `FinishResidualCalc`, with the constants it owns. -/
inductive Closure
  | TurbSA (sigma : ℚ)
  | TurbSA_Neg (sigma cn1 : ℚ)
  | TurbSST (sigma_k1 sigma_k2 sigma_om1 sigma_om2 : ℚ)

/-- The members of a `CNEMOAvgGrad_Scalar` object. -/
@[ext]
structure CNEMOAvgGrad_Scalar where
  nDim : Nat
  nVar : Nat
  RHO_INDEX : Nat
  LAM_VISC_INDEX : Nat
  EDDY_VISC_INDEX : Nat
  correct_gradient : Bool
  implicit : Bool
  incompressible : Bool
  Density_i : ℚ
  Density_j : ℚ
  Laminar_Viscosity_i : ℚ
  Laminar_Viscosity_j : ℚ
  Eddy_Viscosity_i : ℚ
  Eddy_Viscosity_j : ℚ
  Edge_Vector : Nat → ℚ
  dist_ij_2 : ℚ
  proj_vector_ij : ℚ
  Proj_Mean_GradTurbVar_Normal : Nat → ℚ
  Proj_Mean_GradTurbVar_Edge : Nat → ℚ
  Proj_Mean_GradTurbVar : Nat → ℚ
  Flux : Nat → ℚ
  Jacobian_i : Nat → Nat → ℚ
  Jacobian_j : Nat → Nat → ℚ
  /-- ghost: the divisions evaluated by the current call, in program order -/
  divisions : List (DivSite × ℚ)

namespace CNEMOAvgGrad_Scalar

/-- Lines 31-52.  The three projection buffers, `Flux` and both Jacobian blocks are
value-initialised (`new su2double [nVar] ()`); the members the constructor does not
mention are written by every call before they are read and start at zero here. -/
def ctor (val_nDim val_nVar : Nat) (correct_grad : Bool) (EULER_IMPLICIT INCOMPRESSIBLE : Bool)
    (RHO_INDEX LAM_VISC_INDEX EDDY_VISC_INDEX : Nat) : CNEMOAvgGrad_Scalar :=
  { nDim := val_nDim
    nVar := val_nVar
    RHO_INDEX := RHO_INDEX
    LAM_VISC_INDEX := LAM_VISC_INDEX
    EDDY_VISC_INDEX := EDDY_VISC_INDEX
    correct_gradient := correct_grad
    implicit := EULER_IMPLICIT
    incompressible := INCOMPRESSIBLE
    Density_i := 0
    Density_j := 0
    Laminar_Viscosity_i := 0
    Laminar_Viscosity_j := 0
    Eddy_Viscosity_i := 0
    Eddy_Viscosity_j := 0
    Edge_Vector := fun _ => 0
    dist_ij_2 := 0
    proj_vector_ij := 0
    Proj_Mean_GradTurbVar_Normal := fun _ => 0
    Proj_Mean_GradTurbVar_Edge := fun _ => 0
    Proj_Mean_GradTurbVar := fun _ => 0
    Flux := fun _ => 0
    Jacobian_i := fun _ _ => 0
    Jacobian_j := fun _ _ => 0
    divisions := [] }

/-- Lines 88-90: the primitives are copied out of `V_i`, `V_j`. -/
def loadPrimitives (inp : EdgeInput) (s : CNEMOAvgGrad_Scalar) : CNEMOAvgGrad_Scalar :=
  { s with
    Density_i := inp.V_i s.RHO_INDEX
    Density_j := inp.V_j s.RHO_INDEX
    Laminar_Viscosity_i := inp.V_i s.LAM_VISC_INDEX
    Laminar_Viscosity_j := inp.V_j s.LAM_VISC_INDEX
    Eddy_Viscosity_i := inp.V_i s.EDDY_VISC_INDEX
    Eddy_Viscosity_j := inp.V_j s.EDDY_VISC_INDEX }

/-- Lines 96-98: the body of the loop over `iDim` that builds the edge vector. -/
def edgeBody (inp : EdgeInput) (iDim : Nat) (s : CNEMOAvgGrad_Scalar) : CNEMOAvgGrad_Scalar :=
  let e := inp.Coord_j iDim - inp.Coord_i iDim
  { s with
    Edge_Vector := Function.update s.Edge_Vector iDim e
    dist_ij_2 := s.dist_ij_2 + e * e
    proj_vector_ij := s.proj_vector_ij + e * inp.Normal iDim }

/-- Lines 94-101: "Compute vector going from iPoint to jPoint". -/
def edgeVector (inp : EdgeInput) (s : CNEMOAvgGrad_Scalar) : CNEMOAvgGrad_Scalar :=
  let s0 := { s with dist_ij_2 := 0, proj_vector_ij := 0 }
  let s1 := forLoop s0.nDim (edgeBody inp) s0
  if s1.dist_ij_2 = 0 then { s1 with proj_vector_ij := 0 }
  else { s1 with
         proj_vector_ij := s1.proj_vector_ij / s1.dist_ij_2
         divisions := s1.divisions ++ [(DivSite.proj_vector, s1.dist_ij_2)] }

/-- Lines 108-114: the body of the inner loop over `iDim`. -/
def gradBody (inp : EdgeInput) (iVar iDim : Nat) (s : CNEMOAvgGrad_Scalar) :
    CNEMOAvgGrad_Scalar :=
  let Mean_GradTurbVar := 0.5 * (inp.TurbVar_Grad_i iVar iDim + inp.TurbVar_Grad_j iVar iDim)
  let s1 := { s with
    Proj_Mean_GradTurbVar_Normal :=
      Function.update s.Proj_Mean_GradTurbVar_Normal iVar
        (s.Proj_Mean_GradTurbVar_Normal iVar + Mean_GradTurbVar * inp.Normal iDim) }
  if s1.correct_gradient then
    { s1 with
      Proj_Mean_GradTurbVar_Edge :=
        Function.update s1.Proj_Mean_GradTurbVar_Edge iVar
          (s1.Proj_Mean_GradTurbVar_Edge iVar + Mean_GradTurbVar * s1.Edge_Vector iDim) }
  else s1

/-- Lines 105-120: the body of the outer loop over `iVar`. -/
def varBody (inp : EdgeInput) (iVar : Nat) (s : CNEMOAvgGrad_Scalar) : CNEMOAvgGrad_Scalar :=
  let s0 := { s with
    Proj_Mean_GradTurbVar_Normal := Function.update s.Proj_Mean_GradTurbVar_Normal iVar 0
    Proj_Mean_GradTurbVar_Edge := Function.update s.Proj_Mean_GradTurbVar_Edge iVar 0 }
  let s1 := forLoop s0.nDim (gradBody inp iVar) s0
  let s2 := { s1 with
    Proj_Mean_GradTurbVar :=
      Function.update s1.Proj_Mean_GradTurbVar iVar (s1.Proj_Mean_GradTurbVar_Normal iVar) }
  if s2.correct_gradient then
    { s2 with
      Proj_Mean_GradTurbVar :=
        Function.update s2.Proj_Mean_GradTurbVar iVar
          (s2.Proj_Mean_GradTurbVar iVar -
            (s2.Proj_Mean_GradTurbVar_Edge iVar * s2.proj_vector_ij -
              (inp.TurbVar_j iVar - inp.TurbVar_i iVar) * s2.proj_vector_ij)) }
  else s2

/-- Lines 104-121: "Mean gradient approximation". -/
def meanGradient (inp : EdgeInput) (s : CNEMOAvgGrad_Scalar) : CNEMOAvgGrad_Scalar :=
  forLoop s.nVar (varBody inp) s

end CNEMOAvgGrad_Scalar

namespace CNEMOAvgGrad_TurbSA

/-- Line 145. -/
def nu_i (s : CNEMOAvgGrad_Scalar) : ℚ := s.Laminar_Viscosity_i / s.Density_i

/-- Line 146. -/
def nu_j (s : CNEMOAvgGrad_Scalar) : ℚ := s.Laminar_Viscosity_j / s.Density_j

/-- Line 147. -/
def nu_e (inp : EdgeInput) (s : CNEMOAvgGrad_Scalar) : ℚ :=
  0.5 * (nu_i s + nu_j s + inp.TurbVar_i 0 + inp.TurbVar_j 0)

/-- Lines 141-158. -/
def FinishResidualCalc (sigma : ℚ) (inp : EdgeInput) (s : CNEMOAvgGrad_Scalar) :
    CNEMOAvgGrad_Scalar :=
  let s1 := { s with
    Flux := Function.update s.Flux 0 (nu_e inp s * s.Proj_Mean_GradTurbVar 0 / sigma)
    divisions := s.divisions ++
      [(DivSite.nu_i, s.Density_i), (DivSite.nu_j, s.Density_j), (DivSite.flux, sigma)] }
  if s1.implicit then
    { s1 with
      Jacobian_i := Function.update s1.Jacobian_i 0 (Function.update (s1.Jacobian_i 0) 0
        ((0.5 * s1.Proj_Mean_GradTurbVar 0 - nu_e inp s * s1.proj_vector_ij) / sigma))
      Jacobian_j := Function.update s1.Jacobian_j 0 (Function.update (s1.Jacobian_j 0) 0
        ((0.5 * s1.Proj_Mean_GradTurbVar 0 + nu_e inp s * s1.proj_vector_ij) / sigma))
      divisions := s1.divisions ++ [(DivSite.jacobian_i, sigma), (DivSite.jacobian_j, sigma)] }
  else s1

end CNEMOAvgGrad_TurbSA

namespace CNEMOAvgGrad_TurbSA_Neg

/-- Line 173. -/
def nu_i (s : CNEMOAvgGrad_Scalar) : ℚ := s.Laminar_Viscosity_i / s.Density_i

/-- Line 174. -/
def nu_j (s : CNEMOAvgGrad_Scalar) : ℚ := s.Laminar_Viscosity_j / s.Density_j

/-- Line 176. -/
def nu_ij (s : CNEMOAvgGrad_Scalar) : ℚ := 0.5 * (nu_i s + nu_j s)

/-- Line 177. -/
def nu_tilde_ij (inp : EdgeInput) : ℚ := 0.5 * (inp.TurbVar_i 0 + inp.TurbVar_j 0)

/-- Line 185. -/
def Xi (inp : EdgeInput) (s : CNEMOAvgGrad_Scalar) : ℚ := nu_tilde_ij inp / nu_ij s

/-- Line 186. -/
def fn (cn1 : ℚ) (inp : EdgeInput) (s : CNEMOAvgGrad_Scalar) : ℚ :=
  (cn1 + Xi inp s * Xi inp s * Xi inp s) / (cn1 - Xi inp s * Xi inp s * Xi inp s)

/-- Lines 179-188. -/
def nu_e (cn1 : ℚ) (inp : EdgeInput) (s : CNEMOAvgGrad_Scalar) : ℚ :=
  if nu_tilde_ij inp > 0 then nu_ij s + nu_tilde_ij inp
  else nu_ij s + fn cn1 inp s * nu_tilde_ij inp

/-- The divisors of lines 173-188, in program order: the two of lines 185-186 are met only on
the `else` branch. -/
def nu_e_divisions (cn1 : ℚ) (inp : EdgeInput) (s : CNEMOAvgGrad_Scalar) : List (DivSite × ℚ) :=
  [(DivSite.nu_i, s.Density_i), (DivSite.nu_j, s.Density_j)] ++
    (if nu_tilde_ij inp > 0 then []
     else [(DivSite.Xi, nu_ij s), (DivSite.fn, cn1 - Xi inp s * Xi inp s * Xi inp s)])

/-- Lines 169-199. -/
def FinishResidualCalc (sigma cn1 : ℚ) (inp : EdgeInput) (s : CNEMOAvgGrad_Scalar) :
    CNEMOAvgGrad_Scalar :=
  let s1 := { s with
    Flux := Function.update s.Flux 0 (nu_e cn1 inp s * s.Proj_Mean_GradTurbVar_Normal 0 / sigma)
    divisions := s.divisions ++ nu_e_divisions cn1 inp s ++ [(DivSite.flux, sigma)] }
  if s1.implicit then
    { s1 with
      Jacobian_i := Function.update s1.Jacobian_i 0 (Function.update (s1.Jacobian_i 0) 0
        ((0.5 * s1.Proj_Mean_GradTurbVar 0 - nu_e cn1 inp s * s1.proj_vector_ij) / sigma))
      Jacobian_j := Function.update s1.Jacobian_j 0 (Function.update (s1.Jacobian_j 0) 0
        ((0.5 * s1.Proj_Mean_GradTurbVar 0 + nu_e cn1 inp s * s1.proj_vector_ij) / sigma))
      divisions := s1.divisions ++ [(DivSite.jacobian_i, sigma), (DivSite.jacobian_j, sigma)] }
  else s1

end CNEMOAvgGrad_TurbSA_Neg

namespace CNEMOAvgGrad_TurbSST

/-- Line 225. -/
def sigma_kine_i (sigma_k1 sigma_k2 : ℚ) (inp : EdgeInput) : ℚ :=
  inp.F1_i * sigma_k1 + (1.0 - inp.F1_i) * sigma_k2

/-- Line 226. -/
def sigma_kine_j (sigma_k1 sigma_k2 : ℚ) (inp : EdgeInput) : ℚ :=
  inp.F1_j * sigma_k1 + (1.0 - inp.F1_j) * sigma_k2

/-- Line 227. -/
def sigma_omega_i (sigma_om1 sigma_om2 : ℚ) (inp : EdgeInput) : ℚ :=
  inp.F1_i * sigma_om1 + (1.0 - inp.F1_i) * sigma_om2

/-- Line 228. -/
def sigma_omega_j (sigma_om1 sigma_om2 : ℚ) (inp : EdgeInput) : ℚ :=
  inp.F1_j * sigma_om1 + (1.0 - inp.F1_j) * sigma_om2

/-- Lines 231, 232 and 236. -/
def diff_kine (sigma_k1 sigma_k2 : ℚ) (inp : EdgeInput) (s : CNEMOAvgGrad_Scalar) : ℚ :=
  let diff_i_kine := s.Laminar_Viscosity_i + sigma_kine_i sigma_k1 sigma_k2 inp * s.Eddy_Viscosity_i
  let diff_j_kine := s.Laminar_Viscosity_j + sigma_kine_j sigma_k1 sigma_k2 inp * s.Eddy_Viscosity_j
  0.5 * (diff_i_kine + diff_j_kine)

/-- Lines 233, 234 and 237. -/
def diff_omega (sigma_om1 sigma_om2 : ℚ) (inp : EdgeInput) (s : CNEMOAvgGrad_Scalar) : ℚ :=
  let diff_i_omega :=
    s.Laminar_Viscosity_i + sigma_omega_i sigma_om1 sigma_om2 inp * s.Eddy_Viscosity_i
  let diff_j_omega :=
    s.Laminar_Viscosity_j + sigma_omega_j sigma_om1 sigma_om2 inp * s.Eddy_Viscosity_j
  0.5 * (diff_i_omega + diff_j_omega)

/-- Lines 219-255.  The four stores into a Jacobian block are made in the order of the
source: `[0][0]`, `[0][1]`, `[1][0]`, `[1][1]`. -/
def FinishResidualCalc (sigma_k1 sigma_k2 sigma_om1 sigma_om2 : ℚ) (inp : EdgeInput)
    (s : CNEMOAvgGrad_Scalar) : CNEMOAvgGrad_Scalar :=
  let dk := diff_kine sigma_k1 sigma_k2 inp s
  let dw := diff_omega sigma_om1 sigma_om2 inp s
  let s1 := { s with
    Flux := Function.update (Function.update s.Flux 0 (dk * s.Proj_Mean_GradTurbVar 0)) 1
      (dw * s.Proj_Mean_GradTurbVar 1) }
  if s1.implicit then
    let store (J : Nat → Nat → ℚ) (r c : Nat) (v : ℚ) : Nat → Nat → ℚ :=
      Function.update J r (Function.update (J r) c v)
    let proj_on_rho_i := s1.proj_vector_ij / s1.Density_i
    let proj_on_rho_j := s1.proj_vector_ij / s1.Density_j
    { s1 with
      Jacobian_i :=
        store (store (store (store s1.Jacobian_i 0 0 (-dk * proj_on_rho_i)) 0 1 0.0) 1 0 0.0)
          1 1 (-dw * proj_on_rho_i)
      Jacobian_j :=
        store (store (store (store s1.Jacobian_j 0 0 (dk * proj_on_rho_j)) 0 1 0.0) 1 0 0.0)
          1 1 (dw * proj_on_rho_j)
      divisions := s1.divisions ++
        [(DivSite.proj_on_rho_i, s1.Density_i), (DivSite.proj_on_rho_j, s1.Density_j)] }
  else s1

end CNEMOAvgGrad_TurbSST

namespace CNEMOAvgGrad_Scalar

/-- The virtual call of line 123, resolved by the dynamic class of the object. -/
def FinishResidualCalc (c : Closure) (inp : EdgeInput) (s : CNEMOAvgGrad_Scalar) :
    CNEMOAvgGrad_Scalar :=
  match c with
  | Closure.TurbSA sigma => CNEMOAvgGrad_TurbSA.FinishResidualCalc sigma inp s
  | Closure.TurbSA_Neg sigma cn1 => CNEMOAvgGrad_TurbSA_Neg.FinishResidualCalc sigma cn1 inp s
  | Closure.TurbSST sigma_k1 sigma_k2 sigma_om1 sigma_om2 =>
      CNEMOAvgGrad_TurbSST.FinishResidualCalc sigma_k1 sigma_k2 sigma_om1 sigma_om2 inp s

/-- Lines 71-121: the object just before the virtual call of line 123.  The ghost trace
starts empty at each call. -/
def gradientStage (s : CNEMOAvgGrad_Scalar) (inp : EdgeInput) : CNEMOAvgGrad_Scalar :=
  meanGradient inp (edgeVector inp (loadPrimitives inp { s with divisions := [] }))

/-- Lines 71-130.  The returned `ResidualType<>(Flux, Jacobian_i, Jacobian_j)` is a view of
the three members of the resulting object. -/
def ComputeResidual (c : Closure) (s : CNEMOAvgGrad_Scalar) (inp : EdgeInput) :
    CNEMOAvgGrad_Scalar :=
  FinishResidualCalc c inp (gradientStage s inp)

end CNEMOAvgGrad_Scalar

/-! ## Closed forms used to state the results -/

/-- The sum over `d < D` of `0.5*(TurbVar_Grad_i[k][d] + TurbVar_Grad_j[k][d]) * v[d]`. -/
def meanGradDot (inp : EdgeInput) (v : Nat → ℚ) (D k : Nat) : ℚ :=
  ∑ d in Finset.range D, 0.5 * (inp.TurbVar_Grad_i k d + inp.TurbVar_Grad_j k d) * v d

/-- The edge vector `Coord_j - Coord_i`. -/
def edgeOf (inp : EdgeInput) (d : Nat) : ℚ := inp.Coord_j d - inp.Coord_i d

/-- The number of transported scalars of a closure class: the number of entries of `Flux`
its `FinishResidualCalc` stores (line 149, line 190, lines 239-240). -/
def Closure.nScalars : Closure → Nat
  | Closure.TurbSA _ => 1
  | Closure.TurbSA_Neg _ _ => 1
  | Closure.TurbSST _ _ _ _ => 2

namespace CNEMOAvgGrad_Scalar

/-- A sequence of calls of `ComputeResidual` on one object, one edge after the other, the
oldest first. -/
def calls (c : Closure) (s : CNEMOAvgGrad_Scalar) (edges : List EdgeInput) :
    CNEMOAvgGrad_Scalar :=
  edges.foldl (ComputeResidual c) s

/-- The squared edge length accumulated by lines 94-99. -/
def dist2Of (inp : EdgeInput) (D : Nat) : ℚ :=
  ∑ d in Finset.range D, edgeOf inp d * edgeOf inp d

/-- The weight left in `proj_vector_ij` by lines 94-101. -/
def weightOf (inp : EdgeInput) (D : Nat) : ℚ :=
  if dist2Of inp D = 0 then 0
  else (∑ d in Finset.range D, edgeOf inp d * inp.Normal d) / dist2Of inp D

/-- The value lines 116-120 leave in `Proj_Mean_GradTurbVar[k]`, from the inputs. -/
def projOf (inp : EdgeInput) (correct : Bool) (D k : Nat) : ℚ :=
  if correct then
    meanGradDot inp inp.Normal D k -
      (meanGradDot inp (edgeOf inp) D k * weightOf inp D -
        (inp.TurbVar_j k - inp.TurbVar_i k) * weightOf inp D)
  else meanGradDot inp inp.Normal D k

/-- The value lines 116-120 leave in `Proj_Mean_GradTurbVar[k]`, from the state at loop entry. -/
def correctedOf (inp : EdgeInput) (s : CNEMOAvgGrad_Scalar) (k : Nat) : ℚ :=
  if s.correct_gradient then
    meanGradDot inp inp.Normal s.nDim k -
      (meanGradDot inp s.Edge_Vector s.nDim k * s.proj_vector_ij -
        (inp.TurbVar_j k - inp.TurbVar_i k) * s.proj_vector_ij)
  else meanGradDot inp inp.Normal s.nDim k

/-- A freshly constructed kernel for two dimensions and one scalar, explicit, without
correction; the primitives are `V[0]` (density), `V[1]` (laminar viscosity) and `V[2]`
(eddy viscosity). -/
def exampleKernel : CNEMOAvgGrad_Scalar := ctor 2 1 false false false 0 1 2

/-- The edge of the worked example: normal `(1,0)`, `Coord_i = (0,0)`, `Coord_j = (1,0)`,
both gradients `(1,0)`, both scalar values `2e-5`, density `1` and laminar viscosity `1e-5`
at both endpoints. -/
def exampleEdge : EdgeInput :=
  { Coord_i := fun _ => 0
    Coord_j := fun d => if d = 0 then 1 else 0
    Normal := fun d => if d = 0 then 1 else 0
    TurbVar_i := fun _ => 2 / 100000
    TurbVar_j := fun _ => 2 / 100000
    TurbVar_Grad_i := fun _ d => if d = 0 then 1 else 0
    TurbVar_Grad_j := fun _ d => if d = 0 then 1 else 0
    V_i := fun n => if n = 0 then 1 else if n = 1 then 1 / 100000 else 0
    V_j := fun n => if n = 0 then 1 else if n = 1 then 1 / 100000 else 0
    F1_i := 0
    F1_j := 0 }

/-- The edge of the worked example with a negative scalar: both scalar values `-1`, density
`1`, laminar viscosity `1` and eddy viscosity `3` at both endpoints, blending weights `1/2`
and `1/4`. -/
def negativeEdge : EdgeInput :=
  { exampleEdge with
    TurbVar_i := fun _ => -1
    TurbVar_j := fun _ => -1
    V_i := fun n => if n = 0 then 1 else if n = 1 then 1 else 3
    V_j := fun n => if n = 0 then 1 else if n = 1 then 1 else 3
    F1_i := 1 / 2
    F1_j := 1 / 4 }

/-- The members fixed by the constructor agree on two objects. -/
def sameSetup (s t : CNEMOAvgGrad_Scalar) : Prop :=
  s.nDim = t.nDim ∧ s.nVar = t.nVar ∧ s.RHO_INDEX = t.RHO_INDEX ∧
    s.LAM_VISC_INDEX = t.LAM_VISC_INDEX ∧ s.EDDY_VISC_INDEX = t.EDDY_VISC_INDEX ∧
    s.correct_gradient = t.correct_gradient ∧ s.implicit = t.implicit

/-- The entries of `Flux`, `Jacobian_i` and `Jacobian_j` that the closure class never
stores still hold the zeros of the constructor: the entries of `Flux` from index `nScalars`
on, and the entries of the blocks outside the leading `nScalars x nScalars` square, or
every entry of the blocks when the kernel is not implicit. -/
def unwrittenZero (c : Closure) (s : CNEMOAvgGrad_Scalar) : Prop :=
  (∀ k, c.nScalars ≤ k → s.Flux k = 0) ∧
    (∀ a b, (s.implicit = true → ¬ (a < c.nScalars ∧ b < c.nScalars)) →
      s.Jacobian_i a b = 0 ∧ s.Jacobian_j a b = 0)

/-- A freshly constructed implicit kernel with correction, two dimensions, one scalar. -/
def implicitKernel : CNEMOAvgGrad_Scalar := ctor 2 1 true true false 0 1 2

/-- A freshly constructed implicit kernel with correction, two dimensions, two scalars. -/
def twoEquationKernel : CNEMOAvgGrad_Scalar := ctor 2 2 true true false 0 1 2

/-- The negative edge with vanishing laminar viscosity at both endpoints, so that
`nu_ij = 0` while `scalar_ij = -1`. -/
def inviscidEdge : EdgeInput :=
  { negativeEdge with
    V_i := fun n => if n = 0 then 1 else if n = 1 then 0 else 3
    V_j := fun n => if n = 0 then 1 else if n = 1 then 0 else 3 }

/-- The worked example with the scalar value of endpoint i changed to `7`. -/
def otherScalarEdge : EdgeInput :=
  { exampleEdge with TurbVar_i := fun _ => 7 }

end CNEMOAvgGrad_Scalar

/-! ## The pre-accumulation boundary -/

/-- One scalar handed to `AD::SetPreaccIn`. -/
inductive PreaccInput
  | Coord_i (iDim : Nat)
  | Coord_j (iDim : Nat)
  | Normal (iDim : Nat)
  | TurbVar_Grad_i (iVar iDim : Nat)
  | TurbVar_Grad_j (iVar iDim : Nat)
  | TurbVar_i (iVar : Nat)
  | TurbVar_j (iVar : Nat)
  | F1_i
  | F1_j
  | V_i (n : Nat)
  | V_j (n : Nat)
  deriving DecidableEq

/-- The value of a declared scalar on an edge. -/
def EdgeInput.read (inp : EdgeInput) : PreaccInput → ℚ
  | PreaccInput.Coord_i d => inp.Coord_i d
  | PreaccInput.Coord_j d => inp.Coord_j d
  | PreaccInput.Normal d => inp.Normal d
  | PreaccInput.TurbVar_Grad_i k d => inp.TurbVar_Grad_i k d
  | PreaccInput.TurbVar_Grad_j k d => inp.TurbVar_Grad_j k d
  | PreaccInput.TurbVar_i k => inp.TurbVar_i k
  | PreaccInput.TurbVar_j k => inp.TurbVar_j k
  | PreaccInput.F1_i => inp.F1_i
  | PreaccInput.F1_j => inp.F1_j
  | PreaccInput.V_i n => inp.V_i n
  | PreaccInput.V_j n => inp.V_j n

/-- Line 139: `CNEMOAvgGrad_TurbSA::ExtraADPreaccIn() { }`. -/
def CNEMOAvgGrad_TurbSA.ExtraADPreaccIn : List PreaccInput := []

/-- Line 167: `CNEMOAvgGrad_TurbSA_Neg::ExtraADPreaccIn() { }`. -/
def CNEMOAvgGrad_TurbSA_Neg.ExtraADPreaccIn : List PreaccInput := []

/-- Lines 215-217: `AD::SetPreaccIn(F1_i); AD::SetPreaccIn(F1_j);`. -/
def CNEMOAvgGrad_TurbSST.ExtraADPreaccIn : List PreaccInput :=
  [PreaccInput.F1_i, PreaccInput.F1_j]

namespace CNEMOAvgGrad_Scalar

/-- The virtual call of line 83, resolved by the dynamic class of the object. -/
def ExtraADPreaccIn : Closure → List PreaccInput
  | Closure.TurbSA _ => CNEMOAvgGrad_TurbSA.ExtraADPreaccIn
  | Closure.TurbSA_Neg _ _ => CNEMOAvgGrad_TurbSA_Neg.ExtraADPreaccIn
  | Closure.TurbSST _ _ _ _ => CNEMOAvgGrad_TurbSST.ExtraADPreaccIn

/-- Lines 75-86: the scalars declared between `AD::StartPreacc()` and the computation, in
the order of the source.  `SetPreaccIn(p, n)` declares `p[0..n-1]` and
`SetPreaccIn(p, n, m)` declares `p[0..n-1][0..m-1]`. -/
def preaccInputs (c : Closure) (s : CNEMOAvgGrad_Scalar) : List PreaccInput :=
  (List.range s.nDim).map PreaccInput.Coord_i ++
    (List.range s.nDim).map PreaccInput.Coord_j ++
    (List.range s.nDim).map PreaccInput.Normal ++
    (List.range s.nVar).flatMap (fun k => (List.range s.nDim).map (PreaccInput.TurbVar_Grad_i k)) ++
    (List.range s.nVar).flatMap (fun k => (List.range s.nDim).map (PreaccInput.TurbVar_Grad_j k)) ++
    (if s.correct_gradient then
      (List.range s.nVar).map PreaccInput.TurbVar_i ++
        (List.range s.nVar).map PreaccInput.TurbVar_j
     else []) ++
    ExtraADPreaccIn c ++
    (List.range (s.nDim + 7)).map PreaccInput.V_i ++
    (List.range (s.nDim + 7)).map PreaccInput.V_j

/-- Line 125: `AD::SetPreaccOut(Flux, nVar)` declares `Flux[0..nVar-1]`. -/
def preaccOutputs (s : CNEMOAvgGrad_Scalar) : List Nat := List.range s.nVar

end CNEMOAvgGrad_Scalar

/-! ## The array accesses of a call -/

/-- The arrays whose length is known from the constructor (lines 41-51) or from the shape of
the inputs.  `Edge_Vector`, `V_i` and `V_j` are allocated outside the sources at hand and
are not tracked. -/
inductive Buffer
  | Flux
  | Jacobian_i
  | Jacobian_j
  | Proj_Mean_GradTurbVar_Normal
  | Proj_Mean_GradTurbVar_Edge
  | Proj_Mean_GradTurbVar
  | TurbVar_i
  | TurbVar_j
  | TurbVar_Grad_i
  | TurbVar_Grad_j
  | Coord_i
  | Coord_j
  | Normal
  deriving DecidableEq

/-- The number of rows of a buffer: `nVar` for what the constructor allocates and for the
scalar values and gradients, `nDim` for the coordinates and the normal. -/
def Buffer.rows (nVar nDim : Nat) : Buffer → Nat
  | Buffer.Coord_i => nDim
  | Buffer.Coord_j => nDim
  | Buffer.Normal => nDim
  | _ => nVar

/-- The length of a row: `nVar` for the Jacobian blocks, `nDim` for the gradients, and `1`
for a one-dimensional array. -/
def Buffer.cols (nVar nDim : Nat) : Buffer → Nat
  | Buffer.Jacobian_i => nVar
  | Buffer.Jacobian_j => nVar
  | Buffer.TurbVar_Grad_i => nDim
  | Buffer.TurbVar_Grad_j => nDim
  | _ => 1

/-- A read or a write `b[row][col]`, or `b[row]` with `col = 0` for a one-dimensional
array. -/
structure Access where
  buffer : Buffer
  row : Nat
  col : Nat
  deriving DecidableEq

/-- The index of an access lies below the allocated length. -/
def Access.inBounds (nVar nDim : Nat) (a : Access) : Prop :=
  a.row < a.buffer.rows nVar nDim ∧ a.col < a.buffer.cols nVar nDim

/-- A `for (i = i0; i < n; i++) body` loop with an `unsigned short` counter, run for at most
`fuel` evaluations of the loop test: `none` when they do not suffice. -/
def forLoopU16 {σ : Type} (fuel : Nat) (i n : Nat) (body : Nat → σ → σ) (s : σ) : Option σ :=
  match fuel with
  | 0 => none
  | fuel + 1 =>
    if i < n then forLoopU16 fuel ((i + 1) % 65536) n body (body i s) else some s

namespace CNEMOAvgGrad_Scalar

/-- Lines 96-98: the accesses of one pass of the loop that builds the edge vector. -/
def edgeBodyAccesses (iDim : Nat) : List Access :=
  [⟨Buffer.Coord_j, iDim, 0⟩, ⟨Buffer.Coord_i, iDim, 0⟩, ⟨Buffer.Normal, iDim, 0⟩]

/-- Lines 108-114: the accesses of one pass of the inner loop. -/
def gradBodyAccesses (s : CNEMOAvgGrad_Scalar) (iVar iDim : Nat) : List Access :=
  [⟨Buffer.TurbVar_Grad_i, iVar, iDim⟩, ⟨Buffer.TurbVar_Grad_j, iVar, iDim⟩,
    ⟨Buffer.Proj_Mean_GradTurbVar_Normal, iVar, 0⟩, ⟨Buffer.Normal, iDim, 0⟩] ++
    (if s.correct_gradient then [⟨Buffer.Proj_Mean_GradTurbVar_Edge, iVar, 0⟩] else [])

/-- Lines 105-120: the accesses of one pass of the outer loop. -/
def varBodyAccesses (s : CNEMOAvgGrad_Scalar) (iVar : Nat) : List Access :=
  [⟨Buffer.Proj_Mean_GradTurbVar_Normal, iVar, 0⟩, ⟨Buffer.Proj_Mean_GradTurbVar_Edge, iVar, 0⟩] ++
    (List.range s.nDim).flatMap (gradBodyAccesses s iVar) ++
    [⟨Buffer.Proj_Mean_GradTurbVar, iVar, 0⟩, ⟨Buffer.Proj_Mean_GradTurbVar_Normal, iVar, 0⟩] ++
    (if s.correct_gradient then
      [⟨Buffer.Proj_Mean_GradTurbVar, iVar, 0⟩, ⟨Buffer.Proj_Mean_GradTurbVar_Edge, iVar, 0⟩,
        ⟨Buffer.TurbVar_j, iVar, 0⟩, ⟨Buffer.TurbVar_i, iVar, 0⟩]
     else [])

/-- The accesses of the `if (implicit)` block of the single-equation closures, lines 153-156
and 194-197. -/
def jacobianAccesses (s : CNEMOAvgGrad_Scalar) : List Access :=
  if s.implicit then
    [⟨Buffer.Jacobian_i, 0, 0⟩, ⟨Buffer.Proj_Mean_GradTurbVar, 0, 0⟩,
      ⟨Buffer.Jacobian_j, 0, 0⟩, ⟨Buffer.Proj_Mean_GradTurbVar, 0, 0⟩]
  else []

/-- The accesses of `FinishResidualCalc`, by closure class: lines 147-156, 177-197 and
239-253. -/
def finishAccesses (c : Closure) (s : CNEMOAvgGrad_Scalar) : List Access :=
  match c with
  | Closure.TurbSA _ =>
    [⟨Buffer.TurbVar_i, 0, 0⟩, ⟨Buffer.TurbVar_j, 0, 0⟩, ⟨Buffer.Flux, 0, 0⟩,
      ⟨Buffer.Proj_Mean_GradTurbVar, 0, 0⟩] ++ jacobianAccesses s
  | Closure.TurbSA_Neg _ _ =>
    [⟨Buffer.TurbVar_i, 0, 0⟩, ⟨Buffer.TurbVar_j, 0, 0⟩, ⟨Buffer.Flux, 0, 0⟩,
      ⟨Buffer.Proj_Mean_GradTurbVar_Normal, 0, 0⟩] ++ jacobianAccesses s
  | Closure.TurbSST _ _ _ _ =>
    [⟨Buffer.Flux, 0, 0⟩, ⟨Buffer.Proj_Mean_GradTurbVar, 0, 0⟩, ⟨Buffer.Flux, 1, 0⟩,
      ⟨Buffer.Proj_Mean_GradTurbVar, 1, 0⟩] ++
      (if s.implicit then
        [⟨Buffer.Jacobian_i, 0, 0⟩, ⟨Buffer.Jacobian_i, 0, 1⟩, ⟨Buffer.Jacobian_i, 1, 0⟩,
          ⟨Buffer.Jacobian_i, 1, 1⟩, ⟨Buffer.Jacobian_j, 0, 0⟩, ⟨Buffer.Jacobian_j, 0, 1⟩,
          ⟨Buffer.Jacobian_j, 1, 0⟩, ⟨Buffer.Jacobian_j, 1, 1⟩]
       else [])

/-- The accesses of a call of `ComputeResidual` to the tracked buffers, lines 94-123, in
program order. -/
def accesses (c : Closure) (s : CNEMOAvgGrad_Scalar) : List Access :=
  (List.range s.nDim).flatMap edgeBodyAccesses ++
    (List.range s.nVar).flatMap (varBodyAccesses s) ++
    finishAccesses c s

end CNEMOAvgGrad_Scalar

/-! ## The multizone driver output (CDriverOutput.cpp) -/

/-- The members of a `CDriverOutput` object read by `WriteScreen_Header`.  `curOuterIter`
belongs to the base class `COutput`. -/
structure CDriverOutput where
  nZone : Nat
  write_zone : Bool
  curOuterIter : Nat

namespace CDriverOutput

/-- Lines 46-57 of the constructor: `GetWrt_ZoneConv iZone` stands for
`config[iZone]->GetWrt_ZoneConv()`; the value of `curOuterIter` comes from the base class,
whose constructor is not in the sources at hand. -/
def ctor (GetnZone : Nat) (GetWrt_ZoneConv : Nat → Bool) (curOuterIter : Nat) : CDriverOutput :=
  { nZone := GetnZone
    write_zone := forLoop GetnZone (fun iZone _ => GetWrt_ZoneConv iZone) false
    curOuterIter := curOuterIter }

/-- Lines 161-170. -/
def WriteScreen_Header (o : CDriverOutput) : Bool :=
  let write_header := true
  (write_header && decide (o.curOuterIter = 0)) || o.write_zone

end CDriverOutput

/-! ## A second embedding, in IEEE 754 binary64

The same statements of the source with `su2double` read as `double`: every arithmetic
operation is the exact operation followed by one rounding to nearest, ties to even (no fused
multiply-add, no extended precision), with overflow to an infinity, gradual underflow, signed
zeros and NaN.  It is used to evaluate the code at concrete inputs where rounding, overflow
or underflow decide the outcome. -/

namespace IEEE

/-- A value of IEEE 754 binary64 (`su2double` is `double`): a finite number given by its sign
and its magnitude, so that `+0.0` and `-0.0` are told apart, an infinity, or a NaN. -/
inductive Double
  | finite (negative : Bool) (mag : ℚ)
  | inf (negative : Bool)
  | nan
  deriving DecidableEq

namespace Double

/-- The integer part of the binary logarithm of `n`, for `0 < n < 2^8192`, found bit by bit. -/
def ilog2 (n : Nat) : Nat :=
  [4096, 2048, 1024, 512, 256, 128, 64, 32, 16, 8, 4, 2, 1].foldl
    (fun e k => if 2 ^ (e + k) ≤ n then e + k else e) 0

/-- Round the magnitude `q ≥ 0` to the nearest binary64 magnitude, ties to even: 53
significant bits, least exponent `-1022` (below it the spacing stays `2^-1074`).  `none`
stands for overflow, a rounded magnitude of `2^1024` or more. -/
def roundMag (q : ℚ) : Option ℚ :=
  let a := q.num.natAbs
  let b := q.den
  if a = 0 then some 0
  else
    let la := ilog2 a
    let lb := ilog2 b
    let e : Int := if b * 2 ^ la ≤ a * 2 ^ lb then (la : Int) - lb else (la : Int) - lb - 1
    let s : Int := max e (-1022) - 52
    let N := if s < 0 then a * 2 ^ (-s).toNat else a
    let D := if s < 0 then b else b * 2 ^ s.toNat
    let qt := N / D
    let r := N % D
    let n := if 2 * r < D then qt else if D < 2 * r then qt + 1
      else if qt % 2 = 0 then qt else qt + 1
    if s < 0 then some ((n : ℚ) / ((2 ^ (-s).toNat : Nat) : ℚ))
    else if 2 ^ 1024 ≤ n * 2 ^ s.toNat then none
    else some ((n * 2 ^ s.toNat : Nat) : ℚ)

/-- The binary64 value nearest to the number of sign `negative` and magnitude `q`. -/
def round (negative : Bool) (q : ℚ) : Double :=
  match roundMag q with
  | some m => finite negative m
  | none => inf negative

/-- The literal `0.0`, and the value of `new su2double [n] ()`. -/
def zero : Double := finite false 0

/-- The literal `0.5`. -/
def half : Double := finite false (1 / 2)

/-- The literal `1.0`. -/
def one : Double := finite false 1

/-- Unary minus: the sign is flipped, also on a zero and on an infinity. -/
def neg : Double → Double
  | finite s a => finite (!s) a
  | inf s => inf (!s)
  | nan => nan

/-- Addition: the exact sum rounded once; an exact zero sum is `+0.0` unless both terms are
negative zeros; opposite infinities give a NaN. -/
def add : Double → Double → Double
  | nan, _ => nan
  | _, nan => nan
  | inf s, inf t => if s = t then inf s else nan
  | inf s, finite _ _ => inf s
  | finite _ _, inf t => inf t
  | finite s a, finite t b =>
    let v : ℚ := (if s then -a else a) + (if t then -b else b)
    if v.num = 0 then finite (s && t) 0
    else if v.num < 0 then round true (-v) else round false v

/-- Subtraction, `x + (-y)`. -/
def sub (x y : Double) : Double := add x (neg y)

/-- Multiplication: the exact product rounded once, the sign being the exclusive or of the
signs; an infinity times a zero is a NaN. -/
def mul : Double → Double → Double
  | nan, _ => nan
  | _, nan => nan
  | inf s, inf t => inf (xor s t)
  | inf s, finite t b => if b.num = 0 then nan else inf (xor s t)
  | finite s a, inf t => if a.num = 0 then nan else inf (xor s t)
  | finite s a, finite t b => round (xor s t) (a * b)

/-- Division: the exact quotient rounded once; a non-zero number over a zero is an
infinity, `0/0` and `inf/inf` are NaNs. -/
def div : Double → Double → Double
  | nan, _ => nan
  | _, nan => nan
  | inf _, inf _ => nan
  | inf s, finite t _ => inf (xor s t)
  | finite s _, inf t => finite (xor s t) 0
  | finite s a, finite t b =>
    if b.num = 0 then (if a.num = 0 then nan else inf (xor s t))
    else round (xor s t) (a / b)

instance : Neg Double := ⟨neg⟩
instance : Add Double := ⟨add⟩
instance : Sub Double := ⟨sub⟩
instance : Mul Double := ⟨mul⟩
instance : Div Double := ⟨div⟩

/-- `x == 0.0`. -/
def isZero : Double → Bool
  | finite _ a => decide (a.num = 0)
  | _ => false

/-- `x > 0.0`. -/
def isPos : Double → Bool
  | finite s a => !s && decide (a.num ≠ 0)
  | inf s => !s
  | nan => false

/-- The number a finite value stands for (and `0` for an infinity or a NaN). -/
def toRat : Double → ℚ
  | finite s a => if s then -a else a
  | _ => 0

end Double

/-- The per-edge data installed by the caller, in binary64. -/
structure EdgeInput where
  Coord_i : Nat → Double
  Coord_j : Nat → Double
  Normal : Nat → Double
  TurbVar_i : Nat → Double
  TurbVar_j : Nat → Double
  TurbVar_Grad_i : Nat → Nat → Double
  TurbVar_Grad_j : Nat → Nat → Double
  V_i : Nat → Double
  V_j : Nat → Double
  F1_i : Double
  F1_j : Double

/-- The class that overrides `FinishResidualCalc`, with the constants it owns, in binary64. -/
inductive Closure
  | TurbSA (sigma : Double)
  | TurbSA_Neg (sigma cn1 : Double)
  | TurbSST (sigma_k1 sigma_k2 sigma_om1 sigma_om2 : Double)

/-- The members of a `CNEMOAvgGrad_Scalar` object, in binary64. -/
structure CNEMOAvgGrad_Scalar where
  nDim : Nat
  nVar : Nat
  RHO_INDEX : Nat
  LAM_VISC_INDEX : Nat
  EDDY_VISC_INDEX : Nat
  correct_gradient : Bool
  implicit : Bool
  incompressible : Bool
  Density_i : Double
  Density_j : Double
  Laminar_Viscosity_i : Double
  Laminar_Viscosity_j : Double
  Eddy_Viscosity_i : Double
  Eddy_Viscosity_j : Double
  Edge_Vector : Nat → Double
  dist_ij_2 : Double
  proj_vector_ij : Double
  Proj_Mean_GradTurbVar_Normal : Nat → Double
  Proj_Mean_GradTurbVar_Edge : Nat → Double
  Proj_Mean_GradTurbVar : Nat → Double
  Flux : Nat → Double
  Jacobian_i : Nat → Nat → Double
  Jacobian_j : Nat → Nat → Double
  /-- ghost: the divisions evaluated by the current call, in program order -/
  divisions : List (DivSite × Double)

namespace CNEMOAvgGrad_Scalar

/-- Lines 31-52. -/
def ctor (val_nDim val_nVar : Nat) (correct_grad : Bool) (EULER_IMPLICIT INCOMPRESSIBLE : Bool)
    (RHO_INDEX LAM_VISC_INDEX EDDY_VISC_INDEX : Nat) : CNEMOAvgGrad_Scalar :=
  { nDim := val_nDim
    nVar := val_nVar
    RHO_INDEX := RHO_INDEX
    LAM_VISC_INDEX := LAM_VISC_INDEX
    EDDY_VISC_INDEX := EDDY_VISC_INDEX
    correct_gradient := correct_grad
    implicit := EULER_IMPLICIT
    incompressible := INCOMPRESSIBLE
    Density_i := Double.zero
    Density_j := Double.zero
    Laminar_Viscosity_i := Double.zero
    Laminar_Viscosity_j := Double.zero
    Eddy_Viscosity_i := Double.zero
    Eddy_Viscosity_j := Double.zero
    Edge_Vector := fun _ => Double.zero
    dist_ij_2 := Double.zero
    proj_vector_ij := Double.zero
    Proj_Mean_GradTurbVar_Normal := fun _ => Double.zero
    Proj_Mean_GradTurbVar_Edge := fun _ => Double.zero
    Proj_Mean_GradTurbVar := fun _ => Double.zero
    Flux := fun _ => Double.zero
    Jacobian_i := fun _ _ => Double.zero
    Jacobian_j := fun _ _ => Double.zero
    divisions := [] }

/-- Lines 88-90. -/
def loadPrimitives (inp : EdgeInput) (s : CNEMOAvgGrad_Scalar) : CNEMOAvgGrad_Scalar :=
  { s with
    Density_i := inp.V_i s.RHO_INDEX
    Density_j := inp.V_j s.RHO_INDEX
    Laminar_Viscosity_i := inp.V_i s.LAM_VISC_INDEX
    Laminar_Viscosity_j := inp.V_j s.LAM_VISC_INDEX
    Eddy_Viscosity_i := inp.V_i s.EDDY_VISC_INDEX
    Eddy_Viscosity_j := inp.V_j s.EDDY_VISC_INDEX }

/-- Lines 96-98. -/
def edgeBody (inp : EdgeInput) (iDim : Nat) (s : CNEMOAvgGrad_Scalar) : CNEMOAvgGrad_Scalar :=
  let e := inp.Coord_j iDim - inp.Coord_i iDim
  { s with
    Edge_Vector := Function.update s.Edge_Vector iDim e
    dist_ij_2 := s.dist_ij_2 + e * e
    proj_vector_ij := s.proj_vector_ij + e * inp.Normal iDim }

/-- Lines 94-101. -/
def edgeVector (inp : EdgeInput) (s : CNEMOAvgGrad_Scalar) : CNEMOAvgGrad_Scalar :=
  let s0 := { s with dist_ij_2 := Double.zero, proj_vector_ij := Double.zero }
  let s1 := forLoop s0.nDim (edgeBody inp) s0
  if s1.dist_ij_2.isZero then { s1 with proj_vector_ij := Double.zero }
  else { s1 with
         proj_vector_ij := s1.proj_vector_ij / s1.dist_ij_2
         divisions := s1.divisions ++ [(DivSite.proj_vector, s1.dist_ij_2)] }

/-- Lines 108-114. -/
def gradBody (inp : EdgeInput) (iVar iDim : Nat) (s : CNEMOAvgGrad_Scalar) :
    CNEMOAvgGrad_Scalar :=
  let Mean_GradTurbVar :=
    Double.half * (inp.TurbVar_Grad_i iVar iDim + inp.TurbVar_Grad_j iVar iDim)
  let s1 := { s with
    Proj_Mean_GradTurbVar_Normal :=
      Function.update s.Proj_Mean_GradTurbVar_Normal iVar
        (s.Proj_Mean_GradTurbVar_Normal iVar + Mean_GradTurbVar * inp.Normal iDim) }
  if s1.correct_gradient then
    { s1 with
      Proj_Mean_GradTurbVar_Edge :=
        Function.update s1.Proj_Mean_GradTurbVar_Edge iVar
          (s1.Proj_Mean_GradTurbVar_Edge iVar + Mean_GradTurbVar * s1.Edge_Vector iDim) }
  else s1

/-- Lines 105-120. -/
def varBody (inp : EdgeInput) (iVar : Nat) (s : CNEMOAvgGrad_Scalar) : CNEMOAvgGrad_Scalar :=
  let s0 := { s with
    Proj_Mean_GradTurbVar_Normal :=
      Function.update s.Proj_Mean_GradTurbVar_Normal iVar Double.zero
    Proj_Mean_GradTurbVar_Edge := Function.update s.Proj_Mean_GradTurbVar_Edge iVar Double.zero }
  let s1 := forLoop s0.nDim (gradBody inp iVar) s0
  let s2 := { s1 with
    Proj_Mean_GradTurbVar :=
      Function.update s1.Proj_Mean_GradTurbVar iVar (s1.Proj_Mean_GradTurbVar_Normal iVar) }
  if s2.correct_gradient then
    { s2 with
      Proj_Mean_GradTurbVar :=
        Function.update s2.Proj_Mean_GradTurbVar iVar
          (s2.Proj_Mean_GradTurbVar iVar -
            (s2.Proj_Mean_GradTurbVar_Edge iVar * s2.proj_vector_ij -
              (inp.TurbVar_j iVar - inp.TurbVar_i iVar) * s2.proj_vector_ij)) }
  else s2

/-- Lines 104-121. -/
def meanGradient (inp : EdgeInput) (s : CNEMOAvgGrad_Scalar) : CNEMOAvgGrad_Scalar :=
  forLoop s.nVar (varBody inp) s

end CNEMOAvgGrad_Scalar

namespace CNEMOAvgGrad_TurbSA

/-- Line 145. -/
def nu_i (s : CNEMOAvgGrad_Scalar) : Double := s.Laminar_Viscosity_i / s.Density_i

/-- Line 146. -/
def nu_j (s : CNEMOAvgGrad_Scalar) : Double := s.Laminar_Viscosity_j / s.Density_j

/-- Line 147: the four terms are added from left to right. -/
def nu_e (inp : EdgeInput) (s : CNEMOAvgGrad_Scalar) : Double :=
  Double.half * (nu_i s + nu_j s + inp.TurbVar_i 0 + inp.TurbVar_j 0)

/-- Lines 141-158. -/
def FinishResidualCalc (sigma : Double) (inp : EdgeInput) (s : CNEMOAvgGrad_Scalar) :
    CNEMOAvgGrad_Scalar :=
  let s1 := { s with
    Flux := Function.update s.Flux 0 (nu_e inp s * s.Proj_Mean_GradTurbVar 0 / sigma)
    divisions := s.divisions ++
      [(DivSite.nu_i, s.Density_i), (DivSite.nu_j, s.Density_j), (DivSite.flux, sigma)] }
  if s1.implicit then
    { s1 with
      Jacobian_i := Function.update s1.Jacobian_i 0 (Function.update (s1.Jacobian_i 0) 0
        ((Double.half * s1.Proj_Mean_GradTurbVar 0 - nu_e inp s * s1.proj_vector_ij) / sigma))
      Jacobian_j := Function.update s1.Jacobian_j 0 (Function.update (s1.Jacobian_j 0) 0
        ((Double.half * s1.Proj_Mean_GradTurbVar 0 + nu_e inp s * s1.proj_vector_ij) / sigma))
      divisions := s1.divisions ++ [(DivSite.jacobian_i, sigma), (DivSite.jacobian_j, sigma)] }
  else s1

end CNEMOAvgGrad_TurbSA

namespace CNEMOAvgGrad_TurbSA_Neg

/-- Line 173. -/
def nu_i (s : CNEMOAvgGrad_Scalar) : Double := s.Laminar_Viscosity_i / s.Density_i

/-- Line 174. -/
def nu_j (s : CNEMOAvgGrad_Scalar) : Double := s.Laminar_Viscosity_j / s.Density_j

/-- Line 176. -/
def nu_ij (s : CNEMOAvgGrad_Scalar) : Double := Double.half * (nu_i s + nu_j s)

/-- Line 177. -/
def nu_tilde_ij (inp : EdgeInput) : Double :=
  Double.half * (inp.TurbVar_i 0 + inp.TurbVar_j 0)

/-- Line 185. -/
def Xi (inp : EdgeInput) (s : CNEMOAvgGrad_Scalar) : Double := nu_tilde_ij inp / nu_ij s

/-- Line 186. -/
def fn (cn1 : Double) (inp : EdgeInput) (s : CNEMOAvgGrad_Scalar) : Double :=
  (cn1 + Xi inp s * Xi inp s * Xi inp s) / (cn1 - Xi inp s * Xi inp s * Xi inp s)

/-- Lines 179-188. -/
def nu_e (cn1 : Double) (inp : EdgeInput) (s : CNEMOAvgGrad_Scalar) : Double :=
  if (nu_tilde_ij inp).isPos then nu_ij s + nu_tilde_ij inp
  else nu_ij s + fn cn1 inp s * nu_tilde_ij inp

/-- The divisors of lines 173-188, in program order. -/
def nu_e_divisions (cn1 : Double) (inp : EdgeInput) (s : CNEMOAvgGrad_Scalar) :
    List (DivSite × Double) :=
  [(DivSite.nu_i, s.Density_i), (DivSite.nu_j, s.Density_j)] ++
    (if (nu_tilde_ij inp).isPos then []
     else [(DivSite.Xi, nu_ij s), (DivSite.fn, cn1 - Xi inp s * Xi inp s * Xi inp s)])

/-- Lines 169-199. -/
def FinishResidualCalc (sigma cn1 : Double) (inp : EdgeInput) (s : CNEMOAvgGrad_Scalar) :
    CNEMOAvgGrad_Scalar :=
  let s1 := { s with
    Flux := Function.update s.Flux 0 (nu_e cn1 inp s * s.Proj_Mean_GradTurbVar_Normal 0 / sigma)
    divisions := s.divisions ++ nu_e_divisions cn1 inp s ++ [(DivSite.flux, sigma)] }
  if s1.implicit then
    { s1 with
      Jacobian_i := Function.update s1.Jacobian_i 0 (Function.update (s1.Jacobian_i 0) 0
        ((Double.half * s1.Proj_Mean_GradTurbVar 0 - nu_e cn1 inp s * s1.proj_vector_ij) / sigma))
      Jacobian_j := Function.update s1.Jacobian_j 0 (Function.update (s1.Jacobian_j 0) 0
        ((Double.half * s1.Proj_Mean_GradTurbVar 0 + nu_e cn1 inp s * s1.proj_vector_ij) / sigma))
      divisions := s1.divisions ++ [(DivSite.jacobian_i, sigma), (DivSite.jacobian_j, sigma)] }
  else s1

end CNEMOAvgGrad_TurbSA_Neg

namespace CNEMOAvgGrad_TurbSST

/-- Line 225. -/
def sigma_kine_i (sigma_k1 sigma_k2 : Double) (inp : EdgeInput) : Double :=
  inp.F1_i * sigma_k1 + (Double.one - inp.F1_i) * sigma_k2

/-- Line 226. -/
def sigma_kine_j (sigma_k1 sigma_k2 : Double) (inp : EdgeInput) : Double :=
  inp.F1_j * sigma_k1 + (Double.one - inp.F1_j) * sigma_k2

/-- Line 227. -/
def sigma_omega_i (sigma_om1 sigma_om2 : Double) (inp : EdgeInput) : Double :=
  inp.F1_i * sigma_om1 + (Double.one - inp.F1_i) * sigma_om2

/-- Line 228. -/
def sigma_omega_j (sigma_om1 sigma_om2 : Double) (inp : EdgeInput) : Double :=
  inp.F1_j * sigma_om1 + (Double.one - inp.F1_j) * sigma_om2

/-- Lines 231, 232 and 236. -/
def diff_kine (sigma_k1 sigma_k2 : Double) (inp : EdgeInput) (s : CNEMOAvgGrad_Scalar) :
    Double :=
  let diff_i_kine := s.Laminar_Viscosity_i + sigma_kine_i sigma_k1 sigma_k2 inp * s.Eddy_Viscosity_i
  let diff_j_kine := s.Laminar_Viscosity_j + sigma_kine_j sigma_k1 sigma_k2 inp * s.Eddy_Viscosity_j
  Double.half * (diff_i_kine + diff_j_kine)

/-- Lines 233, 234 and 237. -/
def diff_omega (sigma_om1 sigma_om2 : Double) (inp : EdgeInput) (s : CNEMOAvgGrad_Scalar) :
    Double :=
  let diff_i_omega :=
    s.Laminar_Viscosity_i + sigma_omega_i sigma_om1 sigma_om2 inp * s.Eddy_Viscosity_i
  let diff_j_omega :=
    s.Laminar_Viscosity_j + sigma_omega_j sigma_om1 sigma_om2 inp * s.Eddy_Viscosity_j
  Double.half * (diff_i_omega + diff_j_omega)

/-- Lines 219-255. -/
def FinishResidualCalc (sigma_k1 sigma_k2 sigma_om1 sigma_om2 : Double) (inp : EdgeInput)
    (s : CNEMOAvgGrad_Scalar) : CNEMOAvgGrad_Scalar :=
  let dk := diff_kine sigma_k1 sigma_k2 inp s
  let dw := diff_omega sigma_om1 sigma_om2 inp s
  let s1 := { s with
    Flux := Function.update (Function.update s.Flux 0 (dk * s.Proj_Mean_GradTurbVar 0)) 1
      (dw * s.Proj_Mean_GradTurbVar 1) }
  if s1.implicit then
    let store (J : Nat → Nat → Double) (r c : Nat) (v : Double) : Nat → Nat → Double :=
      Function.update J r (Function.update (J r) c v)
    let proj_on_rho_i := s1.proj_vector_ij / s1.Density_i
    let proj_on_rho_j := s1.proj_vector_ij / s1.Density_j
    { s1 with
      Jacobian_i :=
        store (store (store (store s1.Jacobian_i 0 0 (-dk * proj_on_rho_i)) 0 1 Double.zero)
          1 0 Double.zero) 1 1 (-dw * proj_on_rho_i)
      Jacobian_j :=
        store (store (store (store s1.Jacobian_j 0 0 (dk * proj_on_rho_j)) 0 1 Double.zero)
          1 0 Double.zero) 1 1 (dw * proj_on_rho_j)
      divisions := s1.divisions ++
        [(DivSite.proj_on_rho_i, s1.Density_i), (DivSite.proj_on_rho_j, s1.Density_j)] }
  else s1

end CNEMOAvgGrad_TurbSST

namespace CNEMOAvgGrad_Scalar

/-- The virtual call of line 123. -/
def FinishResidualCalc (c : Closure) (inp : EdgeInput) (s : CNEMOAvgGrad_Scalar) :
    CNEMOAvgGrad_Scalar :=
  match c with
  | Closure.TurbSA sigma => CNEMOAvgGrad_TurbSA.FinishResidualCalc sigma inp s
  | Closure.TurbSA_Neg sigma cn1 => CNEMOAvgGrad_TurbSA_Neg.FinishResidualCalc sigma cn1 inp s
  | Closure.TurbSST sigma_k1 sigma_k2 sigma_om1 sigma_om2 =>
      CNEMOAvgGrad_TurbSST.FinishResidualCalc sigma_k1 sigma_k2 sigma_om1 sigma_om2 inp s

/-- Lines 71-130. -/
def ComputeResidual (c : Closure) (s : CNEMOAvgGrad_Scalar) (inp : EdgeInput) :
    CNEMOAvgGrad_Scalar :=
  FinishResidualCalc c inp
    (meanGradient inp (edgeVector inp (loadPrimitives inp { s with divisions := [] })))

end CNEMOAvgGrad_Scalar

/-! ### Inputs in binary64 -/

namespace CNEMOAvgGrad_Scalar

/-- A C array given by its first entries, `+0.0` beyond them. -/
def vec (l : List Double) (d : Nat) : Double := l.getD d Double.zero

/-- The constant `sigma = 2/3` of the single-equation closures, as the literal `2.0/3.0`. -/
def sigma : Double := Double.round false (2 / 3)

/-- The constant `cn1 = 16`. -/
def cn1 : Double := Double.finite false 16

/-- An edge on two dimensions with normal `(1,0)`, `Coord_i = (0,0)`, `Coord_j = (1,0)`,
both gradients `(1,0)`, scalar values `+0.0`, densities `1` and laminar viscosities `1`. -/
def unitEdge : EdgeInput :=
  { Coord_i := vec [Double.zero, Double.zero]
    Coord_j := vec [Double.one, Double.zero]
    Normal := vec [Double.one, Double.zero]
    TurbVar_i := fun _ => Double.zero
    TurbVar_j := fun _ => Double.zero
    TurbVar_Grad_i := fun _ => vec [Double.one, Double.zero]
    TurbVar_Grad_j := fun _ => vec [Double.one, Double.zero]
    V_i := vec [Double.one, Double.one, Double.zero]
    V_j := vec [Double.one, Double.one, Double.zero]
    F1_i := Double.zero
    F1_j := Double.zero }

/-- The unit edge with laminar viscosities `0.5` and both scalar values `2^-53`. -/
def tinyScalarEdge : EdgeInput :=
  { unitEdge with
    TurbVar_i := fun _ => Double.finite false (1 / 2 ^ 53)
    TurbVar_j := fun _ => Double.finite false (1 / 2 ^ 53)
    V_i := vec [Double.one, Double.half, Double.zero]
    V_j := vec [Double.one, Double.half, Double.zero] }

/-- An edge on three dimensions: `Coord_i = 0`, `Coord_j = (2^-53, 1, 2^-53)`, normal
`(0,1,0)`, both gradients `(1,1,1)`, scalar values `0` and `1 + 2^-52`. -/
def linearEdge : EdgeInput :=
  { unitEdge with
    Coord_i := vec [Double.zero, Double.zero, Double.zero]
    Coord_j := vec [Double.finite false (1 / 2 ^ 53), Double.one, Double.finite false (1 / 2 ^ 53)]
    Normal := vec [Double.zero, Double.one, Double.zero]
    TurbVar_j := fun _ => Double.finite false (1 + 1 / 2 ^ 52)
    TurbVar_Grad_i := fun _ => vec [Double.one, Double.one, Double.one]
    TurbVar_Grad_j := fun _ => vec [Double.one, Double.one, Double.one] }

/-- The unit edge (normal equal to the edge vector) with the scalar values `0` and `1` and
both gradients `(2^60, 0)`. -/
def steepEdge : EdgeInput :=
  { unitEdge with
    TurbVar_j := fun _ => Double.one
    TurbVar_Grad_i := fun _ => vec [Double.finite false (2 ^ 60), Double.zero]
    TurbVar_Grad_j := fun _ => vec [Double.finite false (2 ^ 60), Double.zero] }

/-- The unit edge with the scalar values `0` and `1`. -/
def gentleEdge : EdgeInput :=
  { unitEdge with TurbVar_j := fun _ => Double.one }

end CNEMOAvgGrad_Scalar

end IEEE

/-! ## Closed forms of the loops -/

namespace CNEMOAvgGrad_Scalar

theorem forLoop_edgeBody (inp : EdgeInput) (n : Nat) (s : CNEMOAvgGrad_Scalar) :
    forLoop n (edgeBody inp) s =
      { s with
        Edge_Vector := fun d => if d < n then edgeOf inp d else s.Edge_Vector d
        dist_ij_2 := s.dist_ij_2 + ∑ d in Finset.range n, edgeOf inp d * edgeOf inp d
        proj_vector_ij :=
          s.proj_vector_ij + ∑ d in Finset.range n, edgeOf inp d * inp.Normal d } := by
  induction n with
  | zero => simp [forLoop]
  | succ m ih =>
    rw [forLoop, ih]
    ext <;> simp [edgeBody, Finset.sum_range_succ, add_assoc, edgeOf]
    rename_i d
    by_cases h : d = m
    · subst h; simp
    · rw [Function.update_noteq h]
      have : (d < m + 1) = (d < m) := by
        apply propext; omega
      simp only [this]

theorem forLoop_gradBody (inp : EdgeInput) (iVar n : Nat) (s : CNEMOAvgGrad_Scalar) :
    forLoop n (gradBody inp iVar) s =
      { s with
        Proj_Mean_GradTurbVar_Normal :=
          Function.update s.Proj_Mean_GradTurbVar_Normal iVar
            (s.Proj_Mean_GradTurbVar_Normal iVar + meanGradDot inp inp.Normal n iVar)
        Proj_Mean_GradTurbVar_Edge :=
          if s.correct_gradient then
            Function.update s.Proj_Mean_GradTurbVar_Edge iVar
              (s.Proj_Mean_GradTurbVar_Edge iVar + meanGradDot inp s.Edge_Vector n iVar)
          else s.Proj_Mean_GradTurbVar_Edge } := by
  induction n with
  | zero => ext <;> simp [forLoop, meanGradDot]
  | succ m ih =>
    rw [forLoop, ih]
    cases hc : s.correct_gradient <;>
      ext <;> simp [gradBody, hc, meanGradDot, Finset.sum_range_succ, add_assoc]

theorem varBody_eq (inp : EdgeInput) (iVar : Nat) (s : CNEMOAvgGrad_Scalar) :
    varBody inp iVar s =
      { s with
        Proj_Mean_GradTurbVar_Normal :=
          Function.update s.Proj_Mean_GradTurbVar_Normal iVar (meanGradDot inp inp.Normal s.nDim iVar)
        Proj_Mean_GradTurbVar_Edge :=
          Function.update s.Proj_Mean_GradTurbVar_Edge iVar
            (if s.correct_gradient then meanGradDot inp s.Edge_Vector s.nDim iVar else 0)
        Proj_Mean_GradTurbVar :=
          Function.update s.Proj_Mean_GradTurbVar iVar (correctedOf inp s iVar) } := by
  unfold varBody
  simp only [forLoop_gradBody]
  cases hc : s.correct_gradient <;> ext <;> simp [hc, correctedOf]

theorem forLoop_varBody (inp : EdgeInput) (n : Nat) (s : CNEMOAvgGrad_Scalar) :
    forLoop n (varBody inp) s =
      { s with
        Proj_Mean_GradTurbVar_Normal := fun k =>
          if k < n then meanGradDot inp inp.Normal s.nDim k else s.Proj_Mean_GradTurbVar_Normal k
        Proj_Mean_GradTurbVar_Edge := fun k =>
          if k < n then (if s.correct_gradient then meanGradDot inp s.Edge_Vector s.nDim k else 0)
          else s.Proj_Mean_GradTurbVar_Edge k
        Proj_Mean_GradTurbVar := fun k =>
          if k < n then correctedOf inp s k else s.Proj_Mean_GradTurbVar k } := by
  induction n with
  | zero => simp [forLoop]
  | succ m ih =>
    rw [forLoop, ih, varBody_eq]
    have key : ∀ (f g : Nat → ℚ) (d : Nat),
        Function.update (fun k => if k < m then f k else g k) m (f m) d =
          if d < m + 1 then f d else g d := by
      intro f g d
      by_cases h : d = m
      · subst h; simp
      · rw [Function.update_noteq h]
        have : (d < m + 1) = (d < m) := by
          apply propext; omega
        simp only [this]
    ext <;> simp [correctedOf]
    · rename_i d
      exact key (fun k => meanGradDot inp inp.Normal s.nDim k) s.Proj_Mean_GradTurbVar_Normal d
    · rename_i d
      exact key (fun k => if s.correct_gradient then meanGradDot inp s.Edge_Vector s.nDim k else 0)
        s.Proj_Mean_GradTurbVar_Edge d
    · rename_i d
      have := key (fun k => correctedOf inp s k) s.Proj_Mean_GradTurbVar d
      simpa [correctedOf] using this

theorem meanGradDot_congr (inp : EdgeInput) (v w : Nat → ℚ) (D k : Nat)
    (h : ∀ d, d < D → v d = w d) : meanGradDot inp v D k = meanGradDot inp w D k := by
  unfold meanGradDot
  apply Finset.sum_congr rfl
  intro d hd
  rw [h d (Finset.mem_range.mp hd)]

theorem edgeVector_eq (inp : EdgeInput) (s : CNEMOAvgGrad_Scalar) :
    edgeVector inp s =
      { s with
        Edge_Vector := fun d => if d < s.nDim then edgeOf inp d else s.Edge_Vector d
        dist_ij_2 := dist2Of inp s.nDim
        proj_vector_ij := weightOf inp s.nDim
        divisions :=
          if dist2Of inp s.nDim = 0 then s.divisions
          else s.divisions ++ [(DivSite.proj_vector, dist2Of inp s.nDim)] } := by
  unfold edgeVector
  simp only [forLoop_edgeBody]
  by_cases h : dist2Of inp s.nDim = 0
  · have h2 : (∑ d in Finset.range s.nDim, edgeOf inp d * edgeOf inp d) = 0 := h
    ext <;> simp [h, h2, weightOf, dist2Of]
  · have h2 : ¬ (∑ d in Finset.range s.nDim, edgeOf inp d * edgeOf inp d) = 0 := h
    ext <;> simp [h, h2, weightOf, dist2Of]

theorem gradientStage_eq (s : CNEMOAvgGrad_Scalar) (inp : EdgeInput) :
    gradientStage s inp =
      { s with
        Density_i := inp.V_i s.RHO_INDEX
        Density_j := inp.V_j s.RHO_INDEX
        Laminar_Viscosity_i := inp.V_i s.LAM_VISC_INDEX
        Laminar_Viscosity_j := inp.V_j s.LAM_VISC_INDEX
        Eddy_Viscosity_i := inp.V_i s.EDDY_VISC_INDEX
        Eddy_Viscosity_j := inp.V_j s.EDDY_VISC_INDEX
        Edge_Vector := fun d => if d < s.nDim then edgeOf inp d else s.Edge_Vector d
        dist_ij_2 := dist2Of inp s.nDim
        proj_vector_ij := weightOf inp s.nDim
        Proj_Mean_GradTurbVar_Normal := fun k =>
          if k < s.nVar then meanGradDot inp inp.Normal s.nDim k
          else s.Proj_Mean_GradTurbVar_Normal k
        Proj_Mean_GradTurbVar_Edge := fun k =>
          if k < s.nVar then
            (if s.correct_gradient then meanGradDot inp (edgeOf inp) s.nDim k else 0)
          else s.Proj_Mean_GradTurbVar_Edge k
        Proj_Mean_GradTurbVar := fun k =>
          if k < s.nVar then projOf inp s.correct_gradient s.nDim k
          else s.Proj_Mean_GradTurbVar k
        divisions :=
          if dist2Of inp s.nDim = 0 then []
          else [(DivSite.proj_vector, dist2Of inp s.nDim)] } := by
  have hE : ∀ k, meanGradDot inp
      (fun d => if d < s.nDim then edgeOf inp d else s.Edge_Vector d) s.nDim k =
      meanGradDot inp (edgeOf inp) s.nDim k := by
    intro k
    apply meanGradDot_congr
    intro d hd
    simp [hd]
  unfold gradientStage meanGradient
  rw [forLoop_varBody, edgeVector_eq]
  ext <;> simp [loadPrimitives, correctedOf, projOf, hE]

/-! ## What the closure step leaves untouched -/

theorem FinishResidualCalc_Normal (c : Closure) (inp : EdgeInput) (s : CNEMOAvgGrad_Scalar) :
    (FinishResidualCalc c inp s).Proj_Mean_GradTurbVar_Normal = s.Proj_Mean_GradTurbVar_Normal := by
  cases c <;>
    simp only [FinishResidualCalc, CNEMOAvgGrad_TurbSA.FinishResidualCalc,
      CNEMOAvgGrad_TurbSA_Neg.FinishResidualCalc, CNEMOAvgGrad_TurbSST.FinishResidualCalc] <;>
    split <;> rfl

theorem FinishResidualCalc_Edge (c : Closure) (inp : EdgeInput) (s : CNEMOAvgGrad_Scalar) :
    (FinishResidualCalc c inp s).Proj_Mean_GradTurbVar_Edge = s.Proj_Mean_GradTurbVar_Edge := by
  cases c <;>
    simp only [FinishResidualCalc, CNEMOAvgGrad_TurbSA.FinishResidualCalc,
      CNEMOAvgGrad_TurbSA_Neg.FinishResidualCalc, CNEMOAvgGrad_TurbSST.FinishResidualCalc] <;>
    split <;> rfl

theorem FinishResidualCalc_Proj (c : Closure) (inp : EdgeInput) (s : CNEMOAvgGrad_Scalar) :
    (FinishResidualCalc c inp s).Proj_Mean_GradTurbVar = s.Proj_Mean_GradTurbVar := by
  cases c <;>
    simp only [FinishResidualCalc, CNEMOAvgGrad_TurbSA.FinishResidualCalc,
      CNEMOAvgGrad_TurbSA_Neg.FinishResidualCalc, CNEMOAvgGrad_TurbSST.FinishResidualCalc] <;>
    split <;> rfl

theorem FinishResidualCalc_weight (c : Closure) (inp : EdgeInput) (s : CNEMOAvgGrad_Scalar) :
    (FinishResidualCalc c inp s).proj_vector_ij = s.proj_vector_ij := by
  cases c <;>
    simp only [FinishResidualCalc, CNEMOAvgGrad_TurbSA.FinishResidualCalc,
      CNEMOAvgGrad_TurbSA_Neg.FinishResidualCalc, CNEMOAvgGrad_TurbSST.FinishResidualCalc] <;>
    split <;> rfl

/-- The divisions of the closure step happen at other places than line 101. -/
theorem FinishResidualCalc_divisions (c : Closure) (inp : EdgeInput) (s : CNEMOAvgGrad_Scalar) :
    (FinishResidualCalc c inp s).divisions.filter (fun e => decide (e.1 = DivSite.proj_vector)) =
      s.divisions.filter (fun e => decide (e.1 = DivSite.proj_vector)) := by
  cases c <;>
    simp only [FinishResidualCalc, CNEMOAvgGrad_TurbSA.FinishResidualCalc,
      CNEMOAvgGrad_TurbSA_Neg.FinishResidualCalc, CNEMOAvgGrad_TurbSST.FinishResidualCalc,
      CNEMOAvgGrad_TurbSA_Neg.nu_e_divisions] <;>
    split <;> (try split) <;> simp [List.filter]

theorem ComputeResidual_Normal (c : Closure) (s : CNEMOAvgGrad_Scalar) (inp : EdgeInput) :
    (ComputeResidual c s inp).Proj_Mean_GradTurbVar_Normal =
      (gradientStage s inp).Proj_Mean_GradTurbVar_Normal := by
  unfold ComputeResidual; rw [FinishResidualCalc_Normal]

theorem ComputeResidual_Proj (c : Closure) (s : CNEMOAvgGrad_Scalar) (inp : EdgeInput) :
    (ComputeResidual c s inp).Proj_Mean_GradTurbVar =
      (gradientStage s inp).Proj_Mean_GradTurbVar := by
  unfold ComputeResidual; rw [FinishResidualCalc_Proj]

theorem ComputeResidual_weight (c : Closure) (s : CNEMOAvgGrad_Scalar) (inp : EdgeInput) :
    (ComputeResidual c s inp).proj_vector_ij = (gradientStage s inp).proj_vector_ij := by
  unfold ComputeResidual; rw [FinishResidualCalc_weight]

/-! ## The projected-gradient engine -/

/-- C1: for every dimension, every scalar index `k < nVar`, every closure, every correction
flag and every content of the buffers before the call, after `ComputeResidual`
`Proj_Mean_GradTurbVar_Normal[k]` is the sum over `d < nDim` of
`0.5*(TurbVar_Grad_i[k][d] + TurbVar_Grad_j[k][d]) * Normal[d]`. -/
theorem normal_projection_formula (c : Closure) (s : CNEMOAvgGrad_Scalar) (inp : EdgeInput)
    (k : Nat) (hk : k < s.nVar) :
    (ComputeResidual c s inp).Proj_Mean_GradTurbVar_Normal k =
      ∑ d in Finset.range s.nDim,
        0.5 * (inp.TurbVar_Grad_i k d + inp.TurbVar_Grad_j k d) * inp.Normal d := by
  unfold ComputeResidual
  rw [FinishResidualCalc_Normal, gradientStage_eq]
  simp [hk, meanGradDot]

/-- Witness of C1 on the worked example: the normal projection of the only scalar is 1. -/
theorem normal_projection_formula_witness :
    0 < exampleKernel.nVar ∧
      (ComputeResidual (Closure.TurbSA (2 / 3)) exampleKernel exampleEdge).Proj_Mean_GradTurbVar_Normal
        0 = 1 :=
  ⟨by decide,
    (normal_projection_formula (Closure.TurbSA (2 / 3)) exampleKernel exampleEdge 0
      (by decide)).trans
      (by simp [exampleKernel, exampleEdge, ctor, Finset.sum_range_succ]; norm_num)⟩

/-- C2: with the correction flag set, for every `k < nVar`, after `ComputeResidual`
`Proj_Mean_GradTurbVar[k] = normalProjection[k] - edgeProjection[k]*w + (TurbVar_j[k] -
TurbVar_i[k])*w`, where `normalProjection[k]` and `edgeProjection[k]` are the buffers
`Proj_Mean_GradTurbVar_Normal[k]` and `Proj_Mean_GradTurbVar_Edge[k]`, the latter being the sum
over `d < nDim` of `0.5*(TurbVar_Grad_i[k][d] + TurbVar_Grad_j[k][d]) * (Coord_j[d] -
Coord_i[d])`, and `w` is `proj_vector_ij`. -/
theorem corrected_projection_formula (c : Closure) (s : CNEMOAvgGrad_Scalar) (inp : EdgeInput)
    (k : Nat) (hc : s.correct_gradient = true) (hk : k < s.nVar) :
    (ComputeResidual c s inp).Proj_Mean_GradTurbVar_Edge k =
        ∑ d in Finset.range s.nDim,
          0.5 * (inp.TurbVar_Grad_i k d + inp.TurbVar_Grad_j k d) *
            (inp.Coord_j d - inp.Coord_i d) ∧
      (ComputeResidual c s inp).Proj_Mean_GradTurbVar k =
        (ComputeResidual c s inp).Proj_Mean_GradTurbVar_Normal k -
          (ComputeResidual c s inp).Proj_Mean_GradTurbVar_Edge k *
            (ComputeResidual c s inp).proj_vector_ij +
          (inp.TurbVar_j k - inp.TurbVar_i k) * (ComputeResidual c s inp).proj_vector_ij := by
  unfold ComputeResidual
  rw [FinishResidualCalc_Normal, FinishResidualCalc_Edge, FinishResidualCalc_Proj,
    FinishResidualCalc_weight, gradientStage_eq]
  constructor
  · simp [hk, hc, meanGradDot, edgeOf]
  · simp only [hk, hc, projOf, if_true]
    ring

/-- Witness of C2: the worked example with the correction switched on; the edge and the
normal are parallel, `w = 1`, and the corrected projection is the difference of the two
scalar values, `0`. -/
theorem corrected_projection_formula_witness :
    ({ exampleKernel with correct_gradient := true } : CNEMOAvgGrad_Scalar).correct_gradient = true ∧
      0 < ({ exampleKernel with correct_gradient := true } : CNEMOAvgGrad_Scalar).nVar ∧
      (ComputeResidual (Closure.TurbSA (2 / 3)) { exampleKernel with correct_gradient := true }
        exampleEdge).Proj_Mean_GradTurbVar 0 = 0 :=
  ⟨rfl, by decide,
    ((corrected_projection_formula (Closure.TurbSA (2 / 3))
      { exampleKernel with correct_gradient := true } exampleEdge 0 rfl (by decide)).2).trans
      (by
        simp [ComputeResidual, FinishResidualCalc_Normal, FinishResidualCalc_Edge,
          FinishResidualCalc_weight, gradientStage_eq, exampleKernel, exampleEdge, ctor,
          meanGradDot, edgeOf, weightOf, dist2Of, Finset.sum_range_succ])⟩

/-- C3: for every pair of endpoint coordinates and every normal, `ComputeResidual` leaves in
`proj_vector_ij` the quotient `(edgeVector . Normal) / |edgeVector|^2`, with `edgeVector =
Coord_j - Coord_i`, when the squared edge length is not zero, and exactly `0` when it is
zero; the division of line 101 is evaluated only in the first case, its divisor is the
squared edge length, and so it never divides by zero. -/
theorem directional_weight_guarded (c : Closure) (s : CNEMOAvgGrad_Scalar) (inp : EdgeInput) :
    (ComputeResidual c s inp).proj_vector_ij =
        (if (∑ d in Finset.range s.nDim,
              (inp.Coord_j d - inp.Coord_i d) * (inp.Coord_j d - inp.Coord_i d)) = 0 then 0
         else
          (∑ d in Finset.range s.nDim, (inp.Coord_j d - inp.Coord_i d) * inp.Normal d) /
            (∑ d in Finset.range s.nDim,
              (inp.Coord_j d - inp.Coord_i d) * (inp.Coord_j d - inp.Coord_i d))) ∧
      (ComputeResidual c s inp).divisions.filter (fun e => decide (e.1 = DivSite.proj_vector)) =
        (if (∑ d in Finset.range s.nDim,
              (inp.Coord_j d - inp.Coord_i d) * (inp.Coord_j d - inp.Coord_i d)) = 0 then []
         else
          [(DivSite.proj_vector,
            ∑ d in Finset.range s.nDim,
              (inp.Coord_j d - inp.Coord_i d) * (inp.Coord_j d - inp.Coord_i d))]) ∧
      (DivSite.proj_vector, (0 : ℚ)) ∉ (ComputeResidual c s inp).divisions := by
  have hf : (ComputeResidual c s inp).divisions.filter
      (fun e => decide (e.1 = DivSite.proj_vector)) =
      (if dist2Of inp s.nDim = 0 then []
       else [(DivSite.proj_vector, dist2Of inp s.nDim)]) := by
    unfold ComputeResidual
    rw [FinishResidualCalc_divisions, gradientStage_eq]
    by_cases h : dist2Of inp s.nDim = 0 <;> simp [h, List.filter]
  refine ⟨?_, ?_, ?_⟩
  · unfold ComputeResidual
    rw [FinishResidualCalc_weight, gradientStage_eq]
    simp [weightOf, dist2Of, edgeOf]
  · simpa [dist2Of, edgeOf] using hf
  · intro hmem
    have hin : (DivSite.proj_vector, (0 : ℚ)) ∈ (ComputeResidual c s inp).divisions.filter
        (fun e => decide (e.1 = DivSite.proj_vector)) := by
      rw [List.mem_filter]
      exact ⟨hmem, by simp⟩
    rw [hf] at hin
    by_cases h : dist2Of inp s.nDim = 0
    · simp [h] at hin
    · simp only [h, if_false, List.mem_singleton, Prod.mk.injEq, true_and] at hin
      exact h hin.symm

/-- C5: with the correction flag not set, for every `k < nVar`, after `ComputeResidual`
`Proj_Mean_GradTurbVar[k] = Proj_Mean_GradTurbVar_Normal[k]`; and a second edge `inp2` with the
same normal and the same two gradients, whatever its coordinates, scalar values and
primitives, gives the same `Proj_Mean_GradTurbVar[k]`. -/
theorem uncorrected_projection (c : Closure) (s : CNEMOAvgGrad_Scalar) (inp inp2 : EdgeInput)
    (k : Nat) (hc : s.correct_gradient = false) (hk : k < s.nVar)
    (hN : ∀ d, d < s.nDim → inp2.Normal d = inp.Normal d)
    (hGi : ∀ d, d < s.nDim → inp2.TurbVar_Grad_i k d = inp.TurbVar_Grad_i k d)
    (hGj : ∀ d, d < s.nDim → inp2.TurbVar_Grad_j k d = inp.TurbVar_Grad_j k d) :
    (ComputeResidual c s inp).Proj_Mean_GradTurbVar k =
        (ComputeResidual c s inp).Proj_Mean_GradTurbVar_Normal k ∧
      (ComputeResidual c s inp2).Proj_Mean_GradTurbVar k =
        (ComputeResidual c s inp).Proj_Mean_GradTurbVar k := by
  have hsum : meanGradDot inp2 inp2.Normal s.nDim k = meanGradDot inp inp.Normal s.nDim k := by
    unfold meanGradDot
    apply Finset.sum_congr rfl
    intro d hd
    have hd2 := Finset.mem_range.mp hd
    rw [hN d hd2, hGi d hd2, hGj d hd2]
  unfold ComputeResidual
  rw [FinishResidualCalc_Normal, FinishResidualCalc_Proj, FinishResidualCalc_Proj,
    gradientStage_eq, gradientStage_eq]
  simp [hk, hc, projOf, hsum]

/-- Witness of C5: the worked example against the same edge with other coordinates, other
scalar values and other primitives. -/
theorem uncorrected_projection_witness :
    exampleKernel.correct_gradient = false ∧ 0 < exampleKernel.nVar ∧
      (ComputeResidual (Closure.TurbSA (2 / 3)) exampleKernel
          { exampleEdge with Coord_i := fun _ => 5, TurbVar_j := fun _ => 7,
                             V_i := fun _ => 3 }).Proj_Mean_GradTurbVar 0 =
        (ComputeResidual (Closure.TurbSA (2 / 3)) exampleKernel exampleEdge).Proj_Mean_GradTurbVar
          0 :=
  ⟨rfl, by decide,
    (uncorrected_projection (Closure.TurbSA (2 / 3)) exampleKernel exampleEdge
      { exampleEdge with Coord_i := fun _ => 5, TurbVar_j := fun _ => 7, V_i := fun _ => 3 } 0
      rfl (by decide) (fun _ _ => rfl) (fun _ _ => rfl) (fun _ _ => rfl)).2⟩

end CNEMOAvgGrad_Scalar

/-! ## The single-equation closure -/

namespace CNEMOAvgGrad_TurbSA

open CNEMOAvgGrad_Scalar

/-- The effective diffusivity of line 147 in terms of the primitives of the call. -/
theorem nu_e_gradientStage (s : CNEMOAvgGrad_Scalar) (inp : EdgeInput) :
    nu_e inp (gradientStage s inp) =
      0.5 * (inp.V_i s.LAM_VISC_INDEX / inp.V_i s.RHO_INDEX +
        inp.V_j s.LAM_VISC_INDEX / inp.V_j s.RHO_INDEX + inp.TurbVar_i 0 + inp.TurbVar_j 0) := by
  rw [gradientStage_eq]
  simp [nu_e, nu_i, nu_j]

/-- C6: for the single-equation closure and every input, `Flux[0] = nu_e *
Proj_Mean_GradTurbVar[0] / sigma` with `nu_e = 0.5*(Laminar_Viscosity_i/Density_i +
Laminar_Viscosity_j/Density_j + TurbVar_i[0] + TurbVar_j[0])`, the primitives being those of
the call (`V[LAM_VISC_INDEX]`, `V[RHO_INDEX]`); and with the correction disabled (and at
least one scalar) `Flux[0]` is `nu_e` times the normal projection of scalar 0 over `sigma`. -/
theorem flux_formula (sigma : ℚ) (s : CNEMOAvgGrad_Scalar) (inp : EdgeInput) :
    (ComputeResidual (Closure.TurbSA sigma) s inp).Flux 0 =
        0.5 * (inp.V_i s.LAM_VISC_INDEX / inp.V_i s.RHO_INDEX +
          inp.V_j s.LAM_VISC_INDEX / inp.V_j s.RHO_INDEX + inp.TurbVar_i 0 + inp.TurbVar_j 0) *
          (ComputeResidual (Closure.TurbSA sigma) s inp).Proj_Mean_GradTurbVar 0 / sigma ∧
      (s.correct_gradient = false → 0 < s.nVar →
        (ComputeResidual (Closure.TurbSA sigma) s inp).Flux 0 =
          0.5 * (inp.V_i s.LAM_VISC_INDEX / inp.V_i s.RHO_INDEX +
            inp.V_j s.LAM_VISC_INDEX / inp.V_j s.RHO_INDEX + inp.TurbVar_i 0 + inp.TurbVar_j 0) *
            (∑ d in Finset.range s.nDim,
              0.5 * (inp.TurbVar_Grad_i 0 d + inp.TurbVar_Grad_j 0 d) * inp.Normal d) / sigma) := by
  have hflux : (ComputeResidual (Closure.TurbSA sigma) s inp).Flux 0 =
      nu_e inp (gradientStage s inp) * (gradientStage s inp).Proj_Mean_GradTurbVar 0 / sigma := by
    simp only [ComputeResidual, CNEMOAvgGrad_Scalar.FinishResidualCalc, FinishResidualCalc]
    split <;> simp
  refine ⟨?_, ?_⟩
  · rw [hflux, nu_e_gradientStage]
    unfold ComputeResidual
    rw [FinishResidualCalc_Proj]
  · intro hc hk
    rw [hflux, nu_e_gradientStage, gradientStage_eq]
    simp [hk, hc, projOf, meanGradDot]

/-- Witness of C6 on the worked example (correction disabled, one scalar). -/
theorem flux_formula_witness :
    exampleKernel.correct_gradient = false ∧ 0 < exampleKernel.nVar ∧
      (ComputeResidual (Closure.TurbSA (2 / 3)) exampleKernel exampleEdge).Flux 0 =
        0.5 * (exampleEdge.V_i exampleKernel.LAM_VISC_INDEX / exampleEdge.V_i exampleKernel.RHO_INDEX +
          exampleEdge.V_j exampleKernel.LAM_VISC_INDEX / exampleEdge.V_j exampleKernel.RHO_INDEX +
          exampleEdge.TurbVar_i 0 + exampleEdge.TurbVar_j 0) *
          (∑ d in Finset.range exampleKernel.nDim,
            0.5 * (exampleEdge.TurbVar_Grad_i 0 d + exampleEdge.TurbVar_Grad_j 0 d) *
              exampleEdge.Normal d) / (2 / 3) :=
  ⟨rfl, by decide, (flux_formula (2 / 3) exampleKernel exampleEdge).2 rfl (by decide)⟩

/-- C8: for the single-equation closure with the implicit flag set and every input,
`Jacobian_i[0][0] = (0.5*Proj_Mean_GradTurbVar[0] - nu_e*proj_vector_ij)/sigma` and
`Jacobian_j[0][0] = (0.5*Proj_Mean_GradTurbVar[0] + nu_e*proj_vector_ij)/sigma`, with
`nu_e = 0.5*(nu_i + nu_j + TurbVar_i[0] + TurbVar_j[0])`, `nu_i = Laminar_Viscosity_i /
Density_i` and `nu_j = Laminar_Viscosity_j / Density_j`. -/
theorem jacobian_formula (sigma : ℚ) (s : CNEMOAvgGrad_Scalar) (inp : EdgeInput)
    (himp : s.implicit = true) :
    (ComputeResidual (Closure.TurbSA sigma) s inp).Jacobian_i 0 0 =
        (0.5 * (ComputeResidual (Closure.TurbSA sigma) s inp).Proj_Mean_GradTurbVar 0 -
          0.5 * (inp.V_i s.LAM_VISC_INDEX / inp.V_i s.RHO_INDEX +
            inp.V_j s.LAM_VISC_INDEX / inp.V_j s.RHO_INDEX + inp.TurbVar_i 0 + inp.TurbVar_j 0) *
            (ComputeResidual (Closure.TurbSA sigma) s inp).proj_vector_ij) / sigma ∧
      (ComputeResidual (Closure.TurbSA sigma) s inp).Jacobian_j 0 0 =
        (0.5 * (ComputeResidual (Closure.TurbSA sigma) s inp).Proj_Mean_GradTurbVar 0 +
          0.5 * (inp.V_i s.LAM_VISC_INDEX / inp.V_i s.RHO_INDEX +
            inp.V_j s.LAM_VISC_INDEX / inp.V_j s.RHO_INDEX + inp.TurbVar_i 0 + inp.TurbVar_j 0) *
            (ComputeResidual (Closure.TurbSA sigma) s inp).proj_vector_ij) / sigma := by
  have hi : (gradientStage s inp).implicit = true := by
    rw [gradientStage_eq]; exact himp
  rw [← nu_e_gradientStage]
  unfold ComputeResidual
  rw [FinishResidualCalc_Proj, FinishResidualCalc_weight]
  simp [CNEMOAvgGrad_Scalar.FinishResidualCalc, FinishResidualCalc, hi]

/-- Witness of C8: the worked example on an implicit kernel with the correction on; there
`Proj_Mean_GradTurbVar[0] = 0`, `w = 1`, `nu_e = 3e-5` and `sigma = 2/3`. -/
theorem jacobian_formula_witness :
    ({ exampleKernel with implicit := true, correct_gradient := true } :
        CNEMOAvgGrad_Scalar).implicit = true ∧
      (ComputeResidual (Closure.TurbSA (2 / 3))
        { exampleKernel with implicit := true, correct_gradient := true } exampleEdge).Jacobian_i
          0 0 = -(9 / 200000) ∧
      (ComputeResidual (Closure.TurbSA (2 / 3))
        { exampleKernel with implicit := true, correct_gradient := true } exampleEdge).Jacobian_j
          0 0 = 9 / 200000 :=
  ⟨rfl,
    ((jacobian_formula (2 / 3) { exampleKernel with implicit := true, correct_gradient := true }
      exampleEdge rfl).1).trans
      (by
        simp [ComputeResidual, FinishResidualCalc_Proj, FinishResidualCalc_weight,
          gradientStage_eq, exampleKernel, exampleEdge, ctor, projOf, meanGradDot, edgeOf,
          weightOf, dist2Of, Finset.sum_range_succ]
        norm_num),
    ((jacobian_formula (2 / 3) { exampleKernel with implicit := true, correct_gradient := true }
      exampleEdge rfl).2).trans
      (by
        simp [ComputeResidual, FinishResidualCalc_Proj, FinishResidualCalc_weight,
          gradientStage_eq, exampleKernel, exampleEdge, ctor, projOf, meanGradDot, edgeOf,
          weightOf, dist2Of, Finset.sum_range_succ]
        norm_num)⟩

/-- The effective diffusivity of line 147 read off the object the call returns. -/
theorem nu_e_ComputeResidual (sigma : ℚ) (s : CNEMOAvgGrad_Scalar) (inp : EdgeInput) :
    nu_e inp (ComputeResidual (Closure.TurbSA sigma) s inp) =
      0.5 * (inp.V_i s.LAM_VISC_INDEX / inp.V_i s.RHO_INDEX +
        inp.V_j s.LAM_VISC_INDEX / inp.V_j s.RHO_INDEX + inp.TurbVar_i 0 + inp.TurbVar_j 0) := by
  rw [← nu_e_gradientStage]
  simp only [ComputeResidual, CNEMOAvgGrad_Scalar.FinishResidualCalc, FinishResidualCalc]
  split <;> rfl

/-- C7, as stated, fails: on the worked example (D=2, normal (1,0), `Coord_i` (0,0),
`Coord_j` (1,0), `nu_i = nu_j = 1e-5`, both scalars `2e-5`, both gradients (1,0),
`sigma = 2/3`, correction disabled) the kernel does not yield `nu_e = 4e-5` and
`Flux[0] = 6e-5`: it yields `nu_e = 3e-5` and `Flux[0] = 4.5e-5`. -/
theorem worked_example_claimed_values_fail :
    ¬ ((ComputeResidual (Closure.TurbSA (2 / 3)) exampleKernel
          exampleEdge).Proj_Mean_GradTurbVar_Normal 0 = 1 ∧
        nu_e exampleEdge (ComputeResidual (Closure.TurbSA (2 / 3)) exampleKernel exampleEdge) =
          4 / 100000 ∧
        (ComputeResidual (Closure.TurbSA (2 / 3)) exampleKernel exampleEdge).Flux 0 =
          6 / 100000) := by
  rintro ⟨-, hnu, -⟩
  rw [nu_e_ComputeResidual] at hnu
  norm_num [exampleKernel, exampleEdge, ctor] at hnu

/-- C7, amended: for the single-equation closure with `sigma = 2/3`, correction disabled,
D=2, normal (1,0), `nu_i = nu_j = 1e-5`, both scalars `2e-5` and both gradients (1,0),
whatever the coordinates, the kernel yields in exact arithmetic `normalProjection[0] = 1`,
`nu_e = 3e-5` and `Flux[0] = 4.5e-5`. -/
theorem worked_example_values (s : CNEMOAvgGrad_Scalar) (inp : EdgeInput)
    (hD : s.nDim = 2) (hV : 0 < s.nVar) (hc : s.correct_gradient = false)
    (hN0 : inp.Normal 0 = 1) (hN1 : inp.Normal 1 = 0)
    (hGi0 : inp.TurbVar_Grad_i 0 0 = 1) (hGi1 : inp.TurbVar_Grad_i 0 1 = 0)
    (hGj0 : inp.TurbVar_Grad_j 0 0 = 1) (hGj1 : inp.TurbVar_Grad_j 0 1 = 0)
    (hnui : inp.V_i s.LAM_VISC_INDEX / inp.V_i s.RHO_INDEX = 1 / 100000)
    (hnuj : inp.V_j s.LAM_VISC_INDEX / inp.V_j s.RHO_INDEX = 1 / 100000)
    (hTi : inp.TurbVar_i 0 = 2 / 100000) (hTj : inp.TurbVar_j 0 = 2 / 100000) :
    (ComputeResidual (Closure.TurbSA (2 / 3)) s inp).Proj_Mean_GradTurbVar_Normal 0 = 1 ∧
      nu_e inp (ComputeResidual (Closure.TurbSA (2 / 3)) s inp) = 3 / 100000 ∧
      (ComputeResidual (Closure.TurbSA (2 / 3)) s inp).Flux 0 = 45 / 1000000 := by
  have hflux : (ComputeResidual (Closure.TurbSA (2 / 3)) s inp).Flux 0 =
      nu_e inp (gradientStage s inp) * (gradientStage s inp).Proj_Mean_GradTurbVar 0 / (2 / 3) := by
    simp only [ComputeResidual, CNEMOAvgGrad_Scalar.FinishResidualCalc, FinishResidualCalc]
    split <;> simp
  have hsum : meanGradDot inp inp.Normal 2 0 = 1 := by
    simp [meanGradDot, Finset.sum_range_succ, hN0, hN1, hGi0, hGi1, hGj0, hGj1]
    norm_num
  refine ⟨?_, ?_, ?_⟩
  · unfold ComputeResidual
    rw [FinishResidualCalc_Normal, gradientStage_eq]
    simp [hV, hD, hsum]
  · rw [nu_e_ComputeResidual, hnui, hnuj, hTi, hTj]
    norm_num
  · rw [hflux, nu_e_gradientStage, hnui, hnuj, hTi, hTj, gradientStage_eq]
    simp [hV, hD, hc, projOf, hsum]
    norm_num

/-- Witness of the amended C7 on the worked example itself. -/
theorem worked_example_values_witness :
    exampleKernel.nDim = 2 ∧ 0 < exampleKernel.nVar ∧ exampleKernel.correct_gradient = false ∧
      exampleEdge.V_i exampleKernel.LAM_VISC_INDEX / exampleEdge.V_i exampleKernel.RHO_INDEX =
        1 / 100000 ∧
      exampleEdge.TurbVar_i 0 = 2 / 100000 ∧
      (ComputeResidual (Closure.TurbSA (2 / 3)) exampleKernel
          exampleEdge).Proj_Mean_GradTurbVar_Normal 0 = 1 ∧
        nu_e exampleEdge (ComputeResidual (Closure.TurbSA (2 / 3)) exampleKernel exampleEdge) =
          3 / 100000 ∧
        (ComputeResidual (Closure.TurbSA (2 / 3)) exampleKernel exampleEdge).Flux 0 =
          45 / 1000000 :=
  ⟨rfl, by decide, rfl, by norm_num [exampleKernel, exampleEdge, ctor], rfl,
    worked_example_values exampleKernel exampleEdge rfl (by decide) rfl rfl rfl rfl rfl rfl rfl
      (by norm_num [exampleKernel, exampleEdge, ctor])
      (by norm_num [exampleKernel, exampleEdge, ctor]) rfl rfl⟩

end CNEMOAvgGrad_TurbSA

/-! ## The negative-value-safe single-equation closure -/

namespace CNEMOAvgGrad_TurbSA_Neg

open CNEMOAvgGrad_Scalar

/-- The closure step does not touch the primitives `nu_e` is computed from. -/
theorem nu_e_FinishResidualCalc (sigma cn1 c : ℚ) (inp : EdgeInput) (s : CNEMOAvgGrad_Scalar) :
    nu_e c inp (FinishResidualCalc sigma cn1 inp s) = nu_e c inp s := by
  simp only [FinishResidualCalc]
  split <;> rfl

/-- Line 190 on the object built by lines 71-121. -/
theorem Flux_ComputeResidual (sigma cn1 : ℚ) (s : CNEMOAvgGrad_Scalar) (inp : EdgeInput) :
    (ComputeResidual (Closure.TurbSA_Neg sigma cn1) s inp).Flux 0 =
      nu_e cn1 inp (gradientStage s inp) *
        (gradientStage s inp).Proj_Mean_GradTurbVar_Normal 0 / sigma := by
  simp only [ComputeResidual, CNEMOAvgGrad_Scalar.FinishResidualCalc, FinishResidualCalc]
  split <;> simp

/-- Lines 173-188 in terms of the primitives and scalar values of the call. -/
theorem nu_e_neg_gradientStage (cn1 : ℚ) (s : CNEMOAvgGrad_Scalar) (inp : EdgeInput) :
    nu_e cn1 inp (gradientStage s inp) =
      (if 0 < 0.5 * (inp.TurbVar_i 0 + inp.TurbVar_j 0) then
        0.5 * (inp.V_i s.LAM_VISC_INDEX / inp.V_i s.RHO_INDEX +
          inp.V_j s.LAM_VISC_INDEX / inp.V_j s.RHO_INDEX) +
          0.5 * (inp.TurbVar_i 0 + inp.TurbVar_j 0)
       else
        0.5 * (inp.V_i s.LAM_VISC_INDEX / inp.V_i s.RHO_INDEX +
          inp.V_j s.LAM_VISC_INDEX / inp.V_j s.RHO_INDEX) +
          (cn1 + (0.5 * (inp.TurbVar_i 0 + inp.TurbVar_j 0) /
              (0.5 * (inp.V_i s.LAM_VISC_INDEX / inp.V_i s.RHO_INDEX +
                inp.V_j s.LAM_VISC_INDEX / inp.V_j s.RHO_INDEX))) ^ 3) /
            (cn1 - (0.5 * (inp.TurbVar_i 0 + inp.TurbVar_j 0) /
              (0.5 * (inp.V_i s.LAM_VISC_INDEX / inp.V_i s.RHO_INDEX +
                inp.V_j s.LAM_VISC_INDEX / inp.V_j s.RHO_INDEX))) ^ 3) *
            (0.5 * (inp.TurbVar_i 0 + inp.TurbVar_j 0))) := by
  rw [gradientStage_eq]
  simp only [nu_e, fn, Xi, nu_ij, nu_i, nu_j, nu_tilde_ij, gt_iff_lt, pow_three, mul_assoc]

/-- C9: for the negative-value-safe closure and every input, with `nu_ij = 0.5*(nu_i +
nu_j)` (each `nu` being `Laminar_Viscosity/Density` of that endpoint in the call) and
`scalar_ij = 0.5*(TurbVar_i[0] + TurbVar_j[0])`, the effective diffusivity is `nu_ij +
scalar_ij` when `scalar_ij > 0` and `nu_ij + fn*scalar_ij`, `fn = (cn1 + Xi^3)/(cn1 - Xi^3)`,
`Xi = scalar_ij/nu_ij`, otherwise; and this branch-selected value is the factor of the
normal projection in `Flux[0]`. -/
theorem effective_diffusivity_branches (sigma cn1 : ℚ) (s : CNEMOAvgGrad_Scalar)
    (inp : EdgeInput) :
    nu_e cn1 inp (ComputeResidual (Closure.TurbSA_Neg sigma cn1) s inp) =
        (if 0 < 0.5 * (inp.TurbVar_i 0 + inp.TurbVar_j 0) then
          0.5 * (inp.V_i s.LAM_VISC_INDEX / inp.V_i s.RHO_INDEX +
            inp.V_j s.LAM_VISC_INDEX / inp.V_j s.RHO_INDEX) +
            0.5 * (inp.TurbVar_i 0 + inp.TurbVar_j 0)
         else
          0.5 * (inp.V_i s.LAM_VISC_INDEX / inp.V_i s.RHO_INDEX +
            inp.V_j s.LAM_VISC_INDEX / inp.V_j s.RHO_INDEX) +
            (cn1 + (0.5 * (inp.TurbVar_i 0 + inp.TurbVar_j 0) /
                (0.5 * (inp.V_i s.LAM_VISC_INDEX / inp.V_i s.RHO_INDEX +
                  inp.V_j s.LAM_VISC_INDEX / inp.V_j s.RHO_INDEX))) ^ 3) /
              (cn1 - (0.5 * (inp.TurbVar_i 0 + inp.TurbVar_j 0) /
                (0.5 * (inp.V_i s.LAM_VISC_INDEX / inp.V_i s.RHO_INDEX +
                  inp.V_j s.LAM_VISC_INDEX / inp.V_j s.RHO_INDEX))) ^ 3) *
              (0.5 * (inp.TurbVar_i 0 + inp.TurbVar_j 0))) ∧
      (ComputeResidual (Closure.TurbSA_Neg sigma cn1) s inp).Flux 0 =
        (if 0 < 0.5 * (inp.TurbVar_i 0 + inp.TurbVar_j 0) then
          0.5 * (inp.V_i s.LAM_VISC_INDEX / inp.V_i s.RHO_INDEX +
            inp.V_j s.LAM_VISC_INDEX / inp.V_j s.RHO_INDEX) +
            0.5 * (inp.TurbVar_i 0 + inp.TurbVar_j 0)
         else
          0.5 * (inp.V_i s.LAM_VISC_INDEX / inp.V_i s.RHO_INDEX +
            inp.V_j s.LAM_VISC_INDEX / inp.V_j s.RHO_INDEX) +
            (cn1 + (0.5 * (inp.TurbVar_i 0 + inp.TurbVar_j 0) /
                (0.5 * (inp.V_i s.LAM_VISC_INDEX / inp.V_i s.RHO_INDEX +
                  inp.V_j s.LAM_VISC_INDEX / inp.V_j s.RHO_INDEX))) ^ 3) /
              (cn1 - (0.5 * (inp.TurbVar_i 0 + inp.TurbVar_j 0) /
                (0.5 * (inp.V_i s.LAM_VISC_INDEX / inp.V_i s.RHO_INDEX +
                  inp.V_j s.LAM_VISC_INDEX / inp.V_j s.RHO_INDEX))) ^ 3) *
              (0.5 * (inp.TurbVar_i 0 + inp.TurbVar_j 0))) *
          (ComputeResidual (Closure.TurbSA_Neg sigma cn1) s inp).Proj_Mean_GradTurbVar_Normal 0 /
          sigma := by
  constructor
  · simp only [ComputeResidual, CNEMOAvgGrad_Scalar.FinishResidualCalc]
    rw [nu_e_FinishResidualCalc, nu_e_neg_gradientStage]
  · rw [Flux_ComputeResidual, nu_e_neg_gradientStage]
    unfold ComputeResidual
    rw [FinishResidualCalc_Normal]

/-- C10: for the negative-value-safe closure and every input, `Flux[0] = nu_e *
Proj_Mean_GradTurbVar_Normal[0] / sigma`, the uncorrected normal projection; and the same
call on the same object with the correction flag set or cleared returns the same
`Flux[0]`. -/
theorem flux_uses_normal_projection (sigma cn1 : ℚ) (s : CNEMOAvgGrad_Scalar)
    (inp : EdgeInput) :
    (ComputeResidual (Closure.TurbSA_Neg sigma cn1) s inp).Flux 0 =
        nu_e cn1 inp (ComputeResidual (Closure.TurbSA_Neg sigma cn1) s inp) *
          (ComputeResidual (Closure.TurbSA_Neg sigma cn1) s inp).Proj_Mean_GradTurbVar_Normal 0 /
          sigma ∧
      (ComputeResidual (Closure.TurbSA_Neg sigma cn1) { s with correct_gradient := true }
          inp).Flux 0 =
        (ComputeResidual (Closure.TurbSA_Neg sigma cn1) { s with correct_gradient := false }
          inp).Flux 0 := by
  constructor
  · rw [Flux_ComputeResidual]
    simp only [ComputeResidual, CNEMOAvgGrad_Scalar.FinishResidualCalc]
    rw [nu_e_FinishResidualCalc]
    congr 2
    simp only [FinishResidualCalc]
    split <;> rfl
  · rw [Flux_ComputeResidual, Flux_ComputeResidual, nu_e_neg_gradientStage, nu_e_neg_gradientStage,
      gradientStage_eq, gradientStage_eq]

/-- The effective diffusivity of lines 179-188 read off the object the call returns. -/
theorem nu_e_neg_ComputeResidual (sigma cn1 : ℚ) (s : CNEMOAvgGrad_Scalar) (inp : EdgeInput) :
    nu_e cn1 inp (ComputeResidual (Closure.TurbSA_Neg sigma cn1) s inp) =
      nu_e cn1 inp (gradientStage s inp) := by
  simp only [ComputeResidual, CNEMOAvgGrad_Scalar.FinishResidualCalc]
  rw [nu_e_FinishResidualCalc]

/-- Lines 195-196 on the object built by lines 71-121. -/
theorem Jacobian_ComputeResidual (sigma cn1 : ℚ) (s : CNEMOAvgGrad_Scalar) (inp : EdgeInput)
    (himp : s.implicit = true) :
    (ComputeResidual (Closure.TurbSA_Neg sigma cn1) s inp).Jacobian_i 0 0 =
        (0.5 * (gradientStage s inp).Proj_Mean_GradTurbVar 0 -
          nu_e cn1 inp (gradientStage s inp) * (gradientStage s inp).proj_vector_ij) / sigma ∧
      (ComputeResidual (Closure.TurbSA_Neg sigma cn1) s inp).Jacobian_j 0 0 =
        (0.5 * (gradientStage s inp).Proj_Mean_GradTurbVar 0 +
          nu_e cn1 inp (gradientStage s inp) * (gradientStage s inp).proj_vector_ij) / sigma := by
  have hi : (gradientStage s inp).implicit = true := by
    rw [gradientStage_eq]; exact himp
  simp [ComputeResidual, CNEMOAvgGrad_Scalar.FinishResidualCalc, FinishResidualCalc, hi]

/-- C11: for the negative-value-safe closure with the implicit flag set and every input,
`Jacobian_i[0][0] = (0.5*Proj_Mean_GradTurbVar[0] - nu_e*proj_vector_ij)/sigma` and
`Jacobian_j[0][0] = (0.5*Proj_Mean_GradTurbVar[0] + nu_e*proj_vector_ij)/sigma`, where `nu_e`
is the branch-selected effective diffusivity of lines 179-188 and `Proj_Mean_GradTurbVar[0]`
is the corrected projection; the flux of the same call is built on
`Proj_Mean_GradTurbVar_Normal[0]` instead. -/
theorem neg_jacobian_formula (sigma cn1 : ℚ) (s : CNEMOAvgGrad_Scalar) (inp : EdgeInput)
    (himp : s.implicit = true) :
    (ComputeResidual (Closure.TurbSA_Neg sigma cn1) s inp).Jacobian_i 0 0 =
        (0.5 * (ComputeResidual (Closure.TurbSA_Neg sigma cn1) s inp).Proj_Mean_GradTurbVar 0 -
          nu_e cn1 inp (ComputeResidual (Closure.TurbSA_Neg sigma cn1) s inp) *
            (ComputeResidual (Closure.TurbSA_Neg sigma cn1) s inp).proj_vector_ij) / sigma ∧
      (ComputeResidual (Closure.TurbSA_Neg sigma cn1) s inp).Jacobian_j 0 0 =
        (0.5 * (ComputeResidual (Closure.TurbSA_Neg sigma cn1) s inp).Proj_Mean_GradTurbVar 0 +
          nu_e cn1 inp (ComputeResidual (Closure.TurbSA_Neg sigma cn1) s inp) *
            (ComputeResidual (Closure.TurbSA_Neg sigma cn1) s inp).proj_vector_ij) / sigma ∧
      (ComputeResidual (Closure.TurbSA_Neg sigma cn1) s inp).Flux 0 =
        nu_e cn1 inp (ComputeResidual (Closure.TurbSA_Neg sigma cn1) s inp) *
          (ComputeResidual (Closure.TurbSA_Neg sigma cn1) s inp).Proj_Mean_GradTurbVar_Normal 0 /
          sigma := by
  have hJ := Jacobian_ComputeResidual sigma cn1 s inp himp
  have hF := Flux_ComputeResidual sigma cn1 s inp
  rw [nu_e_neg_ComputeResidual, ComputeResidual_Proj, ComputeResidual_Normal,
    ComputeResidual_weight]
  exact ⟨hJ.1, hJ.2, hF⟩

/-- Witness of C11: the negative edge on an implicit kernel with correction, `sigma = 2/3`,
`cn1 = 16`; there `nu_ij = 1`, `Xi = -1`, `nu_e = 2/17`, `w = 1`, the corrected projection
is `0` and the two entries are `-3/17` and `3/17`. -/
theorem neg_jacobian_formula_witness :
    implicitKernel.implicit = true ∧
      (ComputeResidual (Closure.TurbSA_Neg (2 / 3) 16) implicitKernel negativeEdge).Jacobian_i
          0 0 = -(3 / 17) ∧
      (ComputeResidual (Closure.TurbSA_Neg (2 / 3) 16) implicitKernel negativeEdge).Jacobian_j
          0 0 = 3 / 17 :=
  ⟨rfl,
    ((neg_jacobian_formula (2 / 3) 16 implicitKernel negativeEdge rfl).1).trans
      (by
        rw [nu_e_neg_ComputeResidual, ComputeResidual_Proj, ComputeResidual_weight,
          nu_e_neg_gradientStage, gradientStage_eq]
        simp [implicitKernel, negativeEdge, exampleEdge, ctor, projOf, meanGradDot, edgeOf,
          weightOf, dist2Of, Finset.sum_range_succ]
        norm_num),
    ((neg_jacobian_formula (2 / 3) 16 implicitKernel negativeEdge rfl).2.1).trans
      (by
        rw [nu_e_neg_ComputeResidual, ComputeResidual_Proj, ComputeResidual_weight,
          nu_e_neg_gradientStage, gradientStage_eq]
        simp [implicitKernel, negativeEdge, exampleEdge, ctor, projOf, meanGradDot, edgeOf,
          weightOf, dist2Of, Finset.sum_range_succ]
        norm_num)⟩

/-! ### The rational blend of lines 185-187 -/

/-- The mean molecular viscosity of line 176 read off the object the call returns. -/
theorem nu_ij_ComputeResidual (sigma cn1 : ℚ) (s : CNEMOAvgGrad_Scalar) (inp : EdgeInput) :
    nu_ij (ComputeResidual (Closure.TurbSA_Neg sigma cn1) s inp) =
      0.5 * (inp.V_i s.LAM_VISC_INDEX / inp.V_i s.RHO_INDEX +
        inp.V_j s.LAM_VISC_INDEX / inp.V_j s.RHO_INDEX) := by
  have h : nu_ij (ComputeResidual (Closure.TurbSA_Neg sigma cn1) s inp) =
      nu_ij (gradientStage s inp) := by
    simp only [ComputeResidual, CNEMOAvgGrad_Scalar.FinishResidualCalc, FinishResidualCalc]
    split <;> rfl
  rw [h, gradientStage_eq]
  simp [nu_ij, nu_i, nu_j]

end CNEMOAvgGrad_TurbSA_Neg

/-! ## The two-equation closure -/

namespace CNEMOAvgGrad_TurbSST

open CNEMOAvgGrad_Scalar

/-- A store `J[r][c] = v` into a block reached through row pointers, read back at `[a][b]`. -/
theorem store_apply (J : Nat → Nat → ℚ) (r c : Nat) (v : ℚ) (a b : Nat) :
    Function.update J r (Function.update (J r) c v) a b = if a = r ∧ b = c then v else J a b := by
  by_cases ha : a = r
  · subst ha
    by_cases hb : b = c
    · subst hb; simp
    · simp [hb]
  · simp [ha]

/-- The closure step does not touch the primitives the diffusivities are computed from. -/
theorem diff_FinishResidualCalc (k1 k2 o1 o2 a b : ℚ) (inp : EdgeInput)
    (s : CNEMOAvgGrad_Scalar) :
    diff_kine a b inp (FinishResidualCalc k1 k2 o1 o2 inp s) = diff_kine a b inp s ∧
      diff_omega a b inp (FinishResidualCalc k1 k2 o1 o2 inp s) = diff_omega a b inp s := by
  simp only [FinishResidualCalc]
  split <;> exact ⟨rfl, rfl⟩

theorem diff_kine_ComputeResidual (k1 k2 o1 o2 : ℚ) (s : CNEMOAvgGrad_Scalar)
    (inp : EdgeInput) :
    diff_kine k1 k2 inp (ComputeResidual (Closure.TurbSST k1 k2 o1 o2) s inp) =
      diff_kine k1 k2 inp (gradientStage s inp) := by
  simp only [ComputeResidual, CNEMOAvgGrad_Scalar.FinishResidualCalc]
  exact (diff_FinishResidualCalc k1 k2 o1 o2 k1 k2 inp _).1

theorem diff_omega_ComputeResidual (k1 k2 o1 o2 : ℚ) (s : CNEMOAvgGrad_Scalar)
    (inp : EdgeInput) :
    diff_omega o1 o2 inp (ComputeResidual (Closure.TurbSST k1 k2 o1 o2) s inp) =
      diff_omega o1 o2 inp (gradientStage s inp) := by
  simp only [ComputeResidual, CNEMOAvgGrad_Scalar.FinishResidualCalc]
  exact (diff_FinishResidualCalc k1 k2 o1 o2 o1 o2 inp _).2

/-- Lines 225-237 in terms of the primitives and blending weights of the call. -/
theorem diff_kine_gradientStage (a b : ℚ) (s : CNEMOAvgGrad_Scalar) (inp : EdgeInput) :
    diff_kine a b inp (gradientStage s inp) =
      0.5 * ((inp.V_i s.LAM_VISC_INDEX +
          (inp.F1_i * a + (1 - inp.F1_i) * b) * inp.V_i s.EDDY_VISC_INDEX) +
        (inp.V_j s.LAM_VISC_INDEX +
          (inp.F1_j * a + (1 - inp.F1_j) * b) * inp.V_j s.EDDY_VISC_INDEX)) := by
  rw [gradientStage_eq]
  simp only [diff_kine, sigma_kine_i, sigma_kine_j]
  norm_num

theorem diff_omega_gradientStage (a b : ℚ) (s : CNEMOAvgGrad_Scalar) (inp : EdgeInput) :
    diff_omega a b inp (gradientStage s inp) =
      0.5 * ((inp.V_i s.LAM_VISC_INDEX +
          (inp.F1_i * a + (1 - inp.F1_i) * b) * inp.V_i s.EDDY_VISC_INDEX) +
        (inp.V_j s.LAM_VISC_INDEX +
          (inp.F1_j * a + (1 - inp.F1_j) * b) * inp.V_j s.EDDY_VISC_INDEX)) := by
  rw [gradientStage_eq]
  simp only [diff_omega, sigma_omega_i, sigma_omega_j]
  norm_num

/-- Lines 239-240 on the object built by lines 71-121. -/
theorem Flux_SST (k1 k2 o1 o2 : ℚ) (s : CNEMOAvgGrad_Scalar) (inp : EdgeInput) :
    (ComputeResidual (Closure.TurbSST k1 k2 o1 o2) s inp).Flux =
      Function.update
        (Function.update (gradientStage s inp).Flux 0
          (diff_kine k1 k2 inp (gradientStage s inp) *
            (gradientStage s inp).Proj_Mean_GradTurbVar 0)) 1
        (diff_omega o1 o2 inp (gradientStage s inp) *
          (gradientStage s inp).Proj_Mean_GradTurbVar 1) := by
  simp only [ComputeResidual, CNEMOAvgGrad_Scalar.FinishResidualCalc, FinishResidualCalc]
  split <;> rfl

/-- Lines 243-253 on the object built by lines 71-121. -/
theorem Jacobian_SST (k1 k2 o1 o2 : ℚ) (s : CNEMOAvgGrad_Scalar) (inp : EdgeInput)
    (a b : Nat) :
    (ComputeResidual (Closure.TurbSST k1 k2 o1 o2) s inp).Jacobian_i a b =
        (if s.implicit = true then
          (if a = 1 ∧ b = 1 then
            -diff_omega o1 o2 inp (gradientStage s inp) *
              ((gradientStage s inp).proj_vector_ij / (gradientStage s inp).Density_i)
           else if a = 1 ∧ b = 0 then 0
           else if a = 0 ∧ b = 1 then 0
           else if a = 0 ∧ b = 0 then
            -diff_kine k1 k2 inp (gradientStage s inp) *
              ((gradientStage s inp).proj_vector_ij / (gradientStage s inp).Density_i)
           else s.Jacobian_i a b)
         else s.Jacobian_i a b) ∧
      (ComputeResidual (Closure.TurbSST k1 k2 o1 o2) s inp).Jacobian_j a b =
        (if s.implicit = true then
          (if a = 1 ∧ b = 1 then
            diff_omega o1 o2 inp (gradientStage s inp) *
              ((gradientStage s inp).proj_vector_ij / (gradientStage s inp).Density_j)
           else if a = 1 ∧ b = 0 then 0
           else if a = 0 ∧ b = 1 then 0
           else if a = 0 ∧ b = 0 then
            diff_kine k1 k2 inp (gradientStage s inp) *
              ((gradientStage s inp).proj_vector_ij / (gradientStage s inp).Density_j)
           else s.Jacobian_j a b)
         else s.Jacobian_j a b) := by
  have hi : (gradientStage s inp).implicit = s.implicit := by rw [gradientStage_eq]
  have hJi : (gradientStage s inp).Jacobian_i = s.Jacobian_i := by rw [gradientStage_eq]
  have hJj : (gradientStage s inp).Jacobian_j = s.Jacobian_j := by rw [gradientStage_eq]
  simp only [ComputeResidual, CNEMOAvgGrad_Scalar.FinishResidualCalc, FinishResidualCalc]
  cases himp : s.implicit
  · simp [hi, himp, hJi, hJj]
  · simp only [hi, himp, if_true, store_apply, hJi, hJj]
    norm_num

/-- C14: for the two-equation closure and every input, `Flux[0] = diff_kine *
Proj_Mean_GradTurbVar[0]` and `Flux[1] = diff_omega * Proj_Mean_GradTurbVar[1]`, where
`diff_kine` is one half of the sum over the two endpoints of `Laminar_Viscosity +
(F1*sigma_k1 + (1-F1)*sigma_k2)*Eddy_Viscosity` and `diff_omega` is the same with
`sigma_om1`, `sigma_om2`; the product is not divided by anything. -/
theorem sst_flux_formula (sigma_k1 sigma_k2 sigma_om1 sigma_om2 : ℚ) (s : CNEMOAvgGrad_Scalar)
    (inp : EdgeInput) :
    (ComputeResidual (Closure.TurbSST sigma_k1 sigma_k2 sigma_om1 sigma_om2) s inp).Flux 0 =
        0.5 * ((inp.V_i s.LAM_VISC_INDEX +
            (inp.F1_i * sigma_k1 + (1 - inp.F1_i) * sigma_k2) * inp.V_i s.EDDY_VISC_INDEX) +
          (inp.V_j s.LAM_VISC_INDEX +
            (inp.F1_j * sigma_k1 + (1 - inp.F1_j) * sigma_k2) * inp.V_j s.EDDY_VISC_INDEX)) *
          (ComputeResidual (Closure.TurbSST sigma_k1 sigma_k2 sigma_om1 sigma_om2) s
            inp).Proj_Mean_GradTurbVar 0 ∧
      (ComputeResidual (Closure.TurbSST sigma_k1 sigma_k2 sigma_om1 sigma_om2) s inp).Flux 1 =
        0.5 * ((inp.V_i s.LAM_VISC_INDEX +
            (inp.F1_i * sigma_om1 + (1 - inp.F1_i) * sigma_om2) * inp.V_i s.EDDY_VISC_INDEX) +
          (inp.V_j s.LAM_VISC_INDEX +
            (inp.F1_j * sigma_om1 + (1 - inp.F1_j) * sigma_om2) * inp.V_j s.EDDY_VISC_INDEX)) *
          (ComputeResidual (Closure.TurbSST sigma_k1 sigma_k2 sigma_om1 sigma_om2) s
            inp).Proj_Mean_GradTurbVar 1 ∧
      (ComputeResidual (Closure.TurbSST sigma_k1 sigma_k2 sigma_om1 sigma_om2) s
          inp).divisions.filter (fun e => decide (e.1 = DivSite.flux)) = [] := by
  refine ⟨?_, ?_, ?_⟩
  · rw [Flux_SST, ComputeResidual_Proj, ← diff_kine_gradientStage]
    simp
  · rw [Flux_SST, ComputeResidual_Proj, ← diff_omega_gradientStage]
    simp
  · have hg : (gradientStage s inp).divisions.filter (fun e => decide (e.1 = DivSite.flux)) =
        [] := by
      rw [gradientStage_eq]
      by_cases h : dist2Of inp s.nDim = 0 <;> simp [h, List.filter]
    simp only [ComputeResidual, CNEMOAvgGrad_Scalar.FinishResidualCalc, FinishResidualCalc]
    split
    · simp only [List.filter_append, hg]
      simp [List.filter]
    · exact hg

/-- C15: for the two-equation closure with the implicit flag set and every input, with
`w = proj_vector_ij`, `Jacobian_i[0][0] = -diff_kine*w/Density_i`, `Jacobian_i[1][1] =
-diff_omega*w/Density_i`, `Jacobian_j[0][0] = diff_kine*w/Density_j` and `Jacobian_j[1][1] =
diff_omega*w/Density_j`, the densities being `V_i[RHO_INDEX]` and `V_j[RHO_INDEX]`. -/
theorem sst_jacobian_diagonal (sigma_k1 sigma_k2 sigma_om1 sigma_om2 : ℚ)
    (s : CNEMOAvgGrad_Scalar) (inp : EdgeInput) (himp : s.implicit = true) :
    (ComputeResidual (Closure.TurbSST sigma_k1 sigma_k2 sigma_om1 sigma_om2) s inp).Jacobian_i
          0 0 =
        -diff_kine sigma_k1 sigma_k2 inp
            (ComputeResidual (Closure.TurbSST sigma_k1 sigma_k2 sigma_om1 sigma_om2) s inp) *
          (ComputeResidual (Closure.TurbSST sigma_k1 sigma_k2 sigma_om1 sigma_om2) s
            inp).proj_vector_ij / inp.V_i s.RHO_INDEX ∧
      (ComputeResidual (Closure.TurbSST sigma_k1 sigma_k2 sigma_om1 sigma_om2) s inp).Jacobian_i
          1 1 =
        -diff_omega sigma_om1 sigma_om2 inp
            (ComputeResidual (Closure.TurbSST sigma_k1 sigma_k2 sigma_om1 sigma_om2) s inp) *
          (ComputeResidual (Closure.TurbSST sigma_k1 sigma_k2 sigma_om1 sigma_om2) s
            inp).proj_vector_ij / inp.V_i s.RHO_INDEX ∧
      (ComputeResidual (Closure.TurbSST sigma_k1 sigma_k2 sigma_om1 sigma_om2) s inp).Jacobian_j
          0 0 =
        diff_kine sigma_k1 sigma_k2 inp
            (ComputeResidual (Closure.TurbSST sigma_k1 sigma_k2 sigma_om1 sigma_om2) s inp) *
          (ComputeResidual (Closure.TurbSST sigma_k1 sigma_k2 sigma_om1 sigma_om2) s
            inp).proj_vector_ij / inp.V_j s.RHO_INDEX ∧
      (ComputeResidual (Closure.TurbSST sigma_k1 sigma_k2 sigma_om1 sigma_om2) s inp).Jacobian_j
          1 1 =
        diff_omega sigma_om1 sigma_om2 inp
            (ComputeResidual (Closure.TurbSST sigma_k1 sigma_k2 sigma_om1 sigma_om2) s inp) *
          (ComputeResidual (Closure.TurbSST sigma_k1 sigma_k2 sigma_om1 sigma_om2) s
            inp).proj_vector_ij / inp.V_j s.RHO_INDEX := by
  have hi : (gradientStage s inp).Density_i = inp.V_i s.RHO_INDEX := by rw [gradientStage_eq]
  have hj : (gradientStage s inp).Density_j = inp.V_j s.RHO_INDEX := by rw [gradientStage_eq]
  rw [diff_kine_ComputeResidual, diff_omega_ComputeResidual, ComputeResidual_weight,
    (Jacobian_SST sigma_k1 sigma_k2 sigma_om1 sigma_om2 s inp 0 0).1,
    (Jacobian_SST sigma_k1 sigma_k2 sigma_om1 sigma_om2 s inp 1 1).1,
    (Jacobian_SST sigma_k1 sigma_k2 sigma_om1 sigma_om2 s inp 0 0).2,
    (Jacobian_SST sigma_k1 sigma_k2 sigma_om1 sigma_om2 s inp 1 1).2]
  simp only [himp, hi, hj, if_true]
  norm_num
  refine ⟨?_, ?_, ?_, ?_⟩ <;> ring

/-- Witness of C15: the negative edge on a fresh implicit two-scalar kernel with the
coefficients `sigma_k1 = 1`, `sigma_k2 = 2`, `sigma_om1 = 1/2`, `sigma_om2 = 1`; there
`w = 1`, both densities are `1`, `diff_kine = 47/8` and `diff_omega = 55/16`. -/
theorem sst_jacobian_diagonal_witness :
    twoEquationKernel.implicit = true ∧
      (ComputeResidual (Closure.TurbSST 1 2 (1 / 2) 1) twoEquationKernel negativeEdge).Jacobian_i
          0 0 = -(47 / 8) ∧
      (ComputeResidual (Closure.TurbSST 1 2 (1 / 2) 1) twoEquationKernel negativeEdge).Jacobian_j
          1 1 = 55 / 16 :=
  ⟨rfl,
    ((sst_jacobian_diagonal 1 2 (1 / 2) 1 twoEquationKernel negativeEdge rfl).1).trans
      (by
        rw [diff_kine_ComputeResidual, diff_kine_gradientStage, ComputeResidual_weight,
          gradientStage_eq]
        simp [twoEquationKernel, negativeEdge, exampleEdge, ctor, edgeOf, weightOf, dist2Of,
          Finset.sum_range_succ]
        norm_num),
    ((sst_jacobian_diagonal 1 2 (1 / 2) 1 twoEquationKernel negativeEdge rfl).2.2.2).trans
      (by
        rw [diff_omega_ComputeResidual, diff_omega_gradientStage, ComputeResidual_weight,
          gradientStage_eq]
        simp [twoEquationKernel, negativeEdge, exampleEdge, ctor, edgeOf, weightOf, dist2Of,
          Finset.sum_range_succ]
        norm_num)⟩

/-- One call keeps the off-diagonal entries of both blocks at zero: it either stores `0.0`
there (lines 246-252) or does not touch them. -/
theorem offDiagonal_step (k1 k2 o1 o2 : ℚ) (s : CNEMOAvgGrad_Scalar) (inp : EdgeInput)
    (h : s.Jacobian_i 0 1 = 0 ∧ s.Jacobian_i 1 0 = 0 ∧ s.Jacobian_j 0 1 = 0 ∧
      s.Jacobian_j 1 0 = 0) :
    (ComputeResidual (Closure.TurbSST k1 k2 o1 o2) s inp).Jacobian_i 0 1 = 0 ∧
      (ComputeResidual (Closure.TurbSST k1 k2 o1 o2) s inp).Jacobian_i 1 0 = 0 ∧
      (ComputeResidual (Closure.TurbSST k1 k2 o1 o2) s inp).Jacobian_j 0 1 = 0 ∧
      (ComputeResidual (Closure.TurbSST k1 k2 o1 o2) s inp).Jacobian_j 1 0 = 0 := by
  obtain ⟨h1, h2, h3, h4⟩ := h
  rw [(Jacobian_SST k1 k2 o1 o2 s inp 0 1).1, (Jacobian_SST k1 k2 o1 o2 s inp 1 0).1,
    (Jacobian_SST k1 k2 o1 o2 s inp 0 1).2, (Jacobian_SST k1 k2 o1 o2 s inp 1 0).2]
  cases s.implicit <;> simp [h1, h2, h3, h4]

theorem offDiagonal_calls (k1 k2 o1 o2 : ℚ) (edges : List EdgeInput) (s : CNEMOAvgGrad_Scalar)
    (h : s.Jacobian_i 0 1 = 0 ∧ s.Jacobian_i 1 0 = 0 ∧ s.Jacobian_j 0 1 = 0 ∧
      s.Jacobian_j 1 0 = 0) :
    (calls (Closure.TurbSST k1 k2 o1 o2) s edges).Jacobian_i 0 1 = 0 ∧
      (calls (Closure.TurbSST k1 k2 o1 o2) s edges).Jacobian_i 1 0 = 0 ∧
      (calls (Closure.TurbSST k1 k2 o1 o2) s edges).Jacobian_j 0 1 = 0 ∧
      (calls (Closure.TurbSST k1 k2 o1 o2) s edges).Jacobian_j 1 0 = 0 := by
  induction edges generalizing s with
  | nil => exact h
  | cons e rest ih =>
    simp only [calls, List.foldl_cons]
    exact ih _ (offDiagonal_step k1 k2 o1 o2 s e h)

/-- C16 (no cross-coupling): for the two-equation closure, whatever the dimension, the
number of scalars, the flags (implicit or not), the coefficients and the inputs, the
off-diagonal entries `Jacobian_i[0][1]`, `Jacobian_i[1][0]`, `Jacobian_j[0][1]`,
`Jacobian_j[1][0]` returned by a call are exactly zero, on a freshly constructed kernel and
after any sequence of earlier calls on it. -/
theorem no_cross_coupling (sigma_k1 sigma_k2 sigma_om1 sigma_om2 : ℚ) (val_nDim val_nVar : Nat)
    (correct_grad EULER_IMPLICIT INCOMPRESSIBLE : Bool)
    (RHO_INDEX LAM_VISC_INDEX EDDY_VISC_INDEX : Nat) (earlier : List EdgeInput)
    (inp : EdgeInput) :
    (ComputeResidual (Closure.TurbSST sigma_k1 sigma_k2 sigma_om1 sigma_om2)
        (calls (Closure.TurbSST sigma_k1 sigma_k2 sigma_om1 sigma_om2)
          (ctor val_nDim val_nVar correct_grad EULER_IMPLICIT INCOMPRESSIBLE RHO_INDEX
            LAM_VISC_INDEX EDDY_VISC_INDEX) earlier) inp).Jacobian_i 0 1 = 0 ∧
      (ComputeResidual (Closure.TurbSST sigma_k1 sigma_k2 sigma_om1 sigma_om2)
        (calls (Closure.TurbSST sigma_k1 sigma_k2 sigma_om1 sigma_om2)
          (ctor val_nDim val_nVar correct_grad EULER_IMPLICIT INCOMPRESSIBLE RHO_INDEX
            LAM_VISC_INDEX EDDY_VISC_INDEX) earlier) inp).Jacobian_i 1 0 = 0 ∧
      (ComputeResidual (Closure.TurbSST sigma_k1 sigma_k2 sigma_om1 sigma_om2)
        (calls (Closure.TurbSST sigma_k1 sigma_k2 sigma_om1 sigma_om2)
          (ctor val_nDim val_nVar correct_grad EULER_IMPLICIT INCOMPRESSIBLE RHO_INDEX
            LAM_VISC_INDEX EDDY_VISC_INDEX) earlier) inp).Jacobian_j 0 1 = 0 ∧
      (ComputeResidual (Closure.TurbSST sigma_k1 sigma_k2 sigma_om1 sigma_om2)
        (calls (Closure.TurbSST sigma_k1 sigma_k2 sigma_om1 sigma_om2)
          (ctor val_nDim val_nVar correct_grad EULER_IMPLICIT INCOMPRESSIBLE RHO_INDEX
            LAM_VISC_INDEX EDDY_VISC_INDEX) earlier) inp).Jacobian_j 1 0 = 0 := by
  apply offDiagonal_step
  apply offDiagonal_calls
  exact ⟨rfl, rfl, rfl, rfl⟩

/-- C17 (Jacobian antisymmetry): for the two-equation closure with the implicit flag set,
for every input with `Density_i = Density_j` and for each scalar `k` in `{0, 1}`,
`Jacobian_j[k][k] = -Jacobian_i[k][k]`. -/
theorem sst_jacobian_antisymmetry (sigma_k1 sigma_k2 sigma_om1 sigma_om2 : ℚ)
    (s : CNEMOAvgGrad_Scalar) (inp : EdgeInput) (k : Nat) (himp : s.implicit = true)
    (hrho : inp.V_i s.RHO_INDEX = inp.V_j s.RHO_INDEX) (hk : k < 2) :
    (ComputeResidual (Closure.TurbSST sigma_k1 sigma_k2 sigma_om1 sigma_om2) s inp).Jacobian_j
        k k =
      -(ComputeResidual (Closure.TurbSST sigma_k1 sigma_k2 sigma_om1 sigma_om2) s inp).Jacobian_i
        k k := by
  have hi : (gradientStage s inp).Density_i = inp.V_i s.RHO_INDEX := by rw [gradientStage_eq]
  have hj : (gradientStage s inp).Density_j = inp.V_j s.RHO_INDEX := by rw [gradientStage_eq]
  rw [(Jacobian_SST sigma_k1 sigma_k2 sigma_om1 sigma_om2 s inp k k).1,
    (Jacobian_SST sigma_k1 sigma_k2 sigma_om1 sigma_om2 s inp k k).2]
  have hk2 : k = 0 ∨ k = 1 := by omega
  rcases hk2 with h | h <;> subst h <;> simp [himp, hi, hj, hrho]

/-- Witness of C17: the negative edge, whose two densities are both `1`, on a fresh implicit
two-scalar kernel, for the second scalar. -/
theorem sst_jacobian_antisymmetry_witness :
    twoEquationKernel.implicit = true ∧
      negativeEdge.V_i twoEquationKernel.RHO_INDEX = negativeEdge.V_j twoEquationKernel.RHO_INDEX ∧
      1 < 2 ∧
      (ComputeResidual (Closure.TurbSST 1 2 (1 / 2) 1) twoEquationKernel negativeEdge).Jacobian_j
          1 1 =
        -(ComputeResidual (Closure.TurbSST 1 2 (1 / 2) 1) twoEquationKernel
          negativeEdge).Jacobian_i 1 1 :=
  ⟨rfl, rfl, by decide,
    sst_jacobian_antisymmetry 1 2 (1 / 2) 1 twoEquationKernel negativeEdge 1 rfl rfl (by decide)⟩

end CNEMOAvgGrad_TurbSST

/-! ## Edge reversal -/

namespace CNEMOAvgGrad_Scalar

/-- Lines 145-149 on the object built by lines 71-121. -/
theorem Flux_TurbSA (sigma : ℚ) (s : CNEMOAvgGrad_Scalar) (inp : EdgeInput) :
    (ComputeResidual (Closure.TurbSA sigma) s inp).Flux =
      Function.update s.Flux 0
        (0.5 * (inp.V_i s.LAM_VISC_INDEX / inp.V_i s.RHO_INDEX +
          inp.V_j s.LAM_VISC_INDEX / inp.V_j s.RHO_INDEX + inp.TurbVar_i 0 + inp.TurbVar_j 0) *
          (gradientStage s inp).Proj_Mean_GradTurbVar 0 / sigma) := by
  have hF : (gradientStage s inp).Flux = s.Flux := by rw [gradientStage_eq]
  rw [← CNEMOAvgGrad_TurbSA.nu_e_gradientStage, ← hF]
  simp only [ComputeResidual, FinishResidualCalc, CNEMOAvgGrad_TurbSA.FinishResidualCalc]
  split <;> rfl

/-- Lines 173-190 on the object built by lines 71-121. -/
theorem Flux_TurbSA_Neg (sigma cn1 : ℚ) (s : CNEMOAvgGrad_Scalar) (inp : EdgeInput) :
    (ComputeResidual (Closure.TurbSA_Neg sigma cn1) s inp).Flux =
      Function.update s.Flux 0
        (CNEMOAvgGrad_TurbSA_Neg.nu_e cn1 inp (gradientStage s inp) *
          (gradientStage s inp).Proj_Mean_GradTurbVar_Normal 0 / sigma) := by
  have hF : (gradientStage s inp).Flux = s.Flux := by rw [gradientStage_eq]
  rw [← hF]
  simp only [ComputeResidual, FinishResidualCalc, CNEMOAvgGrad_TurbSA_Neg.FinishResidualCalc]
  split <;> rfl

theorem gradientStage_Proj (s : CNEMOAvgGrad_Scalar) (inp : EdgeInput) (k : Nat)
    (hk : k < s.nVar) :
    (gradientStage s inp).Proj_Mean_GradTurbVar k = projOf inp s.correct_gradient s.nDim k := by
  rw [gradientStage_eq]
  simp [hk]

theorem gradientStage_Normal (s : CNEMOAvgGrad_Scalar) (inp : EdgeInput) (k : Nat)
    (hk : k < s.nVar) :
    (gradientStage s inp).Proj_Mean_GradTurbVar_Normal k = projOf inp false s.nDim k := by
  rw [gradientStage_eq]
  simp [hk, projOf]

theorem gradientStage_weight (s : CNEMOAvgGrad_Scalar) (inp : EdgeInput) :
    (gradientStage s inp).proj_vector_ij = weightOf inp s.nDim := by
  rw [gradientStage_eq]

/-- Lines 153-156 on the object built by lines 71-121. -/
theorem Jacobian_TurbSA (sigma : ℚ) (s : CNEMOAvgGrad_Scalar) (inp : EdgeInput) (a b : Nat) :
    (ComputeResidual (Closure.TurbSA sigma) s inp).Jacobian_i a b =
        (if s.implicit = true then
          (if a = 0 ∧ b = 0 then
            (0.5 * (gradientStage s inp).Proj_Mean_GradTurbVar 0 -
              CNEMOAvgGrad_TurbSA.nu_e inp (gradientStage s inp) *
                (gradientStage s inp).proj_vector_ij) / sigma
           else s.Jacobian_i a b)
         else s.Jacobian_i a b) ∧
      (ComputeResidual (Closure.TurbSA sigma) s inp).Jacobian_j a b =
        (if s.implicit = true then
          (if a = 0 ∧ b = 0 then
            (0.5 * (gradientStage s inp).Proj_Mean_GradTurbVar 0 +
              CNEMOAvgGrad_TurbSA.nu_e inp (gradientStage s inp) *
                (gradientStage s inp).proj_vector_ij) / sigma
           else s.Jacobian_j a b)
         else s.Jacobian_j a b) := by
  have hi : (gradientStage s inp).implicit = s.implicit := by rw [gradientStage_eq]
  have hJi : (gradientStage s inp).Jacobian_i = s.Jacobian_i := by rw [gradientStage_eq]
  have hJj : (gradientStage s inp).Jacobian_j = s.Jacobian_j := by rw [gradientStage_eq]
  simp only [ComputeResidual, FinishResidualCalc, CNEMOAvgGrad_TurbSA.FinishResidualCalc]
  cases himp : s.implicit
  · simp [hi, himp, hJi, hJj]
  · simp only [hi, himp, if_true, CNEMOAvgGrad_TurbSST.store_apply, hJi, hJj, and_self]

/-- Lines 194-197 on the object built by lines 71-121. -/
theorem Jacobian_TurbSA_Neg (sigma cn1 : ℚ) (s : CNEMOAvgGrad_Scalar) (inp : EdgeInput)
    (a b : Nat) :
    (ComputeResidual (Closure.TurbSA_Neg sigma cn1) s inp).Jacobian_i a b =
        (if s.implicit = true then
          (if a = 0 ∧ b = 0 then
            (0.5 * (gradientStage s inp).Proj_Mean_GradTurbVar 0 -
              CNEMOAvgGrad_TurbSA_Neg.nu_e cn1 inp (gradientStage s inp) *
                (gradientStage s inp).proj_vector_ij) / sigma
           else s.Jacobian_i a b)
         else s.Jacobian_i a b) ∧
      (ComputeResidual (Closure.TurbSA_Neg sigma cn1) s inp).Jacobian_j a b =
        (if s.implicit = true then
          (if a = 0 ∧ b = 0 then
            (0.5 * (gradientStage s inp).Proj_Mean_GradTurbVar 0 +
              CNEMOAvgGrad_TurbSA_Neg.nu_e cn1 inp (gradientStage s inp) *
                (gradientStage s inp).proj_vector_ij) / sigma
           else s.Jacobian_j a b)
         else s.Jacobian_j a b) := by
  have hi : (gradientStage s inp).implicit = s.implicit := by rw [gradientStage_eq]
  have hJi : (gradientStage s inp).Jacobian_i = s.Jacobian_i := by rw [gradientStage_eq]
  have hJj : (gradientStage s inp).Jacobian_j = s.Jacobian_j := by rw [gradientStage_eq]
  simp only [ComputeResidual, FinishResidualCalc, CNEMOAvgGrad_TurbSA_Neg.FinishResidualCalc]
  cases himp : s.implicit
  · simp [hi, himp, hJi, hJj]
  · simp only [hi, himp, if_true, CNEMOAvgGrad_TurbSST.store_apply, hJi, hJj, and_self]

/-- C19: for each of the three closures, when the implicit flag is not set a call of
`ComputeResidual` leaves every entry of `Jacobian_i` and of `Jacobian_j` as it was: the
blocks are computed only under `if (implicit)`. -/
theorem jacobian_untouched_when_explicit (c : Closure) (s : CNEMOAvgGrad_Scalar)
    (inp : EdgeInput) (himp : s.implicit = false) :
    (ComputeResidual c s inp).Jacobian_i = s.Jacobian_i ∧
      (ComputeResidual c s inp).Jacobian_j = s.Jacobian_j := by
  constructor <;> funext a b <;> cases c
  · rw [(Jacobian_TurbSA _ s inp a b).1]; simp [himp]
  · rw [(Jacobian_TurbSA_Neg _ _ s inp a b).1]; simp [himp]
  · rw [(CNEMOAvgGrad_TurbSST.Jacobian_SST _ _ _ _ s inp a b).1]; simp [himp]
  · rw [(Jacobian_TurbSA _ s inp a b).2]; simp [himp]
  · rw [(Jacobian_TurbSA_Neg _ _ s inp a b).2]; simp [himp]
  · rw [(CNEMOAvgGrad_TurbSST.Jacobian_SST _ _ _ _ s inp a b).2]; simp [himp]

/-- Witness of C19: an explicit kernel whose blocks hold `5` and `7` everywhere keeps them
through a call of the two-equation closure. -/
theorem jacobian_untouched_when_explicit_witness :
    ({ exampleKernel with Jacobian_i := fun _ _ => 5, Jacobian_j := fun _ _ => 7 } :
        CNEMOAvgGrad_Scalar).implicit = false ∧
      (ComputeResidual (Closure.TurbSST 1 2 (1 / 2) 1)
          { exampleKernel with Jacobian_i := fun _ _ => 5, Jacobian_j := fun _ _ => 7 }
          negativeEdge).Jacobian_i = (fun _ _ => 5) ∧
      (ComputeResidual (Closure.TurbSST 1 2 (1 / 2) 1)
          { exampleKernel with Jacobian_i := fun _ _ => 5, Jacobian_j := fun _ _ => 7 }
          negativeEdge).Jacobian_j = (fun _ _ => 7) :=
  ⟨rfl,
    jacobian_untouched_when_explicit (Closure.TurbSST 1 2 (1 / 2) 1)
      { exampleKernel with Jacobian_i := fun _ _ => 5, Jacobian_j := fun _ _ => 7 } negativeEdge
      rfl⟩

/-! ## No state is carried from one edge to the next -/

theorem sameSetup_refl (s : CNEMOAvgGrad_Scalar) : sameSetup s s :=
  ⟨rfl, rfl, rfl, rfl, rfl, rfl, rfl⟩

theorem sameSetup_symm {s t : CNEMOAvgGrad_Scalar} (h : sameSetup s t) : sameSetup t s := by
  obtain ⟨h1, h2, h3, h4, h5, h6, h7⟩ := h
  exact ⟨h1.symm, h2.symm, h3.symm, h4.symm, h5.symm, h6.symm, h7.symm⟩

theorem sameSetup_trans {s t u : CNEMOAvgGrad_Scalar} (h : sameSetup s t) (g : sameSetup t u) :
    sameSetup s u := by
  obtain ⟨h1, h2, h3, h4, h5, h6, h7⟩ := h
  obtain ⟨g1, g2, g3, g4, g5, g6, g7⟩ := g
  exact ⟨h1.trans g1, h2.trans g2, h3.trans g3, h4.trans g4, h5.trans g5, h6.trans g6,
    h7.trans g7⟩

/-- A call does not change the members fixed by the constructor. -/
theorem sameSetup_ComputeResidual (c : Closure) (s : CNEMOAvgGrad_Scalar) (inp : EdgeInput) :
    sameSetup s (ComputeResidual c s inp) := by
  have hg : sameSetup s (gradientStage s inp) := by
    rw [gradientStage_eq]; exact ⟨rfl, rfl, rfl, rfl, rfl, rfl, rfl⟩
  have hf : sameSetup (gradientStage s inp) (ComputeResidual c s inp) := by
    cases c <;>
      simp only [ComputeResidual, FinishResidualCalc, CNEMOAvgGrad_TurbSA.FinishResidualCalc,
        CNEMOAvgGrad_TurbSA_Neg.FinishResidualCalc, CNEMOAvgGrad_TurbSST.FinishResidualCalc] <;>
      split <;> exact ⟨rfl, rfl, rfl, rfl, rfl, rfl, rfl⟩
  exact sameSetup_trans hg hf

theorem sameSetup_calls (c : Closure) (edges : List EdgeInput) (s : CNEMOAvgGrad_Scalar) :
    sameSetup s (calls c s edges) := by
  induction edges generalizing s with
  | nil => exact sameSetup_refl s
  | cons e rest ih =>
    simp only [calls, List.foldl_cons]
    exact sameSetup_trans (sameSetup_ComputeResidual c s e) (ih _)

/-- The entries a closure class never stores are left alone by a call. -/
theorem unwrittenZero_ComputeResidual (c : Closure) (s : CNEMOAvgGrad_Scalar) (inp : EdgeInput)
    (h : unwrittenZero c s) : unwrittenZero c (ComputeResidual c s inp) := by
  obtain ⟨hF, hJ⟩ := h
  have himp : (ComputeResidual c s inp).implicit = s.implicit :=
    ((sameSetup_ComputeResidual c s inp).2.2.2.2.2.2).symm
  refine ⟨?_, ?_⟩
  · intro k hk
    cases c with
    | TurbSA sigma =>
      simp only [Closure.nScalars] at hk
      rw [Flux_TurbSA, Function.update_noteq (by omega)]
      exact hF k hk
    | TurbSA_Neg sigma cn1 =>
      simp only [Closure.nScalars] at hk
      rw [Flux_TurbSA_Neg, Function.update_noteq (by omega)]
      exact hF k hk
    | TurbSST k1 k2 o1 o2 =>
      simp only [Closure.nScalars] at hk
      have hFg : (gradientStage s inp).Flux = s.Flux := by rw [gradientStage_eq]
      rw [CNEMOAvgGrad_TurbSST.Flux_SST, Function.update_noteq (by omega),
        Function.update_noteq (by omega), hFg]
      exact hF k hk
  · intro a b hab
    rw [himp] at hab
    have hz := hJ a b hab
    cases c with
    | TurbSA sigma =>
      rw [(Jacobian_TurbSA sigma s inp a b).1, (Jacobian_TurbSA sigma s inp a b).2]
      cases hi : s.implicit
      · simpa [hi] using hz
      · have hne : ¬ (a = 0 ∧ b = 0) := by
          intro h0
          exact hab hi ⟨by simp [Closure.nScalars, h0.1], by simp [Closure.nScalars, h0.2]⟩
        simpa [hi, hne] using hz
    | TurbSA_Neg sigma cn1 =>
      rw [(Jacobian_TurbSA_Neg sigma cn1 s inp a b).1,
        (Jacobian_TurbSA_Neg sigma cn1 s inp a b).2]
      cases hi : s.implicit
      · simpa [hi] using hz
      · have hne : ¬ (a = 0 ∧ b = 0) := by
          intro h0
          exact hab hi ⟨by simp [Closure.nScalars, h0.1], by simp [Closure.nScalars, h0.2]⟩
        simpa [hi, hne] using hz
    | TurbSST k1 k2 o1 o2 =>
      rw [(CNEMOAvgGrad_TurbSST.Jacobian_SST k1 k2 o1 o2 s inp a b).1,
        (CNEMOAvgGrad_TurbSST.Jacobian_SST k1 k2 o1 o2 s inp a b).2]
      cases hi : s.implicit
      · simpa [hi] using hz
      · have hout : ¬ (a < 2 ∧ b < 2) := by
          simpa [Closure.nScalars] using hab hi
        have h11 : ¬ (a = 1 ∧ b = 1) := fun h0 => hout ⟨by omega, by omega⟩
        have h10 : ¬ (a = 1 ∧ b = 0) := fun h0 => hout ⟨by omega, by omega⟩
        have h01 : ¬ (a = 0 ∧ b = 1) := fun h0 => hout ⟨by omega, by omega⟩
        have h00 : ¬ (a = 0 ∧ b = 0) := fun h0 => hout ⟨by omega, by omega⟩
        simpa [hi, h11, h10, h01, h00] using hz

theorem unwrittenZero_calls (c : Closure) (edges : List EdgeInput) (s : CNEMOAvgGrad_Scalar)
    (h : unwrittenZero c s) : unwrittenZero c (calls c s edges) := by
  induction edges generalizing s with
  | nil => exact h
  | cons e rest ih =>
    simp only [calls, List.foldl_cons]
    exact ih _ (unwrittenZero_ComputeResidual c s e h)

/-- A freshly constructed kernel holds zeros everywhere in its output buffers. -/
theorem unwrittenZero_ctor (c : Closure) (val_nDim val_nVar : Nat)
    (correct_grad EULER_IMPLICIT INCOMPRESSIBLE : Bool)
    (RHO_INDEX LAM_VISC_INDEX EDDY_VISC_INDEX : Nat) :
    unwrittenZero c (ctor val_nDim val_nVar correct_grad EULER_IMPLICIT INCOMPRESSIBLE RHO_INDEX
      LAM_VISC_INDEX EDDY_VISC_INDEX) :=
  ⟨fun _ _ => rfl, fun _ _ _ => ⟨rfl, rfl⟩⟩

/-- What lines 71-121 compute depends on the object only through the members fixed by the
constructor. -/
theorem gradientStage_agree (s t : CNEMOAvgGrad_Scalar) (inp : EdgeInput) (h : sameSetup s t) :
    (gradientStage s inp).proj_vector_ij = (gradientStage t inp).proj_vector_ij ∧
      (gradientStage s inp).Density_i = (gradientStage t inp).Density_i ∧
      (gradientStage s inp).Density_j = (gradientStage t inp).Density_j ∧
      (∀ k, k < s.nVar →
        (gradientStage s inp).Proj_Mean_GradTurbVar k =
            (gradientStage t inp).Proj_Mean_GradTurbVar k ∧
          (gradientStage s inp).Proj_Mean_GradTurbVar_Normal k =
            (gradientStage t inp).Proj_Mean_GradTurbVar_Normal k) ∧
      CNEMOAvgGrad_TurbSA.nu_e inp (gradientStage s inp) =
        CNEMOAvgGrad_TurbSA.nu_e inp (gradientStage t inp) ∧
      (∀ cn1, CNEMOAvgGrad_TurbSA_Neg.nu_e cn1 inp (gradientStage s inp) =
        CNEMOAvgGrad_TurbSA_Neg.nu_e cn1 inp (gradientStage t inp)) ∧
      (∀ a b, CNEMOAvgGrad_TurbSST.diff_kine a b inp (gradientStage s inp) =
        CNEMOAvgGrad_TurbSST.diff_kine a b inp (gradientStage t inp)) ∧
      (∀ a b, CNEMOAvgGrad_TurbSST.diff_omega a b inp (gradientStage s inp) =
        CNEMOAvgGrad_TurbSST.diff_omega a b inp (gradientStage t inp)) := by
  obtain ⟨hD, hV, hR, hL, hE, hcg, -⟩ := h
  refine ⟨?_, ?_, ?_, ?_, ?_, ?_, ?_, ?_⟩
  · rw [gradientStage_weight, gradientStage_weight, hD]
  · rw [gradientStage_eq, gradientStage_eq]; simp only [hR]
  · rw [gradientStage_eq, gradientStage_eq]; simp only [hR]
  · intro k hk
    have hk2 : k < t.nVar := hV ▸ hk
    rw [gradientStage_Proj s inp k hk, gradientStage_Proj t inp k hk2,
      gradientStage_Normal s inp k hk, gradientStage_Normal t inp k hk2, hD, hcg]
    exact ⟨rfl, rfl⟩
  · rw [CNEMOAvgGrad_TurbSA.nu_e_gradientStage, CNEMOAvgGrad_TurbSA.nu_e_gradientStage, hR, hL]
  · intro cn1
    rw [CNEMOAvgGrad_TurbSA_Neg.nu_e_neg_gradientStage,
      CNEMOAvgGrad_TurbSA_Neg.nu_e_neg_gradientStage, hR, hL]
  · intro a b
    rw [CNEMOAvgGrad_TurbSST.diff_kine_gradientStage,
      CNEMOAvgGrad_TurbSST.diff_kine_gradientStage, hL, hE]
  · intro a b
    rw [CNEMOAvgGrad_TurbSST.diff_omega_gradientStage,
      CNEMOAvgGrad_TurbSST.diff_omega_gradientStage, hL, hE]

/-- Two objects with the same constructor-time members, on which the never-stored entries
are still zero, return the same `Flux`, `Jacobian_i` and `Jacobian_j` for the same edge. -/
theorem result_agree (c : Closure) (s t : CNEMOAvgGrad_Scalar) (inp : EdgeInput)
    (h : sameSetup s t) (hV : s.nVar = c.nScalars) (hs : unwrittenZero c s)
    (ht : unwrittenZero c t) :
    (ComputeResidual c s inp).Flux = (ComputeResidual c t inp).Flux ∧
      (ComputeResidual c s inp).Jacobian_i = (ComputeResidual c t inp).Jacobian_i ∧
      (ComputeResidual c s inp).Jacobian_j = (ComputeResidual c t inp).Jacobian_j := by
  obtain ⟨hw, hri, hrj, hP, hSA, hNeg, hdk, hdo⟩ := gradientStage_agree s t inp h
  have himp : s.implicit = t.implicit := h.2.2.2.2.2.2
  have hJ : ∀ a b, (s.implicit = true → ¬ (a < c.nScalars ∧ b < c.nScalars)) →
      s.Jacobian_i a b = t.Jacobian_i a b ∧ s.Jacobian_j a b = t.Jacobian_j a b := by
    intro a b hab
    have h1 := hs.2 a b hab
    have h2 := ht.2 a b (himp ▸ hab)
    exact ⟨h1.1.trans h2.1.symm, h1.2.trans h2.2.symm⟩
  have hF : ∀ k, c.nScalars ≤ k → s.Flux k = t.Flux k := fun k hk =>
    (hs.1 k hk).trans (ht.1 k hk).symm
  cases c with
  | TurbSA sigma =>
    simp only [Closure.nScalars] at hV hJ hF
    have hP0 := hP 0 (by omega)
    refine ⟨?_, ?_, ?_⟩
    · funext k
      rw [Flux_TurbSA, Flux_TurbSA, hP0.1, ← h.2.2.1, ← h.2.2.2.1]
      by_cases hk : k = 0
      · subst hk; simp
      · rw [Function.update_noteq hk, Function.update_noteq hk]
        exact hF k (by omega)
    · funext a b
      rw [(Jacobian_TurbSA sigma s inp a b).1, (Jacobian_TurbSA sigma t inp a b).1, hP0.1, hSA,
        hw, ← himp]
      by_cases hi : s.implicit = true
      · by_cases h0 : a = 0 ∧ b = 0
        · simp [hi, h0]
        · simp only [hi, h0, if_true, if_false]
          exact (hJ a b (fun _ hlt => h0 ⟨by omega, by omega⟩)).1
      · simp only [hi, if_false]
        exact (hJ a b (fun hh => absurd hh hi)).1
    · funext a b
      rw [(Jacobian_TurbSA sigma s inp a b).2, (Jacobian_TurbSA sigma t inp a b).2, hP0.1, hSA,
        hw, ← himp]
      by_cases hi : s.implicit = true
      · by_cases h0 : a = 0 ∧ b = 0
        · simp [hi, h0]
        · simp only [hi, h0, if_true, if_false]
          exact (hJ a b (fun _ hlt => h0 ⟨by omega, by omega⟩)).2
      · simp only [hi, if_false]
        exact (hJ a b (fun hh => absurd hh hi)).2
  | TurbSA_Neg sigma cn1 =>
    simp only [Closure.nScalars] at hV hJ hF
    have hP0 := hP 0 (by omega)
    refine ⟨?_, ?_, ?_⟩
    · funext k
      rw [Flux_TurbSA_Neg, Flux_TurbSA_Neg, hP0.2, hNeg]
      by_cases hk : k = 0
      · subst hk; simp
      · rw [Function.update_noteq hk, Function.update_noteq hk]
        exact hF k (by omega)
    · funext a b
      rw [(Jacobian_TurbSA_Neg sigma cn1 s inp a b).1,
        (Jacobian_TurbSA_Neg sigma cn1 t inp a b).1, hP0.1, hNeg, hw, ← himp]
      by_cases hi : s.implicit = true
      · by_cases h0 : a = 0 ∧ b = 0
        · simp [hi, h0]
        · simp only [hi, h0, if_true, if_false]
          exact (hJ a b (fun _ hlt => h0 ⟨by omega, by omega⟩)).1
      · simp only [hi, if_false]
        exact (hJ a b (fun hh => absurd hh hi)).1
    · funext a b
      rw [(Jacobian_TurbSA_Neg sigma cn1 s inp a b).2,
        (Jacobian_TurbSA_Neg sigma cn1 t inp a b).2, hP0.1, hNeg, hw, ← himp]
      by_cases hi : s.implicit = true
      · by_cases h0 : a = 0 ∧ b = 0
        · simp [hi, h0]
        · simp only [hi, h0, if_true, if_false]
          exact (hJ a b (fun _ hlt => h0 ⟨by omega, by omega⟩)).2
      · simp only [hi, if_false]
        exact (hJ a b (fun hh => absurd hh hi)).2
  | TurbSST k1 k2 o1 o2 =>
    simp only [Closure.nScalars] at hV hJ hF
    have hP0 := hP 0 (by omega)
    have hP1 := hP 1 (by omega)
    have hFs : (gradientStage s inp).Flux = s.Flux := by rw [gradientStage_eq]
    have hFt : (gradientStage t inp).Flux = t.Flux := by rw [gradientStage_eq]
    refine ⟨?_, ?_, ?_⟩
    · funext k
      rw [CNEMOAvgGrad_TurbSST.Flux_SST, CNEMOAvgGrad_TurbSST.Flux_SST, hP0.1, hP1.1, hdk, hdo,
        hFs, hFt]
      by_cases hk1 : k = 1
      · subst hk1; simp
      · rw [Function.update_noteq hk1, Function.update_noteq hk1]
        by_cases hk0 : k = 0
        · subst hk0; simp
        · rw [Function.update_noteq hk0, Function.update_noteq hk0]
          exact hF k (by omega)
    · funext a b
      rw [(CNEMOAvgGrad_TurbSST.Jacobian_SST k1 k2 o1 o2 s inp a b).1,
        (CNEMOAvgGrad_TurbSST.Jacobian_SST k1 k2 o1 o2 t inp a b).1, hdk, hdo, hw, hri, ← himp]
      by_cases hi : s.implicit = true
      · simp only [hi, if_true]
        split_ifs with h11 h10 h01 h00
        · rfl
        · rfl
        · rfl
        · rfl
        · exact (hJ a b (fun _ hlt => by omega)).1
      · simp only [hi, if_false]
        exact (hJ a b (fun hh => absurd hh hi)).1
    · funext a b
      rw [(CNEMOAvgGrad_TurbSST.Jacobian_SST k1 k2 o1 o2 s inp a b).2,
        (CNEMOAvgGrad_TurbSST.Jacobian_SST k1 k2 o1 o2 t inp a b).2, hdk, hdo, hw, hrj, ← himp]
      by_cases hi : s.implicit = true
      · simp only [hi, if_true]
        split_ifs with h11 h10 h01 h00
        · rfl
        · rfl
        · rfl
        · rfl
        · exact (hJ a b (fun _ hlt => by omega)).2
      · simp only [hi, if_false]
        exact (hJ a b (fun hh => absurd hh hi)).2

/-- C20 (no state is retained between edges): for each closure, on a kernel constructed
with the number of scalars of that closure (one for the single-equation closures, two for
the two-equation closure) and any construction-time flags and indices, the `Flux`,
`Jacobian_i` and `Jacobian_j` returned by a call on an edge are the same after any two
sequences of earlier calls: the result is a function of the inputs of that call only. -/
theorem no_state_retained (c : Closure) (val_nDim : Nat)
    (correct_grad EULER_IMPLICIT INCOMPRESSIBLE : Bool)
    (RHO_INDEX LAM_VISC_INDEX EDDY_VISC_INDEX : Nat) (earlier earlier2 : List EdgeInput)
    (inp : EdgeInput) :
    (ComputeResidual c
        (calls c (ctor val_nDim c.nScalars correct_grad EULER_IMPLICIT INCOMPRESSIBLE RHO_INDEX
          LAM_VISC_INDEX EDDY_VISC_INDEX) earlier) inp).Flux =
        (ComputeResidual c
          (calls c (ctor val_nDim c.nScalars correct_grad EULER_IMPLICIT INCOMPRESSIBLE RHO_INDEX
            LAM_VISC_INDEX EDDY_VISC_INDEX) earlier2) inp).Flux ∧
      (ComputeResidual c
        (calls c (ctor val_nDim c.nScalars correct_grad EULER_IMPLICIT INCOMPRESSIBLE RHO_INDEX
          LAM_VISC_INDEX EDDY_VISC_INDEX) earlier) inp).Jacobian_i =
        (ComputeResidual c
          (calls c (ctor val_nDim c.nScalars correct_grad EULER_IMPLICIT INCOMPRESSIBLE RHO_INDEX
            LAM_VISC_INDEX EDDY_VISC_INDEX) earlier2) inp).Jacobian_i ∧
      (ComputeResidual c
        (calls c (ctor val_nDim c.nScalars correct_grad EULER_IMPLICIT INCOMPRESSIBLE RHO_INDEX
          LAM_VISC_INDEX EDDY_VISC_INDEX) earlier) inp).Jacobian_j =
        (ComputeResidual c
          (calls c (ctor val_nDim c.nScalars correct_grad EULER_IMPLICIT INCOMPRESSIBLE RHO_INDEX
            LAM_VISC_INDEX EDDY_VISC_INDEX) earlier2) inp).Jacobian_j := by
  have h1 := sameSetup_calls c earlier (ctor val_nDim c.nScalars correct_grad EULER_IMPLICIT
    INCOMPRESSIBLE RHO_INDEX LAM_VISC_INDEX EDDY_VISC_INDEX)
  have h2 := sameSetup_calls c earlier2 (ctor val_nDim c.nScalars correct_grad EULER_IMPLICIT
    INCOMPRESSIBLE RHO_INDEX LAM_VISC_INDEX EDDY_VISC_INDEX)
  have h0 := unwrittenZero_ctor c val_nDim c.nScalars correct_grad EULER_IMPLICIT INCOMPRESSIBLE
    RHO_INDEX LAM_VISC_INDEX EDDY_VISC_INDEX
  exact result_agree c _ _ inp (sameSetup_trans (sameSetup_symm h1) h2) (h1.2.1.symm)
    (unwrittenZero_calls c earlier _ h0) (unwrittenZero_calls c earlier2 _ h0)

/-! ## The pre-accumulation inputs -/

/-- C21 fails on the code for the single-equation closure without correction: the worked
example and the same edge with `TurbVar_i[0]` changed to `7` agree on every scalar declared
by `AD::SetPreaccIn` (lines 76-86 with the empty `ExtraADPreaccIn` of line 139), the three
primitives read lie inside the declared range `V[0..nDim+6]`, `Flux[0]` is the declared
output, and yet the two evaluations return different values of `Flux[0]`, `4.5e-5` and
`5.25003`. -/
theorem preacc_inputs_miss_scalar :
    (∀ x ∈ preaccInputs (Closure.TurbSA (2 / 3)) exampleKernel,
        exampleEdge.read x = otherScalarEdge.read x) ∧
      exampleKernel.RHO_INDEX < exampleKernel.nDim + 7 ∧
      exampleKernel.LAM_VISC_INDEX < exampleKernel.nDim + 7 ∧
      0 ∈ preaccOutputs exampleKernel ∧
      PreaccInput.TurbVar_i 0 ∉ preaccInputs (Closure.TurbSA (2 / 3)) exampleKernel ∧
      (ComputeResidual (Closure.TurbSA (2 / 3)) exampleKernel exampleEdge).Flux 0 = 9 / 200000 ∧
      (ComputeResidual (Closure.TurbSA (2 / 3)) exampleKernel otherScalarEdge).Flux 0 =
        525003 / 100000 ∧
      (ComputeResidual (Closure.TurbSA (2 / 3)) exampleKernel exampleEdge).Flux 0 ≠
        (ComputeResidual (Closure.TurbSA (2 / 3)) exampleKernel otherScalarEdge).Flux 0 := by
  have h1 : (ComputeResidual (Closure.TurbSA (2 / 3)) exampleKernel exampleEdge).Flux 0 =
      9 / 200000 := by
    rw [Flux_TurbSA, gradientStage_Proj _ _ 0 (by decide)]
    simp [exampleKernel, exampleEdge, ctor, projOf, meanGradDot, Finset.sum_range_succ]
    norm_num
  have h2 : (ComputeResidual (Closure.TurbSA (2 / 3)) exampleKernel otherScalarEdge).Flux 0 =
      525003 / 100000 := by
    rw [Flux_TurbSA, gradientStage_Proj _ _ 0 (by decide)]
    simp [exampleKernel, otherScalarEdge, exampleEdge, ctor, projOf, meanGradDot,
      Finset.sum_range_succ]
    norm_num
  refine ⟨?_, by decide, by decide, by decide, by decide, h1, h2, ?_⟩
  · intro x hx
    cases x with
    | TurbVar_i k =>
      simp [preaccInputs, ExtraADPreaccIn, CNEMOAvgGrad_TurbSA.ExtraADPreaccIn, exampleKernel,
        ctor] at hx
    | _ => rfl
  · rw [h1, h2]
    norm_num

/-! ## The divisions of the negative-value-safe closure -/

/-- The trace of a call of the negative-value-safe closure, in program order: line 101 (when
the edge has a length), lines 173-174, lines 185-186 (on the `else` branch), line 190 and,
when implicit, lines 195-196. -/
theorem divisions_TurbSA_Neg (sigma cn1 : ℚ) (s : CNEMOAvgGrad_Scalar) (inp : EdgeInput) :
    (ComputeResidual (Closure.TurbSA_Neg sigma cn1) s inp).divisions =
      (if dist2Of inp s.nDim = 0 then [] else [(DivSite.proj_vector, dist2Of inp s.nDim)]) ++
        CNEMOAvgGrad_TurbSA_Neg.nu_e_divisions cn1 inp (gradientStage s inp) ++
        [(DivSite.flux, sigma)] ++
        (if s.implicit = true then [(DivSite.jacobian_i, sigma), (DivSite.jacobian_j, sigma)]
         else []) := by
  have hi : (gradientStage s inp).implicit = s.implicit := by rw [gradientStage_eq]
  have hd : (gradientStage s inp).divisions =
      (if dist2Of inp s.nDim = 0 then [] else [(DivSite.proj_vector, dist2Of inp s.nDim)]) := by
    rw [gradientStage_eq]
  simp only [ComputeResidual, FinishResidualCalc, CNEMOAvgGrad_TurbSA_Neg.FinishResidualCalc]
  cases himp : s.implicit <;> simp [hi, himp, hd]

theorem nu_ij_gradientStage (s : CNEMOAvgGrad_Scalar) (inp : EdgeInput) :
    CNEMOAvgGrad_TurbSA_Neg.nu_ij (gradientStage s inp) =
      0.5 * (inp.V_i s.LAM_VISC_INDEX / inp.V_i s.RHO_INDEX +
        inp.V_j s.LAM_VISC_INDEX / inp.V_j s.RHO_INDEX) := by
  rw [gradientStage_eq]
  simp [CNEMOAvgGrad_TurbSA_Neg.nu_ij, CNEMOAvgGrad_TurbSA_Neg.nu_i,
    CNEMOAvgGrad_TurbSA_Neg.nu_j]

/-- C22, as stated, fails: on the negative-value-safe closure, the edge with zero laminar
viscosity at both endpoints (`nu_ij = 0`) and `scalar_ij = -1 ≤ 0` is evaluated by dividing
by zero: the trace of the call holds the division of line 185 with divisor `0`. -/
theorem zero_viscosity_divides_by_zero :
    CNEMOAvgGrad_TurbSA_Neg.nu_ij
        (ComputeResidual (Closure.TurbSA_Neg (2 / 3) 16) exampleKernel inviscidEdge) = 0 ∧
      CNEMOAvgGrad_TurbSA_Neg.nu_tilde_ij inviscidEdge ≤ 0 ∧
      (DivSite.Xi, (0 : ℚ)) ∈
        (ComputeResidual (Closure.TurbSA_Neg (2 / 3) 16) exampleKernel inviscidEdge).divisions := by
  have hnu : CNEMOAvgGrad_TurbSA_Neg.nu_ij (gradientStage exampleKernel inviscidEdge) = 0 := by
    rw [nu_ij_gradientStage]
    norm_num [exampleKernel, inviscidEdge, negativeEdge, exampleEdge, ctor]
  have hs : ¬ CNEMOAvgGrad_TurbSA_Neg.nu_tilde_ij inviscidEdge > 0 := by
    norm_num [CNEMOAvgGrad_TurbSA_Neg.nu_tilde_ij, inviscidEdge, negativeEdge, exampleEdge]
  refine ⟨?_, not_lt.mp hs, ?_⟩
  · rw [CNEMOAvgGrad_TurbSA_Neg.nu_ij_ComputeResidual]
    norm_num [exampleKernel, inviscidEdge, negativeEdge, exampleEdge, ctor]
  · rw [divisions_TurbSA_Neg]
    simp only [CNEMOAvgGrad_TurbSA_Neg.nu_e_divisions, if_neg hs, hnu]
    simp

/-- C22, amended: for the negative-value-safe closure and every input with `scalar_ij ≤ 0`,
the zero-length edge is handled by clamping (no division by zero at line 101), but a zero
molecular viscosity is not: line 185 is evaluated once, with divisor `nu_ij`, so the call
divides by zero there exactly when `nu_ij = 0`. -/
theorem zero_viscosity_unguarded (sigma cn1 : ℚ) (s : CNEMOAvgGrad_Scalar) (inp : EdgeInput)
    (hs : CNEMOAvgGrad_TurbSA_Neg.nu_tilde_ij inp ≤ 0) :
    (DivSite.proj_vector, (0 : ℚ)) ∉
        (ComputeResidual (Closure.TurbSA_Neg sigma cn1) s inp).divisions ∧
      (ComputeResidual (Closure.TurbSA_Neg sigma cn1) s inp).divisions.filter
          (fun e => decide (e.1 = DivSite.Xi)) =
        [(DivSite.Xi, CNEMOAvgGrad_TurbSA_Neg.nu_ij
          (ComputeResidual (Closure.TurbSA_Neg sigma cn1) s inp))] ∧
      ((DivSite.Xi, (0 : ℚ)) ∈ (ComputeResidual (Closure.TurbSA_Neg sigma cn1) s inp).divisions ↔
        CNEMOAvgGrad_TurbSA_Neg.nu_ij
          (ComputeResidual (Closure.TurbSA_Neg sigma cn1) s inp) = 0) := by
  have hneg : ¬ CNEMOAvgGrad_TurbSA_Neg.nu_tilde_ij inp > 0 := not_lt.mpr hs
  have hnu : CNEMOAvgGrad_TurbSA_Neg.nu_ij
      (ComputeResidual (Closure.TurbSA_Neg sigma cn1) s inp) =
      CNEMOAvgGrad_TurbSA_Neg.nu_ij (gradientStage s inp) := by
    rw [CNEMOAvgGrad_TurbSA_Neg.nu_ij_ComputeResidual, nu_ij_gradientStage]
  rw [divisions_TurbSA_Neg, hnu]
  simp only [CNEMOAvgGrad_TurbSA_Neg.nu_e_divisions, if_neg hneg]
  refine ⟨?_, ?_, ?_⟩
  · by_cases hd : dist2Of inp s.nDim = 0
    · cases s.implicit <;> simp [hd]
    · cases s.implicit <;> simp [hd, Ne.symm hd]
  · by_cases hd : dist2Of inp s.nDim = 0 <;> cases s.implicit <;> simp [hd, List.filter]
  · by_cases hd : dist2Of inp s.nDim = 0 <;> cases s.implicit <;> simp [hd, eq_comm]

/-- Witness of the amended C22: the negative edge, where `scalar_ij = -1` and `nu_ij = 1`. -/
theorem zero_viscosity_unguarded_witness :
    CNEMOAvgGrad_TurbSA_Neg.nu_tilde_ij negativeEdge ≤ 0 ∧
      (DivSite.proj_vector, (0 : ℚ)) ∉
        (ComputeResidual (Closure.TurbSA_Neg (2 / 3) 16) exampleKernel negativeEdge).divisions :=
  have hs : CNEMOAvgGrad_TurbSA_Neg.nu_tilde_ij negativeEdge ≤ 0 := by
    norm_num [CNEMOAvgGrad_TurbSA_Neg.nu_tilde_ij, negativeEdge, exampleEdge]
  ⟨hs, (zero_viscosity_unguarded (2 / 3) 16 exampleKernel negativeEdge hs).1⟩

/-- C24, amended: evaluated in exact arithmetic, on the positive branch,
`0.5*(TurbVar_i[0] + TurbVar_j[0]) > 0`, the
negative-value-safe closure and the plain single-equation closure (same `sigma`, same
object, same edge) compute the same `nu_e`; when implicit, the same `Jacobian_i[0][0]` and
`Jacobian_j[0][0]`; and, when the correction flag is not set (and there is at least one
scalar), the same `Flux[0]`. -/
theorem positive_branch_agrees (sigma cn1 : ℚ) (s : CNEMOAvgGrad_Scalar) (inp : EdgeInput)
    (hpos : 0.5 * (inp.TurbVar_i 0 + inp.TurbVar_j 0) > 0) :
    CNEMOAvgGrad_TurbSA_Neg.nu_e cn1 inp
          (ComputeResidual (Closure.TurbSA_Neg sigma cn1) s inp) =
        CNEMOAvgGrad_TurbSA.nu_e inp (ComputeResidual (Closure.TurbSA sigma) s inp) ∧
      (s.implicit = true →
        (ComputeResidual (Closure.TurbSA_Neg sigma cn1) s inp).Jacobian_i 0 0 =
            (ComputeResidual (Closure.TurbSA sigma) s inp).Jacobian_i 0 0 ∧
          (ComputeResidual (Closure.TurbSA_Neg sigma cn1) s inp).Jacobian_j 0 0 =
            (ComputeResidual (Closure.TurbSA sigma) s inp).Jacobian_j 0 0) ∧
      (s.correct_gradient = false → 0 < s.nVar →
        (ComputeResidual (Closure.TurbSA_Neg sigma cn1) s inp).Flux 0 =
          (ComputeResidual (Closure.TurbSA sigma) s inp).Flux 0) := by
  have hnu : CNEMOAvgGrad_TurbSA_Neg.nu_e cn1 inp (gradientStage s inp) =
      CNEMOAvgGrad_TurbSA.nu_e inp (gradientStage s inp) := by
    rw [CNEMOAvgGrad_TurbSA_Neg.nu_e_neg_gradientStage, CNEMOAvgGrad_TurbSA.nu_e_gradientStage,
      if_pos hpos]
    ring
  refine ⟨?_, ?_, ?_⟩
  · rw [CNEMOAvgGrad_TurbSA_Neg.nu_e_neg_ComputeResidual, hnu,
      CNEMOAvgGrad_TurbSA.nu_e_ComputeResidual, CNEMOAvgGrad_TurbSA.nu_e_gradientStage]
  · intro himp
    rw [(Jacobian_TurbSA_Neg sigma cn1 s inp 0 0).1, (Jacobian_TurbSA_Neg sigma cn1 s inp 0 0).2,
      (Jacobian_TurbSA sigma s inp 0 0).1, (Jacobian_TurbSA sigma s inp 0 0).2, hnu]
    exact ⟨rfl, rfl⟩
  · intro hc hV
    rw [Flux_TurbSA_Neg, Flux_TurbSA, hnu, CNEMOAvgGrad_TurbSA.nu_e_gradientStage,
      gradientStage_Normal s inp 0 hV, gradientStage_Proj s inp 0 hV, hc]

/-- Witness of the amended C24: the worked example (`scalar_ij = 2e-5 > 0`), explicit and without
correction. -/
theorem positive_branch_agrees_witness :
    0.5 * (exampleEdge.TurbVar_i 0 + exampleEdge.TurbVar_j 0) > 0 ∧
      exampleKernel.correct_gradient = false ∧ 0 < exampleKernel.nVar ∧
      (ComputeResidual (Closure.TurbSA_Neg (2 / 3) 16) exampleKernel exampleEdge).Flux 0 =
        (ComputeResidual (Closure.TurbSA (2 / 3)) exampleKernel exampleEdge).Flux 0 :=
  have hpos : 0.5 * (exampleEdge.TurbVar_i 0 + exampleEdge.TurbVar_j 0) > 0 := by
    norm_num [exampleEdge]
  ⟨hpos, rfl, by decide,
    (positive_branch_agrees (2 / 3) 16 exampleKernel exampleEdge hpos).2.2 rfl (by decide)⟩

/-! ## The blended coefficients of the two-equation closure -/

/-- With the same gradient `g` at both endpoints the mean gradient is `g`. -/
theorem meanGradDot_same (inp : EdgeInput) (g v : Nat → ℚ) (D k : Nat)
    (hGi : ∀ d, d < D → inp.TurbVar_Grad_i k d = g d)
    (hGj : ∀ d, d < D → inp.TurbVar_Grad_j k d = g d) :
    meanGradDot inp v D k = ∑ d in Finset.range D, g d * v d := by
  unfold meanGradDot
  apply Finset.sum_congr rfl
  intro d hd
  rw [hGi d (Finset.mem_range.mp hd), hGj d (Finset.mem_range.mp hd)]
  ring

/-- C26, amended (linear-field exactness): evaluated in exact arithmetic, with the
correction flag set, when both endpoints carry
the same gradient `g` for scalar `k` and `TurbVar_j[k] - TurbVar_i[k] = g . (Coord_j -
Coord_i)`, the corrected projection equals the uncorrected one:
`Proj_Mean_GradTurbVar[k] = g . Normal`. -/
theorem linear_field_exact (c : Closure) (s : CNEMOAvgGrad_Scalar) (inp : EdgeInput) (k : Nat)
    (g : Nat → ℚ) (hc : s.correct_gradient = true) (hk : k < s.nVar)
    (hGi : ∀ d, d < s.nDim → inp.TurbVar_Grad_i k d = g d)
    (hGj : ∀ d, d < s.nDim → inp.TurbVar_Grad_j k d = g d)
    (hT : inp.TurbVar_j k - inp.TurbVar_i k =
      ∑ d in Finset.range s.nDim, g d * (inp.Coord_j d - inp.Coord_i d)) :
    (ComputeResidual c s inp).Proj_Mean_GradTurbVar k =
        ∑ d in Finset.range s.nDim, g d * inp.Normal d ∧
      (ComputeResidual c s inp).Proj_Mean_GradTurbVar k =
        (ComputeResidual c s inp).Proj_Mean_GradTurbVar_Normal k := by
  have hN := meanGradDot_same inp g inp.Normal s.nDim k hGi hGj
  have hE := meanGradDot_same inp g (edgeOf inp) s.nDim k hGi hGj
  have hE2 : (∑ d in Finset.range s.nDim, g d * edgeOf inp d) =
      inp.TurbVar_j k - inp.TurbVar_i k := by
    rw [hT]; rfl
  rw [ComputeResidual_Proj, ComputeResidual_Normal, gradientStage_Proj s inp k hk,
    gradientStage_Normal s inp k hk, hc]
  simp only [projOf, if_true, hN, hE, hE2]
  constructor
  · ring
  · simp

/-- Witness of the amended C26: the worked example with correction, gradient `(1,0)` at both endpoints,
edge `(1,0)`, and the scalar values `0` and `1` at the endpoints i and j. -/
theorem linear_field_exact_witness :
    implicitKernel.correct_gradient = true ∧ 0 < implicitKernel.nVar ∧
      (ComputeResidual (Closure.TurbSA (2 / 3)) implicitKernel
          { exampleEdge with TurbVar_i := fun _ => 0, TurbVar_j := fun _ => 1 }).Proj_Mean_GradTurbVar
        0 =
        ∑ d in Finset.range implicitKernel.nDim, (if d = 0 then (1 : ℚ) else 0) *
          ({ exampleEdge with TurbVar_i := fun _ => 0, TurbVar_j := fun _ => 1 } :
            EdgeInput).Normal d :=
  ⟨rfl, by decide,
    (linear_field_exact (Closure.TurbSA (2 / 3)) implicitKernel
      { exampleEdge with TurbVar_i := fun _ => 0, TurbVar_j := fun _ => 1 } 0
      (fun d => if d = 0 then 1 else 0) rfl (by decide) (fun _ _ => rfl) (fun _ _ => rfl)
      (by simp [implicitKernel, exampleEdge, ctor, Finset.sum_range_succ])).1⟩

/-- A non-zero edge vector has a non-zero squared length. -/
theorem dist2Of_pos (inp : EdgeInput) (D : Nat)
    (h : ∃ d, d < D ∧ inp.Coord_j d - inp.Coord_i d ≠ 0) : 0 < dist2Of inp D := by
  obtain ⟨d, hd, hne⟩ := h
  unfold dist2Of
  apply Finset.sum_pos'
  · intro i _
    exact mul_self_nonneg _
  · exact ⟨d, Finset.mem_range.mpr hd, mul_self_pos.mpr hne⟩

/-- C27, amended (orthogonal-mesh reduction): evaluated in exact arithmetic, with the
correction flag set, a non-zero edge vector
and a normal parallel to it, `Normal = a * (Coord_j - Coord_i)`, the corrected projection is
the edge finite difference `Proj_Mean_GradTurbVar[k] = a * (TurbVar_j[k] - TurbVar_i[k])`,
in which the endpoint gradients do not appear. -/
theorem orthogonal_mesh_reduction (c : Closure) (s : CNEMOAvgGrad_Scalar) (inp : EdgeInput)
    (k : Nat) (a : ℚ) (hc : s.correct_gradient = true) (hk : k < s.nVar)
    (hne : ∃ d, d < s.nDim ∧ inp.Coord_j d - inp.Coord_i d ≠ 0)
    (hN : ∀ d, d < s.nDim → inp.Normal d = a * (inp.Coord_j d - inp.Coord_i d)) :
    (ComputeResidual c s inp).Proj_Mean_GradTurbVar k =
      a * (inp.TurbVar_j k - inp.TurbVar_i k) := by
  have hpos := dist2Of_pos inp s.nDim hne
  have hdot : (∑ d in Finset.range s.nDim, edgeOf inp d * inp.Normal d) =
      a * dist2Of inp s.nDim := by
    unfold dist2Of
    rw [Finset.mul_sum]
    apply Finset.sum_congr rfl
    intro d hd
    rw [hN d (Finset.mem_range.mp hd)]
    simp only [edgeOf]
    ring
  have hw : weightOf inp s.nDim = a := by
    unfold weightOf
    rw [if_neg hpos.ne.symm, hdot]
    field_simp
  have hPN : meanGradDot inp inp.Normal s.nDim k =
      a * meanGradDot inp (edgeOf inp) s.nDim k := by
    unfold meanGradDot
    rw [Finset.mul_sum]
    apply Finset.sum_congr rfl
    intro d hd
    rw [hN d (Finset.mem_range.mp hd)]
    simp only [edgeOf]
    ring
  rw [ComputeResidual_Proj, gradientStage_Proj s inp k hk, hc]
  simp only [projOf, if_true, hw, hPN]
  ring

/-- Witness of the amended C27: the worked example with correction and the scalar values `0` and `1`;
the normal `(1,0)` is `1` times the edge `(1,0)`. -/
theorem orthogonal_mesh_reduction_witness :
    implicitKernel.correct_gradient = true ∧ 0 < implicitKernel.nVar ∧
      (ComputeResidual (Closure.TurbSA (2 / 3)) implicitKernel
          { exampleEdge with TurbVar_i := fun _ => 0, TurbVar_j := fun _ => 1 }).Proj_Mean_GradTurbVar
        0 = 1 * ((1 : ℚ) - 0) :=
  ⟨rfl, by decide,
    orthogonal_mesh_reduction (Closure.TurbSA (2 / 3)) implicitKernel
      { exampleEdge with TurbVar_i := fun _ => 0, TurbVar_j := fun _ => 1 } 0 1 rfl (by decide)
      ⟨0, by decide, by simp [exampleEdge]⟩
      (fun d _ => by simp [exampleEdge])⟩

/-! ## The Jacobian blocks of the reversed edge -/

end CNEMOAvgGrad_Scalar

namespace CNEMOAvgGrad_Scalar

/-! ## Array bounds and termination of the loops -/

/-- Started after `i` passes, the `unsigned short` loop needs `n - i + 1` evaluations of its
test and ends in the state of the `for` loop. -/
theorem forLoopU16_from {σ : Type} (n : Nat) (hn : n < 65536) (body : Nat → σ → σ) (s : σ)
    (m i : Nat) (hm : n - i = m) (hi : i ≤ n) :
    forLoopU16 (m + 1) i n body (forLoop i body s) = some (forLoop n body s) := by
  induction m generalizing i with
  | zero =>
    have hin : i = n := by omega
    subst hin
    simp [forLoopU16]
  | succ m ih =>
    have hlt : i < n := by omega
    have hmod : (i + 1) % 65536 = i + 1 := Nat.mod_eq_of_lt (by omega)
    rw [forLoopU16, if_pos hlt, hmod]
    have hstep : body i (forLoop i body s) = forLoop (i + 1) body s := rfl
    rw [hstep]
    exact ih (i + 1) (by omega) (by omega)

theorem forLoopU16_terminates {σ : Type} (n : Nat) (hn : n < 65536) (body : Nat → σ → σ)
    (s : σ) : forLoopU16 (n + 1) 0 n body s = some (forLoop n body s) :=
  forLoopU16_from n hn body s n 0 (by omega) (by omega)

theorem edgeBodyAccesses_inBounds (nVar nDim d : Nat) (hd : d < nDim) :
    ∀ a ∈ edgeBodyAccesses d, a.inBounds nVar nDim := by
  simp [edgeBodyAccesses, Access.inBounds, Buffer.rows, Buffer.cols, hd]

theorem gradBodyAccesses_inBounds (s : CNEMOAvgGrad_Scalar) (k d : Nat) (hk : k < s.nVar)
    (hd : d < s.nDim) : ∀ a ∈ gradBodyAccesses s k d, a.inBounds s.nVar s.nDim := by
  cases hc : s.correct_gradient <;>
    simp [gradBodyAccesses, Access.inBounds, Buffer.rows, Buffer.cols, hk, hd, hc]

theorem varBodyAccesses_inBounds (s : CNEMOAvgGrad_Scalar) (k : Nat) (hk : k < s.nVar) :
    ∀ a ∈ varBodyAccesses s k, a.inBounds s.nVar s.nDim := by
  intro a ha
  simp only [varBodyAccesses, List.mem_append, List.mem_flatMap, List.mem_range] at ha
  rcases ha with ((ha | ⟨d, hd, ha⟩) | ha) | ha
  · revert a
    simp [Access.inBounds, Buffer.rows, Buffer.cols, hk]
  · exact gradBodyAccesses_inBounds s k d hk hd a ha
  · revert a
    simp [Access.inBounds, Buffer.rows, Buffer.cols, hk]
  · revert a
    cases hc : s.correct_gradient <;> simp [Access.inBounds, Buffer.rows, Buffer.cols, hk]

theorem finishAccesses_inBounds (c : Closure) (s : CNEMOAvgGrad_Scalar)
    (hV : c.nScalars ≤ s.nVar) : ∀ a ∈ finishAccesses c s, a.inBounds s.nVar s.nDim := by
  cases c <;> simp only [Closure.nScalars] at hV
  · have h0 : 0 < s.nVar := by omega
    cases hi : s.implicit <;>
      simp [finishAccesses, jacobianAccesses, Access.inBounds, Buffer.rows, Buffer.cols, h0, hi]
  · have h0 : 0 < s.nVar := by omega
    cases hi : s.implicit <;>
      simp [finishAccesses, jacobianAccesses, Access.inBounds, Buffer.rows, Buffer.cols, h0, hi]
  · have h0 : 0 < s.nVar := by omega
    have h1 : 1 < s.nVar := by omega
    cases hi : s.implicit <;>
      simp [finishAccesses, Access.inBounds, Buffer.rows, Buffer.cols, h0, h1, hi]

/-- C29: on a kernel with at least as many scalars as its closure stores (`nVar ≥ 1` for the
single-equation closures, `nVar ≥ 2` for the two-equation closure) and inputs of shape
`nVar x nDim`, every access of a call to `Flux`, `Jacobian_i`, `Jacobian_j`, the three
projection buffers, `TurbVar_i/j`, `TurbVar_Grad_i/j`, the coordinates and the normal uses
indices below the allocated lengths; and the loop over `nDim` of lines 95-99, the inner loop
over `nDim` and the outer loop over `nVar` of lines 104-121, run with `unsigned short`
counters, terminate after `nDim + 1`, `nDim + 1` and `nVar + 1` evaluations of their tests
in the state the model computes. -/
theorem buffer_indices_in_bounds (c : Closure) (s : CNEMOAvgGrad_Scalar) (inp : EdgeInput)
    (hV : c.nScalars ≤ s.nVar) (hnV : s.nVar < 65536) (hnD : s.nDim < 65536) :
    (∀ a ∈ accesses c s, a.inBounds s.nVar s.nDim) ∧
      (∀ t, forLoopU16 (s.nDim + 1) 0 s.nDim (edgeBody inp) t =
        some (forLoop s.nDim (edgeBody inp) t)) ∧
      (∀ iVar t, forLoopU16 (s.nDim + 1) 0 s.nDim (gradBody inp iVar) t =
        some (forLoop s.nDim (gradBody inp iVar) t)) ∧
      (∀ t, forLoopU16 (s.nVar + 1) 0 s.nVar (varBody inp) t =
        some (forLoop s.nVar (varBody inp) t)) := by
  refine ⟨?_, fun t => forLoopU16_terminates _ hnD _ t,
    fun iVar t => forLoopU16_terminates _ hnD _ t, fun t => forLoopU16_terminates _ hnV _ t⟩
  intro a ha
  simp only [accesses, List.mem_append, List.mem_flatMap, List.mem_range] at ha
  rcases ha with (⟨d, hd, ha⟩ | ⟨k, hk, ha⟩) | ha
  · exact edgeBodyAccesses_inBounds s.nVar s.nDim d hd a ha
  · exact varBodyAccesses_inBounds s k hk a ha
  · exact finishAccesses_inBounds c s hV a ha

/-- Witness of C29: a fresh implicit two-scalar kernel with the two-equation closure. -/
theorem buffer_indices_in_bounds_witness :
    (Closure.TurbSST 1 2 (1 / 2) 1).nScalars ≤ twoEquationKernel.nVar ∧
      twoEquationKernel.nVar < 65536 ∧ twoEquationKernel.nDim < 65536 ∧
      ∀ a ∈ accesses (Closure.TurbSST 1 2 (1 / 2) 1) twoEquationKernel,
        a.inBounds twoEquationKernel.nVar twoEquationKernel.nDim :=
  ⟨by decide, by decide, by decide,
    (buffer_indices_in_bounds (Closure.TurbSST 1 2 (1 / 2) 1) twoEquationKernel negativeEdge
      (by decide) (by decide) (by decide)).1⟩

end CNEMOAvgGrad_Scalar

/-! ## The multizone driver output -/

namespace CDriverOutput

/-- Lines 52-57: after the loop `write_zone` holds the setting of the last zone, or `false`
when there is no zone. -/
theorem write_zone_ctor (nZone : Nat) (GetWrt_ZoneConv : Nat → Bool) (curOuterIter : Nat) :
    (ctor nZone GetWrt_ZoneConv curOuterIter).write_zone =
      (if nZone = 0 then false else GetWrt_ZoneConv (nZone - 1)) := by
  cases nZone with
  | zero => rfl
  | succ n => simp [ctor, forLoop]

/-- C30 fails on the code: with two zones, zone-convergence output enabled for zone 0 and
disabled for zone 1, the constructor leaves `write_zone = false` although the output is
enabled for a zone; in general `write_zone` is the setting of the last zone only.
`WriteScreen_Header` does return `true` exactly when `curOuterIter` is `0` or `write_zone`
is `true`. -/
theorem write_zone_last_zone_only :
    (ctor 2 (fun iZone => decide (iZone = 0)) 0).write_zone = false ∧
      (∃ iZone, iZone < 2 ∧ (fun iZone => decide (iZone = 0)) iZone = true) ∧
      (∀ (nZone : Nat) (GetWrt_ZoneConv : Nat → Bool) (curOuterIter : Nat),
        (ctor nZone GetWrt_ZoneConv curOuterIter).write_zone =
          (if nZone = 0 then false else GetWrt_ZoneConv (nZone - 1))) ∧
      (∀ o : CDriverOutput,
        WriteScreen_Header o = true ↔ (o.curOuterIter = 0 ∨ o.write_zone = true)) := by
  refine ⟨by decide, ⟨0, by decide, by decide⟩, write_zone_ctor, ?_⟩
  intro o
  simp [WriteScreen_Header]

end CDriverOutput

/-! ## The kernel in binary64

Evaluations of the binary64 embedding at concrete inputs.  Equality of values is equality of
the sign and magnitude, so `+0.0` and `-0.0` are different values; every inequality below
is between values that the comparison `==` of the language tells apart as well. -/

namespace IEEE

namespace CNEMOAvgGrad_Scalar

/-- C26, as stated, fails in binary64: on `linearEdge` both endpoints carry the gradient
`g = (1,1,1)` and `TurbVar_j - TurbVar_i = 1 + 2^-52` is exactly `g . e` for the edge vector
`e = (2^-53, 1, 2^-53)`, yet the sum of line 113 rounds `g . e` to `1`, and the corrected
projection is `1 + 2^-52` while `g . Normal` is `1`. -/
theorem linear_field_rounding :
    (∀ d, d < 3 → linearEdge.TurbVar_Grad_i 0 d = Double.one ∧
      linearEdge.TurbVar_Grad_j 0 d = Double.one) ∧
    (linearEdge.TurbVar_j 0).toRat - (linearEdge.TurbVar_i 0).toRat =
      1 * ((linearEdge.Coord_j 0).toRat - (linearEdge.Coord_i 0).toRat) +
      1 * ((linearEdge.Coord_j 1).toRat - (linearEdge.Coord_i 1).toRat) +
      1 * ((linearEdge.Coord_j 2).toRat - (linearEdge.Coord_i 2).toRat) ∧
    (ComputeResidual (Closure.TurbSA sigma) (ctor 3 1 true false false 0 1 2)
      linearEdge).Proj_Mean_GradTurbVar_Normal 0 = Double.one ∧
    (ComputeResidual (Closure.TurbSA sigma) (ctor 3 1 true false false 0 1 2)
      linearEdge).Proj_Mean_GradTurbVar 0 = Double.finite false (1 + 1 / 2 ^ 52) ∧
    (ComputeResidual (Closure.TurbSA sigma) (ctor 3 1 true false false 0 1 2)
      linearEdge).Proj_Mean_GradTurbVar 0 ≠
    (ComputeResidual (Closure.TurbSA sigma) (ctor 3 1 true false false 0 1 2)
      linearEdge).Proj_Mean_GradTurbVar_Normal 0 := by
  decide!

/-- C27, as stated, fails in binary64: on `steepEdge` the normal equals the edge vector
(`a = 1`) and `TurbVar_j - TurbVar_i = 1`, but with the endpoint gradients `(2^60, 0)` the
difference of line 118 is `2^60 - 1`, which rounds to `2^60`, and the corrected projection
is `0` instead of `a * (TurbVar_j - TurbVar_i) = 1`; with the gradients `(1, 0)` on the same
edge (`gentleEdge`) it is `1`, so the result does depend on the endpoint gradients. -/
theorem orthogonal_mesh_absorption :
    (∀ d, d < 2 → (steepEdge.Normal d).toRat =
      1 * ((steepEdge.Coord_j d).toRat - (steepEdge.Coord_i d).toRat)) ∧
    (steepEdge.TurbVar_j 0).toRat - (steepEdge.TurbVar_i 0).toRat = 1 ∧
    (ComputeResidual (Closure.TurbSA sigma) (ctor 2 1 true false false 0 1 2)
      steepEdge).proj_vector_ij = Double.one ∧
    (ComputeResidual (Closure.TurbSA sigma) (ctor 2 1 true false false 0 1 2)
      steepEdge).Proj_Mean_GradTurbVar 0 = Double.zero ∧
    (ComputeResidual (Closure.TurbSA sigma) (ctor 2 1 true false false 0 1 2)
      gentleEdge).Proj_Mean_GradTurbVar 0 = Double.one := by
  decide!

end CNEMOAvgGrad_Scalar

namespace CNEMOAvgGrad_TurbSA_Neg

open CNEMOAvgGrad_Scalar in
/-- C24, as stated, fails in binary64: on `tinyScalarEdge` the averaged scalar `2^-53` is
positive, line 147 gives `nu_e = 0.5` (the sum of four terms absorbs each scalar value in
turn) while lines 176-180 give `nu_e = 0.5 + 2^-53`; with the correction flag not set the
two closures then differ in `Flux[0]` and in `Jacobian_i[0][0]`. -/
theorem positive_branch_rounding :
    (nu_tilde_ij tinyScalarEdge).isPos = true ∧
    CNEMOAvgGrad_TurbSA.nu_e tinyScalarEdge
      (ComputeResidual (Closure.TurbSA sigma) (ctor 2 1 false true false 0 1 2)
        tinyScalarEdge) = Double.half ∧
    nu_e cn1 tinyScalarEdge
      (ComputeResidual (Closure.TurbSA_Neg sigma cn1) (ctor 2 1 false true false 0 1 2)
        tinyScalarEdge) = Double.finite false (1 / 2 + 1 / 2 ^ 53) ∧
    (ComputeResidual (Closure.TurbSA sigma) (ctor 2 1 false true false 0 1 2)
      tinyScalarEdge).Flux 0 = Double.finite false (3 / 4) ∧
    (ComputeResidual (Closure.TurbSA_Neg sigma cn1) (ctor 2 1 false true false 0 1 2)
      tinyScalarEdge).Flux 0 = Double.finite false (3377699720527873 / 4503599627370496) ∧
    (ComputeResidual (Closure.TurbSA sigma) (ctor 2 1 false true false 0 1 2)
      tinyScalarEdge).Jacobian_i 0 0 = Double.zero ∧
    (ComputeResidual (Closure.TurbSA_Neg sigma cn1) (ctor 2 1 false true false 0 1 2)
      tinyScalarEdge).Jacobian_i 0 0 = Double.finite true (3 / 2 ^ 54) := by
  decide!

end CNEMOAvgGrad_TurbSA_Neg

namespace CNEMOAvgGrad_TurbSST

end CNEMOAvgGrad_TurbSST

end IEEE

end SU2
